import Mathlib

/-!
# Cadence history service: request dispatch gateway and error translator

A shallow embedding of `service/history/handler.go`.

* Thrift structs are records holding the fields the handler reads; an optional (pointer)
  field is an `Option`. The generated accessors `GetX()` are taken to be nil-safe: they
  return the zero value for an absent field and for a nil receiver. A field read directly
  through a nil pointer is a run-time panic, `Outcome.panic`.
* The handler's collaborators (rate limiter, token serializer, shard controller, engines,
  membership resolver, domain cache) are fields of `Handler`. Every call a method makes on
  one of them, every metric it records and every line it logs is an `Event`; a method
  appends its events, in program order, to the trace of the `World` it runs in, which
  also holds the state of the rate limiter's bucket.
* `h.startWG.Wait()` returns only once the counter of the wait group is zero; a call
  made while it is not zero does not get past it, `Outcome.blocked`.
* `uuid.Parse` belongs to an external library; `Handler.uuid_Parse s` says whether
  `uuid.Parse(s)` is non-nil.
-/

set_option autoImplicit false

/-! ## Generated Thrift types (`.gen/go/shared`) -/

namespace gen

structure WorkflowExecution where
  WorkflowId : Option String
  RunId : Option String
deriving DecidableEq, Repr, Inhabited

/-- Nil-safe accessor `(*WorkflowExecution).GetWorkflowId`. -/
def WorkflowExecution.GetWorkflowId : Option WorkflowExecution → String
  | some v => v.WorkflowId.getD ""
  | none => ""

/-- Nil-safe accessor `(*WorkflowExecution).GetRunId`. -/
def WorkflowExecution.GetRunId : Option WorkflowExecution → String
  | some v => v.RunId.getD ""
  | none => ""

structure TaskList where
  Name : Option String
deriving DecidableEq, Repr, Inhabited

/-- Nil-safe accessor `(*TaskList).GetName`. -/
def TaskList.GetName : Option TaskList → String
  | some v => v.Name.getD ""
  | none => ""

structure PollForDecisionTaskRequest where
  TaskList : Option TaskList
deriving DecidableEq, Repr, Inhabited

structure RecordActivityTaskHeartbeatRequest where
  TaskToken : List UInt8
deriving DecidableEq, Repr, Inhabited

structure RespondActivityTaskCompletedRequest where
  TaskToken : List UInt8
deriving DecidableEq, Repr, Inhabited

structure RespondActivityTaskFailedRequest where
  TaskToken : List UInt8
deriving DecidableEq, Repr, Inhabited

structure RespondActivityTaskCanceledRequest where
  TaskToken : List UInt8
deriving DecidableEq, Repr, Inhabited

structure RespondDecisionTaskCompletedRequest where
  TaskToken : List UInt8
deriving DecidableEq, Repr, Inhabited

structure RespondDecisionTaskFailedRequest where
  TaskToken : List UInt8
deriving DecidableEq, Repr, Inhabited

structure StartWorkflowExecutionRequest where
  WorkflowId : Option String
deriving DecidableEq, Repr, Inhabited

/-- Nil-safe accessor `(*StartWorkflowExecutionRequest).GetWorkflowId`. -/
def StartWorkflowExecutionRequest.GetWorkflowId : Option StartWorkflowExecutionRequest → String
  | some v => v.WorkflowId.getD ""
  | none => ""

structure SignalWithStartWorkflowExecutionRequest where
  WorkflowId : Option String
deriving DecidableEq, Repr, Inhabited

/-- Nil-safe accessor `(*SignalWithStartWorkflowExecutionRequest).GetWorkflowId`. -/
def SignalWithStartWorkflowExecutionRequest.GetWorkflowId :
    Option SignalWithStartWorkflowExecutionRequest → String
  | some v => v.WorkflowId.getD ""
  | none => ""

structure DescribeWorkflowExecutionRequest where
  Execution : Option WorkflowExecution
deriving DecidableEq, Repr, Inhabited

structure RequestCancelWorkflowExecutionRequest where
  Domain : Option String
  WorkflowExecution : Option WorkflowExecution
deriving DecidableEq, Repr, Inhabited

/-- Nil-safe accessor `(*RequestCancelWorkflowExecutionRequest).GetDomain`. -/
def RequestCancelWorkflowExecutionRequest.GetDomain :
    Option RequestCancelWorkflowExecutionRequest → String
  | some v => v.Domain.getD ""
  | none => ""

structure SignalWorkflowExecutionRequest where
  WorkflowExecution : Option WorkflowExecution
deriving DecidableEq, Repr, Inhabited

structure QueryWorkflowRequest where
  Execution : Option WorkflowExecution
deriving DecidableEq, Repr, Inhabited

structure TerminateWorkflowExecutionRequest where
  WorkflowExecution : Option WorkflowExecution
deriving DecidableEq, Repr, Inhabited

structure ResetWorkflowExecutionRequest where
  WorkflowExecution : Option WorkflowExecution
deriving DecidableEq, Repr, Inhabited

structure DescribeHistoryHostRequest where
  HostAddress : Option String
deriving DecidableEq, Repr, Inhabited

structure DomainCacheInfo where
  NumOfItemsInCacheByID : Int
  NumOfItemsInCacheByName : Int
deriving DecidableEq, Repr, Inhabited

structure DescribeHistoryHostResponse where
  NumberOfShards : Int
  ShardIDs : List Int
  DomainCache : DomainCacheInfo
  ShardControllerStatus : String
  Address : String
deriving DecidableEq, Repr, Inhabited

end gen

/-! ## Generated Thrift types (`.gen/go/history`) -/

namespace hist

structure RecordActivityTaskHeartbeatRequest where
  DomainUUID : Option String
  HeartbeatRequest : Option gen.RecordActivityTaskHeartbeatRequest
deriving DecidableEq, Repr, Inhabited

structure RecordActivityTaskStartedRequest where
  DomainUUID : Option String
  WorkflowExecution : Option gen.WorkflowExecution
deriving DecidableEq, Repr, Inhabited

structure RecordDecisionTaskStartedRequest where
  DomainUUID : Option String
  WorkflowExecution : Option gen.WorkflowExecution
  ScheduleId : Option Int
  PollRequest : Option gen.PollForDecisionTaskRequest
deriving DecidableEq, Repr, Inhabited

structure RespondActivityTaskCompletedRequest where
  DomainUUID : Option String
  CompleteRequest : Option gen.RespondActivityTaskCompletedRequest
deriving DecidableEq, Repr, Inhabited

structure RespondActivityTaskFailedRequest where
  DomainUUID : Option String
  FailedRequest : Option gen.RespondActivityTaskFailedRequest
deriving DecidableEq, Repr, Inhabited

structure RespondActivityTaskCanceledRequest where
  DomainUUID : Option String
  CancelRequest : Option gen.RespondActivityTaskCanceledRequest
deriving DecidableEq, Repr, Inhabited

structure RespondDecisionTaskCompletedRequest where
  DomainUUID : Option String
  CompleteRequest : Option gen.RespondDecisionTaskCompletedRequest
deriving DecidableEq, Repr, Inhabited

structure RespondDecisionTaskFailedRequest where
  DomainUUID : Option String
  FailedRequest : Option gen.RespondDecisionTaskFailedRequest
deriving DecidableEq, Repr, Inhabited

structure StartWorkflowExecutionRequest where
  DomainUUID : Option String
  StartRequest : Option gen.StartWorkflowExecutionRequest
deriving DecidableEq, Repr, Inhabited

structure DescribeMutableStateRequest where
  DomainUUID : Option String
  Execution : Option gen.WorkflowExecution
deriving DecidableEq, Repr, Inhabited

structure GetMutableStateRequest where
  DomainUUID : Option String
  Execution : Option gen.WorkflowExecution
deriving DecidableEq, Repr, Inhabited

structure DescribeWorkflowExecutionRequest where
  DomainUUID : Option String
  Request : Option gen.DescribeWorkflowExecutionRequest
deriving DecidableEq, Repr, Inhabited

structure RequestCancelWorkflowExecutionRequest where
  DomainUUID : Option String
  CancelRequest : Option gen.RequestCancelWorkflowExecutionRequest
deriving DecidableEq, Repr, Inhabited

structure SignalWorkflowExecutionRequest where
  DomainUUID : Option String
  SignalRequest : Option gen.SignalWorkflowExecutionRequest
deriving DecidableEq, Repr, Inhabited

structure SignalWithStartWorkflowExecutionRequest where
  DomainUUID : Option String
  SignalWithStartRequest : Option gen.SignalWithStartWorkflowExecutionRequest
deriving DecidableEq, Repr, Inhabited

structure RemoveSignalMutableStateRequest where
  DomainUUID : Option String
  WorkflowExecution : Option gen.WorkflowExecution
deriving DecidableEq, Repr, Inhabited

structure QueryWorkflowRequest where
  DomainUUID : Option String
  QueryRequest : Option gen.QueryWorkflowRequest
deriving DecidableEq, Repr, Inhabited

structure TerminateWorkflowExecutionRequest where
  DomainUUID : Option String
  TerminateRequest : Option gen.TerminateWorkflowExecutionRequest
deriving DecidableEq, Repr, Inhabited

structure ResetWorkflowExecutionRequest where
  DomainUUID : Option String
  ResetRequest : Option gen.ResetWorkflowExecutionRequest
deriving DecidableEq, Repr, Inhabited

structure ScheduleDecisionTaskRequest where
  DomainUUID : Option String
  WorkflowExecution : Option gen.WorkflowExecution
deriving DecidableEq, Repr, Inhabited

structure RecordChildExecutionCompletedRequest where
  DomainUUID : Option String
  WorkflowExecution : Option gen.WorkflowExecution
deriving DecidableEq, Repr, Inhabited

structure ResetStickyTaskListRequest where
  DomainUUID : Option String
  Execution : Option gen.WorkflowExecution
deriving DecidableEq, Repr, Inhabited

structure ReplicateEventsRequest where
  DomainUUID : Option String
  WorkflowExecution : Option gen.WorkflowExecution
deriving DecidableEq, Repr, Inhabited

structure ReplicateRawEventsRequest where
  DomainUUID : Option String
  WorkflowExecution : Option gen.WorkflowExecution
deriving DecidableEq, Repr, Inhabited

structure SyncShardStatusRequest where
  SourceCluster : Option String
  ShardId : Option Int
  Timestamp : Option Int
deriving DecidableEq, Repr, Inhabited

structure SyncActivityRequest where
  DomainId : Option String
  WorkflowId : Option String
  RunId : Option String
deriving DecidableEq, Repr, Inhabited

end hist

/-! ## Other collaborator types -/

namespace health

structure HealthStatus where
  Ok : Bool
  Msg : Option String
deriving DecidableEq, Repr, Inhabited

end health

namespace common

/-- The decoded task token (`common.TaskToken`). -/
structure TaskToken where
  DomainID : String
  WorkflowID : String
  RunID : String
  ScheduleID : Int
deriving DecidableEq, Repr, Inhabited

end common

namespace membership

structure HostInfo where
  addr : String
deriving DecidableEq, Repr, Inhabited

/-- Accessor `(*HostInfo).GetAddress`. -/
def HostInfo.GetAddress (hi : HostInfo) : String := hi.addr

end membership

/-! ## Errors

Go's `error` values, by concrete (dynamic) type: the arms of the type switches
in `convertError` and `updateErrorMetric`, and `other` for every other type. -/

inductive Err
  | persistence_ShardOwnershipLostError (ShardID : Int) (Msg : String)
  | persistence_WorkflowExecutionAlreadyStartedError (Msg StartRequestID RunID : String)
  | persistence_CurrentWorkflowConditionFailedError (Msg : String)
  | hist_ShardOwnershipLostError (Message Owner : Option String)
  | hist_EventAlreadyStartedError (Message : String)
  | gen_BadRequestError (Message : String)
  | gen_DomainNotActiveError (Message : String)
  | gen_WorkflowExecutionAlreadyStartedError (Message StartRequestId RunId : Option String)
  | gen_EntityNotExistsError (Message : String)
  | gen_CancellationAlreadyRequestedError (Message : String)
  | gen_LimitExceededError (Message : String)
  | gen_RetryTaskError (Message : String)
  | gen_ServiceBusyError (Message : String)
  | yarpcerrors_Status (code : Nat) (message : String)
  | gen_InternalServiceError (Message : String)
  | other (text : String)
deriving DecidableEq, Repr, Inhabited

namespace yarpcerrors

/-- The status code `yarpcerrors.CodeDeadlineExceeded`. -/
def CodeDeadlineExceeded : Nat := 4

end yarpcerrors

def errDomainNotSet : Err := .gen_BadRequestError "Domain not set on request."
def errWorkflowExecutionNotSet : Err := .gen_BadRequestError "WorkflowExecution not set on request."
def errTaskListNotSet : Err := .gen_BadRequestError "Tasklist not set."
def errWorkflowIDNotSet : Err := .gen_BadRequestError "WorkflowId is not set on request."
def errRunIDNotValid : Err := .gen_BadRequestError "RunID is not valid UUID."
def errSourceClusterNotSet : Err := .gen_BadRequestError "Source Cluster not set on request."
def errShardIDNotSet : Err := .gen_BadRequestError "Shard ID not set on request."
def errTimestampNotSet : Err := .gen_BadRequestError "Timestamp not set on request."
def errHistoryHostThrottle : Err := .gen_ServiceBusyError "History host rps exceeded"

/-! ## Metrics and logging names -/

namespace metrics

/-- The metric scopes the handler uses (distinct integer constants of `common/metrics`). -/
inductive Scope
  | HistoryRecordActivityTaskHeartbeatScope
  | HistoryRecordActivityTaskStartedScope
  | HistoryRecordDecisionTaskStartedScope
  | HistoryRespondActivityTaskCompletedScope
  | HistoryRespondActivityTaskFailedScope
  | HistoryRespondActivityTaskCanceledScope
  | HistoryRespondDecisionTaskCompletedScope
  | HistoryRespondDecisionTaskFailedScope
  | HistoryStartWorkflowExecutionScope
  | HistoryGetMutableStateScope
  | HistoryDescribeWorkflowExecutionScope
  | HistoryRequestCancelWorkflowExecutionScope
  | HistorySignalWorkflowExecutionScope
  | HistorySignalWithStartWorkflowExecutionScope
  | HistoryRemoveSignalMutableStateScope
  | HistoryClientQueryWorkflowScope
  | HistoryTerminateWorkflowExecutionScope
  | HistoryResetWorkflowExecutionScope
  | HistoryScheduleDecisionTaskScope
  | HistoryRecordChildExecutionCompletedScope
  | HistoryResetStickyTaskListScope
  | HistoryReplicateEventsScope
  | HistoryReplicateRawEventsScope
  | HistorySyncShardStatusScope
  | HistorySyncActivityScope
deriving DecidableEq, Repr, Inhabited

/-- The metric names the handler uses (distinct integer constants of `common/metrics`). -/
inductive Metric
  | CadenceRequests
  | CadenceFailures
  | CadenceLatency
  | CadenceErrShardOwnershipLostCounter
  | CadenceErrEventAlreadyStartedCounter
  | CadenceErrBadRequestCounter
  | CadenceErrExecutionAlreadyStartedCounter
  | CadenceErrEntityNotExistsCounter
  | CadenceErrCancellationAlreadyRequestedCounter
  | CadenceErrLimitExceededCounter
  | CadenceErrRetryTaskCounter
  | CadenceErrServiceBusyCounter
  | CadenceErrContextTimeoutCounter
deriving DecidableEq, Repr, Inhabited

end metrics

namespace logging

/-- The structured-logging field names `TagDomainID` and `TagWorkflowExecutionID`. -/
inductive Tag
  | TagDomainID
  | TagWorkflowExecutionID
deriving DecidableEq, Repr, Inhabited

end logging

namespace bark

/-- A logger is the list of structured fields attached to it so far. -/
structure Logger where
  fields : List (logging.Tag × String)
deriving DecidableEq, Repr, Inhabited

/-- The method `Logger.WithField`. -/
def Logger.WithField (l : Logger) (key : logging.Tag) (value : String) : Logger :=
  { fields := l.fields ++ [(key, value)] }

end bark

/-! ## Calls, engines and the trace -/

/-- An RPC of the handler together with its request. -/
inductive Call
  | Health
  | RecordActivityTaskHeartbeat (r : hist.RecordActivityTaskHeartbeatRequest)
  | RecordActivityTaskStarted (r : hist.RecordActivityTaskStartedRequest)
  | RecordDecisionTaskStarted (r : hist.RecordDecisionTaskStartedRequest)
  | RespondActivityTaskCompleted (r : hist.RespondActivityTaskCompletedRequest)
  | RespondActivityTaskFailed (r : hist.RespondActivityTaskFailedRequest)
  | RespondActivityTaskCanceled (r : hist.RespondActivityTaskCanceledRequest)
  | RespondDecisionTaskCompleted (r : hist.RespondDecisionTaskCompletedRequest)
  | RespondDecisionTaskFailed (r : hist.RespondDecisionTaskFailedRequest)
  | StartWorkflowExecution (r : hist.StartWorkflowExecutionRequest)
  | DescribeHistoryHost (r : gen.DescribeHistoryHostRequest)
  | DescribeMutableState (r : hist.DescribeMutableStateRequest)
  | GetMutableState (r : hist.GetMutableStateRequest)
  | DescribeWorkflowExecution (r : hist.DescribeWorkflowExecutionRequest)
  | RequestCancelWorkflowExecution (r : hist.RequestCancelWorkflowExecutionRequest)
  | SignalWorkflowExecution (r : hist.SignalWorkflowExecutionRequest)
  | SignalWithStartWorkflowExecution (r : hist.SignalWithStartWorkflowExecutionRequest)
  | RemoveSignalMutableState (r : hist.RemoveSignalMutableStateRequest)
  | QueryWorkflow (r : hist.QueryWorkflowRequest)
  | TerminateWorkflowExecution (r : hist.TerminateWorkflowExecutionRequest)
  | ResetWorkflowExecution (r : hist.ResetWorkflowExecutionRequest)
  | ScheduleDecisionTask (r : hist.ScheduleDecisionTaskRequest)
  | RecordChildExecutionCompleted (r : hist.RecordChildExecutionCompletedRequest)
  | ResetStickyTaskList (r : hist.ResetStickyTaskListRequest)
  | ReplicateEvents (r : hist.ReplicateEventsRequest)
  | ReplicateRawEvents (r : hist.ReplicateRawEventsRequest)
  | SyncShardStatus (r : hist.SyncShardStatusRequest)
  | SyncActivity (r : hist.SyncActivityRequest)
deriving DecidableEq, Repr, Inhabited

/-- A handle on a per-shard engine, as returned by the shard controller. -/
structure Engine where
  id : Nat
deriving DecidableEq, Repr, Inhabited

/-- What a handler method hands back on success. -/
inductive Response
  | engine (payload : Nat)
  | health (hs : health.HealthStatus)
  | describeHistoryHost (r : gen.DescribeHistoryHostResponse)
deriving DecidableEq, Repr, Inhabited

/-- How a handler call ends: it never gets past the start barrier, it panics,
it returns `(response, nil)` (or a nil error), or it returns an error. -/
inductive Outcome
  | blocked
  | panic
  | ok (response : Option Response)
  | error (err : Err)
deriving DecidableEq, Repr, Inhabited

/-- A call the handler makes on one of its collaborators. -/
inductive Event
  | IncCounter (scope : metrics.Scope) (counter : metrics.Metric)
  | StartTimer (scope : metrics.Scope) (timer : metrics.Metric)
  | StopTimer (scope : metrics.Scope) (timer : metrics.Metric)
  | TryConsume (n : Nat) (ok : Bool)
  | Deserialize (data : List UInt8)
  | GetEngine (workflowID : String)
  | getEngineForShard (shardID : Int)
  | EngineCall (engine : Engine) (call : Call)
  | Lookup (key : String)
  | GetCacheSize
  | Debug (msg : String)
  | Debugf (format : String) (args : List String)
  | Errorf (format : String) (err : Err) (args : List String)
  | LogInternalServiceError (logger : bark.Logger) (err : Err)
  | LogUncategorizedError (logger : bark.Logger) (err : Err)
deriving DecidableEq, Repr, Inhabited

/-- The event is a call on the rate limiter. -/
def Event.isRateLimiter : Event → Bool
  | .TryConsume .. => true
  | .IncCounter .. | .StartTimer .. | .StopTimer .. | .Deserialize .. | .GetEngine ..
  | .getEngineForShard .. | .EngineCall .. | .Lookup .. | .GetCacheSize | .Debug ..
  | .Debugf .. | .Errorf .. | .LogInternalServiceError .. | .LogUncategorizedError .. => false

/-- The event is a call on the task-token serializer. -/
def Event.isDeserialize : Event → Bool
  | .Deserialize .. => true
  | .IncCounter .. | .StartTimer .. | .StopTimer .. | .TryConsume .. | .GetEngine ..
  | .getEngineForShard .. | .EngineCall .. | .Lookup .. | .GetCacheSize | .Debug ..
  | .Debugf .. | .Errorf .. | .LogInternalServiceError .. | .LogUncategorizedError .. => false

/-- The event is a shard lookup on the controller (by workflow ID or by shard ID). -/
def Event.isShardLookup : Event → Bool
  | .GetEngine .. | .getEngineForShard .. => true
  | .IncCounter .. | .StartTimer .. | .StopTimer .. | .TryConsume .. | .Deserialize ..
  | .EngineCall .. | .Lookup .. | .GetCacheSize | .Debug ..
  | .Debugf .. | .Errorf .. | .LogInternalServiceError .. | .LogUncategorizedError .. => false

/-- The event is an operation invoked on an engine. -/
def Event.isEngineCall : Event → Bool
  | .EngineCall .. => true
  | .IncCounter .. | .StartTimer .. | .StopTimer .. | .TryConsume .. | .Deserialize ..
  | .GetEngine .. | .getEngineForShard .. | .Lookup .. | .GetCacheSize | .Debug ..
  | .Debugf .. | .Errorf .. | .LogInternalServiceError .. | .LogUncategorizedError .. => false

/-- The mutable state a call runs against: the rate limiter's bucket and the
calls made on collaborators so far. -/
structure World (L : Type) where
  rateLimiter : L
  trace : List Event

/-- Record one collaborator call. -/
def World.emit {L : Type} (w : World L) (e : Event) : World L :=
  { w with trace := w.trace ++ [e] }

/-- The shard controller as the handler sees it. -/
structure shardController where
  isStarted : Int
  isStopped : Int
  isStopping : Bool
  numShards : Int
  shardIDs : List Int
  GetEngine : String → Except Err Engine
  getEngineForShard : Int → Except Err Engine

/-- The handler and the behaviour of its collaborators. `L` is the state of the
rate limiter's token bucket; `startWG` is the counter of the start wait group. -/
structure Handler (L : Type) where
  startWG : Nat
  hostAddress : String
  hServiceResolver_Lookup : String → Except Err membership.HostInfo
  rateLimiter_TryConsume : Nat → L → Bool × L
  tokenSerializer_Deserialize : List UInt8 → Except String common.TaskToken
  uuid_Parse : String → Bool
  controller : shardController
  domainCache_GetCacheSize : Int × Int
  engineOp : Engine → Call → Except Err Nat

/-! ## Error translation and classification -/

variable {L : Type}

/-- Go's conversion `string(i)` of an integer: the UTF-8 text of the code point
`i`, and U+FFFD for a value that is not a valid code point. -/
def goString (i : Int) : String :=
  if 0 ≤ i ∧ i.toNat.isValidChar then String.singleton (Char.ofNat i.toNat)
  else String.singleton (Char.ofNat 0xFFFD)

/-- The result of `fmt.Sprintf("Shard is not owned by host: %v", currentHost)` and the
owner, wrapped in the history service's ownership-lost error. -/
def createShardOwnershipLostError (currentHost ownerHost : String) : Err :=
  .hist_ShardOwnershipLostError (some ("Shard is not owned by host: " ++ currentHost))
    (some ownerHost)

/-- The method `Handler.convertError`: the translated error, and the calls the
translation makes (a resolver lookup for a lost shard). -/
def Handler.convertError (h : Handler L) (err : Err) : Err × List Event :=
  match err with
  | .persistence_ShardOwnershipLostError shardID _ =>
    match h.hServiceResolver_Lookup (goString shardID) with
    | .ok info =>
      (createShardOwnershipLostError h.hostAddress info.GetAddress,
        [.Lookup (goString shardID)])
    | .error _ =>
      (createShardOwnershipLostError h.hostAddress "", [.Lookup (goString shardID)])
  | .persistence_WorkflowExecutionAlreadyStartedError _ startRequestID runID =>
    (.gen_WorkflowExecutionAlreadyStartedError (some "Workflow is already running")
      (some startRequestID) (some runID), [])
  | .persistence_CurrentWorkflowConditionFailedError msg =>
    (.gen_InternalServiceError msg, [])
  | err => (err, [])

/-- The method `Handler.getLoggerWithTags`, over the handler's base logger. -/
def Handler.getLoggerWithTags (_h : Handler L) (domainID workflowID : String) : bark.Logger :=
  let logger : bark.Logger := { fields := [] }
  let logger := if domainID ≠ "" then logger.WithField .TagDomainID domainID else logger
  let logger :=
    if workflowID ≠ "" then logger.WithField .TagWorkflowExecutionID workflowID else logger
  logger

/-- The method `Handler.updateErrorMetric`: the counters it increments and the lines it
logs, in order. -/
def Handler.updateErrorMetric (h : Handler L) (scope : metrics.Scope)
    (domainID workflowID : String) (err : Err) : List Event :=
  match err with
  | .hist_ShardOwnershipLostError _ _ =>
    [.IncCounter scope .CadenceErrShardOwnershipLostCounter]
  | .hist_EventAlreadyStartedError _ =>
    [.IncCounter scope .CadenceErrEventAlreadyStartedCounter]
  | .gen_BadRequestError _ =>
    [.IncCounter scope .CadenceErrBadRequestCounter]
  | .gen_DomainNotActiveError _ =>
    [.IncCounter scope .CadenceErrBadRequestCounter]
  | .gen_WorkflowExecutionAlreadyStartedError _ _ _ =>
    [.IncCounter scope .CadenceErrExecutionAlreadyStartedCounter]
  | .gen_EntityNotExistsError _ =>
    [.IncCounter scope .CadenceErrEntityNotExistsCounter]
  | .gen_CancellationAlreadyRequestedError _ =>
    [.IncCounter scope .CadenceErrCancellationAlreadyRequestedCounter]
  | .gen_LimitExceededError _ =>
    [.IncCounter scope .CadenceErrLimitExceededCounter]
  | .gen_RetryTaskError _ =>
    [.IncCounter scope .CadenceErrRetryTaskCounter]
  | .gen_ServiceBusyError _ =>
    [.IncCounter scope .CadenceErrServiceBusyCounter]
  | .yarpcerrors_Status code _ =>
    (if code = yarpcerrors.CodeDeadlineExceeded then
      [.IncCounter scope .CadenceErrContextTimeoutCounter]
    else []) ++ [.IncCounter scope .CadenceFailures]
  | .gen_InternalServiceError _ =>
    [.IncCounter scope .CadenceFailures,
     .LogInternalServiceError (h.getLoggerWithTags domainID workflowID) err]
  | .persistence_ShardOwnershipLostError .. | .persistence_WorkflowExecutionAlreadyStartedError ..
  | .persistence_CurrentWorkflowConditionFailedError .. | .other .. =>
    [.IncCounter scope .CadenceFailures,
     .LogUncategorizedError (h.getLoggerWithTags domainID workflowID) err]

/-- The method `Handler.error`: translate, then classify. It hands back the translated
error; the second component lists the calls made on the way. -/
def Handler.error (h : Handler L) (err : Err) (scope : metrics.Scope)
    (domainID workflowID : String) : Err × List Event :=
  let r := h.convertError err
  (r.1, r.2 ++ h.updateErrorMetric scope domainID workflowID r.1)

/-- The function `validateTaskToken`; `none` is a nil error. `uuidParse s` says whether
`uuid.Parse(s)` is non-nil. -/
def validateTaskToken (uuidParse : String → Bool) (token : common.TaskToken) : Option Err :=
  if token.WorkflowID = "" then some errWorkflowIDNotSet
  else if token.RunID ≠ "" ∧ uuidParse token.RunID = false then some errRunIDNotValid
  else none

/-! ## Handler plumbing shared by the RPC methods -/

/-- The statement `return nil, h.error(err, scope, domainID, workflowID)`. -/
def Handler.fail (h : Handler L) (err : Err) (scope : metrics.Scope)
    (domainID workflowID : String) (w : World L) : Outcome × World L :=
  let r := h.error err scope domainID workflowID
  (.error r.1, { w with trace := w.trace ++ r.2 })

/-- The call `h.rateLimiter.TryConsume(n)`: its answer and the world after it. -/
def Handler.TryConsume (h : Handler L) (n : Nat) (w : World L) : Bool × World L :=
  let r := h.rateLimiter_TryConsume n w.rateLimiter
  (r.1, { rateLimiter := r.2, trace := w.trace ++ [.TryConsume n r.1] })

/-- The statements `h.metricsClient.IncCounter(scope, metrics.CadenceRequests)` and
`sw := h.metricsClient.StartTimer(scope, metrics.CadenceLatency)`. -/
def World.startMetrics (w : World L) (scope : metrics.Scope) : World L :=
  (w.emit (.IncCounter scope .CadenceRequests)).emit (.StartTimer scope .CadenceLatency)

/-- The statement `defer sw.Stop()`: the timer is stopped when the method leaves,
whichever way it leaves. -/
def deferStop (scope : metrics.Scope) (r : Outcome × World L) : Outcome × World L :=
  (r.1, r.2.emit (.StopTimer scope .CadenceLatency))

/-- The tail shared by the engine-backed methods once the workflow ID is known:
`h.controller.GetEngine(workflowID)`, then the engine operation for this call. -/
def Handler.dispatch (h : Handler L) (call : Call) (scope : metrics.Scope)
    (domainID workflowID : String) (withResponse : Bool) (w : World L) : Outcome × World L :=
  let w := w.emit (.GetEngine workflowID)
  match h.controller.GetEngine workflowID with
  | .error err1 => h.fail err1 scope domainID workflowID w
  | .ok engine =>
    let w := w.emit (.EngineCall engine call)
    match h.engineOp engine call with
    | .error err2 => h.fail err2 scope domainID workflowID w
    | .ok response => (.ok (if withResponse then some (.engine response) else none), w)

/-! ## The RPC methods

Each method is the Go method of the same name, statement by statement. A method
that returns only an error returns `Outcome.ok none` for a nil error. -/

/-- The method `Handler.Health`. -/
def Handler.Health (h : Handler L) (w : World L) : Outcome × World L :=
  if h.startWG ≠ 0 then (.blocked, w) else
  let w := w.emit (.Debug "History health check endpoint reached.")
  let hs : health.HealthStatus := { Ok := true, Msg := some "history good" }
  (.ok (some (.health hs)), w)

/-- The method `Handler.RecordActivityTaskHeartbeat`. -/
def Handler.RecordActivityTaskHeartbeat (h : Handler L)
    (wrappedRequest : hist.RecordActivityTaskHeartbeatRequest) (w : World L) :
    Outcome × World L :=
  if h.startWG ≠ 0 then (.blocked, w) else
  let scope := metrics.Scope.HistoryRecordActivityTaskHeartbeatScope
  let w := w.startMetrics scope
  deferStop scope <|
  let domainID := wrappedRequest.DomainUUID.getD ""
  if domainID = "" then h.fail errDomainNotSet scope domainID "" w else
  match h.TryConsume 1 w with
  | (false, w) => h.fail errHistoryHostThrottle scope domainID "" w
  | (true, w) =>
  match wrappedRequest.HeartbeatRequest with
  | none => (.panic, w)
  | some heartbeatRequest =>
  let w := w.emit (.Deserialize heartbeatRequest.TaskToken)
  match h.tokenSerializer_Deserialize heartbeatRequest.TaskToken with
  | .error err0 =>
    h.fail (.gen_BadRequestError ("Error deserializing task token. Error: " ++ err0))
      scope domainID "" w
  | .ok token =>
  match validateTaskToken h.uuid_Parse token with
  | some err0 => h.fail err0 scope domainID "" w
  | none =>
  let workflowID := token.WorkflowID
  h.dispatch (.RecordActivityTaskHeartbeat wrappedRequest) scope domainID workflowID true w

/-- The method `Handler.RecordActivityTaskStarted`. -/
def Handler.RecordActivityTaskStarted (h : Handler L)
    (recordRequest : hist.RecordActivityTaskStartedRequest) (w : World L) :
    Outcome × World L :=
  if h.startWG ≠ 0 then (.blocked, w) else
  let scope := metrics.Scope.HistoryRecordActivityTaskStartedScope
  let w := w.startMetrics scope
  deferStop scope <|
  let domainID := recordRequest.DomainUUID.getD ""
  let workflowExecution := recordRequest.WorkflowExecution
  let workflowID := gen.WorkflowExecution.GetWorkflowId workflowExecution
  if recordRequest.DomainUUID.getD "" = "" then
    h.fail errDomainNotSet scope domainID workflowID w
  else
  match h.TryConsume 1 w with
  | (false, w) => h.fail errHistoryHostThrottle scope domainID workflowID w
  | (true, w) =>
  h.dispatch (.RecordActivityTaskStarted recordRequest) scope domainID workflowID true w

/-- The method `Handler.RecordDecisionTaskStarted`. The debug line reads the field
`recordRequest.WorkflowExecution.RunId` directly, before anything else is done. -/
def Handler.RecordDecisionTaskStarted (h : Handler L)
    (recordRequest : hist.RecordDecisionTaskStartedRequest) (w : World L) :
    Outcome × World L :=
  if h.startWG ≠ 0 then (.blocked, w) else
  match recordRequest.WorkflowExecution with
  | none => (.panic, w)
  | some we =>
  let w := w.emit (.Debugf
    "RecordDecisionTaskStarted. DomainID: %v, WorkflowID: %v, RunID: %v, ScheduleID: %v"
    [recordRequest.DomainUUID.getD "",
     gen.WorkflowExecution.GetWorkflowId recordRequest.WorkflowExecution,
     we.RunId.getD "",
     toString (recordRequest.ScheduleId.getD 0)])
  let scope := metrics.Scope.HistoryRecordDecisionTaskStartedScope
  let w := w.startMetrics scope
  deferStop scope <|
  let domainID := recordRequest.DomainUUID.getD ""
  let workflowExecution := recordRequest.WorkflowExecution
  let workflowID := gen.WorkflowExecution.GetWorkflowId workflowExecution
  if domainID = "" then h.fail errDomainNotSet scope domainID workflowID w else
  match h.TryConsume 1 w with
  | (false, w) => h.fail errHistoryHostThrottle scope domainID workflowID w
  | (true, w) =>
  if recordRequest.PollRequest = none ∨
      gen.TaskList.GetName (recordRequest.PollRequest.bind (·.TaskList)) = ""
  then h.fail errTaskListNotSet scope domainID workflowID w else
  let w := w.emit (.GetEngine workflowID)
  match h.controller.GetEngine workflowID with
  | .error err1 =>
    let w := w.emit (.Errorf
      "RecordDecisionTaskStarted failed. Error: %v. WorkflowID: %v, RunID: %v, ScheduleID: %v"
      err1
      [gen.WorkflowExecution.GetWorkflowId recordRequest.WorkflowExecution,
       gen.WorkflowExecution.GetRunId recordRequest.WorkflowExecution,
       toString (recordRequest.ScheduleId.getD 0)])
    h.fail err1 scope domainID workflowID w
  | .ok engine =>
    let w := w.emit (.EngineCall engine (.RecordDecisionTaskStarted recordRequest))
    match h.engineOp engine (.RecordDecisionTaskStarted recordRequest) with
    | .error err2 => h.fail err2 scope domainID workflowID w
    | .ok response => (.ok (some (.engine response)), w)

/-- The method `Handler.RespondActivityTaskCompleted`. -/
def Handler.RespondActivityTaskCompleted (h : Handler L)
    (wrappedRequest : hist.RespondActivityTaskCompletedRequest) (w : World L) :
    Outcome × World L :=
  if h.startWG ≠ 0 then (.blocked, w) else
  let scope := metrics.Scope.HistoryRespondActivityTaskCompletedScope
  let w := w.startMetrics scope
  deferStop scope <|
  let domainID := wrappedRequest.DomainUUID.getD ""
  if domainID = "" then h.fail errDomainNotSet scope domainID "" w else
  match h.TryConsume 1 w with
  | (false, w) => h.fail errHistoryHostThrottle scope domainID "" w
  | (true, w) =>
  match wrappedRequest.CompleteRequest with
  | none => (.panic, w)
  | some completeRequest =>
  let w := w.emit (.Deserialize completeRequest.TaskToken)
  match h.tokenSerializer_Deserialize completeRequest.TaskToken with
  | .error err0 =>
    h.fail (.gen_BadRequestError ("Error deserializing task token. Error: " ++ err0))
      scope domainID "" w
  | .ok token =>
  match validateTaskToken h.uuid_Parse token with
  | some err0 => h.fail err0 scope domainID "" w
  | none =>
  let workflowID := token.WorkflowID
  h.dispatch (.RespondActivityTaskCompleted wrappedRequest) scope domainID workflowID false w

/-- The method `Handler.RespondActivityTaskFailed`. -/
def Handler.RespondActivityTaskFailed (h : Handler L)
    (wrappedRequest : hist.RespondActivityTaskFailedRequest) (w : World L) :
    Outcome × World L :=
  if h.startWG ≠ 0 then (.blocked, w) else
  let scope := metrics.Scope.HistoryRespondActivityTaskFailedScope
  let w := w.startMetrics scope
  deferStop scope <|
  let domainID := wrappedRequest.DomainUUID.getD ""
  if domainID = "" then h.fail errDomainNotSet scope domainID "" w else
  match h.TryConsume 1 w with
  | (false, w) => h.fail errHistoryHostThrottle scope domainID "" w
  | (true, w) =>
  match wrappedRequest.FailedRequest with
  | none => (.panic, w)
  | some failRequest =>
  let w := w.emit (.Deserialize failRequest.TaskToken)
  match h.tokenSerializer_Deserialize failRequest.TaskToken with
  | .error err0 =>
    h.fail (.gen_BadRequestError ("Error deserializing task token. Error: " ++ err0))
      scope domainID "" w
  | .ok token =>
  match validateTaskToken h.uuid_Parse token with
  | some err0 => h.fail err0 scope domainID "" w
  | none =>
  let workflowID := token.WorkflowID
  h.dispatch (.RespondActivityTaskFailed wrappedRequest) scope domainID workflowID false w

/-- The method `Handler.RespondActivityTaskCanceled`. -/
def Handler.RespondActivityTaskCanceled (h : Handler L)
    (wrappedRequest : hist.RespondActivityTaskCanceledRequest) (w : World L) :
    Outcome × World L :=
  if h.startWG ≠ 0 then (.blocked, w) else
  let scope := metrics.Scope.HistoryRespondActivityTaskCanceledScope
  let w := w.startMetrics scope
  deferStop scope <|
  let domainID := wrappedRequest.DomainUUID.getD ""
  if domainID = "" then h.fail errDomainNotSet scope domainID "" w else
  match h.TryConsume 1 w with
  | (false, w) => h.fail errHistoryHostThrottle scope domainID "" w
  | (true, w) =>
  match wrappedRequest.CancelRequest with
  | none => (.panic, w)
  | some cancelRequest =>
  let w := w.emit (.Deserialize cancelRequest.TaskToken)
  match h.tokenSerializer_Deserialize cancelRequest.TaskToken with
  | .error err0 =>
    h.fail (.gen_BadRequestError ("Error deserializing task token. Error: " ++ err0))
      scope domainID "" w
  | .ok token =>
  match validateTaskToken h.uuid_Parse token with
  | some err0 => h.fail err0 scope domainID "" w
  | none =>
  let workflowID := token.WorkflowID
  h.dispatch (.RespondActivityTaskCanceled wrappedRequest) scope domainID workflowID false w

/-- The method `Handler.RespondDecisionTaskCompleted`. -/
def Handler.RespondDecisionTaskCompleted (h : Handler L)
    (wrappedRequest : hist.RespondDecisionTaskCompletedRequest) (w : World L) :
    Outcome × World L :=
  if h.startWG ≠ 0 then (.blocked, w) else
  let scope := metrics.Scope.HistoryRespondDecisionTaskCompletedScope
  let w := w.startMetrics scope
  deferStop scope <|
  let domainID := wrappedRequest.DomainUUID.getD ""
  if domainID = "" then h.fail errDomainNotSet scope domainID "" w else
  match h.TryConsume 1 w with
  | (false, w) => h.fail errHistoryHostThrottle scope domainID "" w
  | (true, w) =>
  match wrappedRequest.CompleteRequest with
  | none => (.panic, w)
  | some completeRequest =>
  let w := w.emit (.Deserialize completeRequest.TaskToken)
  match h.tokenSerializer_Deserialize completeRequest.TaskToken with
  | .error err0 =>
    h.fail (.gen_BadRequestError ("Error deserializing task token. Error: " ++ err0))
      scope domainID "" w
  | .ok token =>
  let w := w.emit (.Debugf
    "RespondDecisionTaskCompleted. DomainID: %v, WorkflowID: %v, RunID: %v, ScheduleID: %v"
    [token.DomainID, token.WorkflowID, token.RunID, toString token.ScheduleID])
  match validateTaskToken h.uuid_Parse token with
  | some err0 => h.fail err0 scope domainID "" w
  | none =>
  let workflowID := token.WorkflowID
  h.dispatch (.RespondDecisionTaskCompleted wrappedRequest) scope domainID workflowID true w

/-- The method `Handler.RespondDecisionTaskFailed`. -/
def Handler.RespondDecisionTaskFailed (h : Handler L)
    (wrappedRequest : hist.RespondDecisionTaskFailedRequest) (w : World L) :
    Outcome × World L :=
  if h.startWG ≠ 0 then (.blocked, w) else
  let scope := metrics.Scope.HistoryRespondDecisionTaskFailedScope
  let w := w.startMetrics scope
  deferStop scope <|
  let domainID := wrappedRequest.DomainUUID.getD ""
  if domainID = "" then h.fail errDomainNotSet scope domainID "" w else
  match h.TryConsume 1 w with
  | (false, w) => h.fail errHistoryHostThrottle scope domainID "" w
  | (true, w) =>
  match wrappedRequest.FailedRequest with
  | none => (.panic, w)
  | some failedRequest =>
  let w := w.emit (.Deserialize failedRequest.TaskToken)
  match h.tokenSerializer_Deserialize failedRequest.TaskToken with
  | .error err0 =>
    h.fail (.gen_BadRequestError ("Error deserializing task token. Error: " ++ err0))
      scope domainID "" w
  | .ok token =>
  let w := w.emit (.Debugf
    "RespondDecisionTaskFailed. DomainID: %v, WorkflowID: %v, RunID: %v, ScheduleID: %v"
    [token.DomainID, token.WorkflowID, token.RunID, toString token.ScheduleID])
  match validateTaskToken h.uuid_Parse token with
  | some err0 => h.fail err0 scope domainID "" w
  | none =>
  let workflowID := token.WorkflowID
  h.dispatch (.RespondDecisionTaskFailed wrappedRequest) scope domainID workflowID false w

/-- The method `Handler.StartWorkflowExecution`. -/
def Handler.StartWorkflowExecution (h : Handler L)
    (wrappedRequest : hist.StartWorkflowExecutionRequest) (w : World L) :
    Outcome × World L :=
  if h.startWG ≠ 0 then (.blocked, w) else
  let scope := metrics.Scope.HistoryStartWorkflowExecutionScope
  let w := w.startMetrics scope
  deferStop scope <|
  let domainID := wrappedRequest.DomainUUID.getD ""
  if domainID = "" then h.fail errDomainNotSet scope domainID "" w else
  match h.TryConsume 1 w with
  | (false, w) => h.fail errHistoryHostThrottle scope domainID "" w
  | (true, w) =>
  let startRequest := wrappedRequest.StartRequest
  let workflowID := gen.StartWorkflowExecutionRequest.GetWorkflowId startRequest
  h.dispatch (.StartWorkflowExecution wrappedRequest) scope domainID workflowID true w

/-- Go's conversion `int32(i)`. -/
def int32 (i : Int) : Int := (i + 2 ^ 31) % 2 ^ 32 - 2 ^ 31

/-- The method `Handler.DescribeHistoryHost`. -/
def Handler.DescribeHistoryHost (h : Handler L) (_request : gen.DescribeHistoryHostRequest)
    (w : World L) : Outcome × World L :=
  if h.startWG ≠ 0 then (.blocked, w) else
  let w := w.emit .GetCacheSize
  let numOfItemsInCacheByID := h.domainCache_GetCacheSize.1
  let numOfItemsInCacheByName := h.domainCache_GetCacheSize.2
  let status := ""
  let status := if h.controller.isStarted > 0 then status ++ "started," else status ++ "not started,"
  let status := if h.controller.isStopped > 0 then status ++ "stopped," else status ++ "not stopped,"
  let status := if h.controller.isStopping then status ++ "stopping" else status ++ "not stopping"
  let resp : gen.DescribeHistoryHostResponse :=
    { NumberOfShards := int32 h.controller.numShards
      ShardIDs := h.controller.shardIDs
      DomainCache :=
        { NumOfItemsInCacheByID := numOfItemsInCacheByID
          NumOfItemsInCacheByName := numOfItemsInCacheByName }
      ShardControllerStatus := status
      Address := h.hostAddress }
  (.ok (some (.describeHistoryHost resp)), w)

/-- The method `Handler.DescribeMutableState`. It records its metrics under the
heartbeat scope and does not consult the rate limiter. -/
def Handler.DescribeMutableState (h : Handler L)
    (request : hist.DescribeMutableStateRequest) (w : World L) : Outcome × World L :=
  if h.startWG ≠ 0 then (.blocked, w) else
  let scope := metrics.Scope.HistoryRecordActivityTaskHeartbeatScope
  let w := w.startMetrics scope
  deferStop scope <|
  let domainID := request.DomainUUID.getD ""
  if domainID = "" then h.fail errDomainNotSet scope domainID "" w else
  let workflowExecution := request.Execution
  let workflowID := gen.WorkflowExecution.GetWorkflowId workflowExecution
  h.dispatch (.DescribeMutableState request) scope domainID workflowID true w

/-- The method `Handler.GetMutableState`. -/
def Handler.GetMutableState (h : Handler L)
    (getRequest : hist.GetMutableStateRequest) (w : World L) : Outcome × World L :=
  if h.startWG ≠ 0 then (.blocked, w) else
  let scope := metrics.Scope.HistoryGetMutableStateScope
  let w := w.startMetrics scope
  deferStop scope <|
  let domainID := getRequest.DomainUUID.getD ""
  if domainID = "" then h.fail errDomainNotSet scope domainID "" w else
  match h.TryConsume 1 w with
  | (false, w) => h.fail errHistoryHostThrottle scope domainID "" w
  | (true, w) =>
  let workflowExecution := getRequest.Execution
  let workflowID := gen.WorkflowExecution.GetWorkflowId workflowExecution
  h.dispatch (.GetMutableState getRequest) scope domainID workflowID true w

/-- The method `Handler.DescribeWorkflowExecution`. -/
def Handler.DescribeWorkflowExecution (h : Handler L)
    (request : hist.DescribeWorkflowExecutionRequest) (w : World L) : Outcome × World L :=
  if h.startWG ≠ 0 then (.blocked, w) else
  let scope := metrics.Scope.HistoryDescribeWorkflowExecutionScope
  let w := w.startMetrics scope
  deferStop scope <|
  let domainID := request.DomainUUID.getD ""
  if domainID = "" then h.fail errDomainNotSet scope domainID "" w else
  match h.TryConsume 1 w with
  | (false, w) => h.fail errHistoryHostThrottle scope domainID "" w
  | (true, w) =>
  match request.Request with
  | none => (.panic, w)
  | some inner =>
  let workflowExecution := inner.Execution
  let workflowID := gen.WorkflowExecution.GetWorkflowId workflowExecution
  h.dispatch (.DescribeWorkflowExecution request) scope domainID workflowID true w

/-- The method `Handler.RequestCancelWorkflowExecution`. -/
def Handler.RequestCancelWorkflowExecution (h : Handler L)
    (request : hist.RequestCancelWorkflowExecutionRequest) (w : World L) :
    Outcome × World L :=
  if h.startWG ≠ 0 then (.blocked, w) else
  let scope := metrics.Scope.HistoryRequestCancelWorkflowExecutionScope
  let w := w.startMetrics scope
  deferStop scope <|
  let domainID := request.DomainUUID.getD ""
  if domainID = "" ∨
      gen.RequestCancelWorkflowExecutionRequest.GetDomain request.CancelRequest = ""
  then h.fail errDomainNotSet scope domainID "" w else
  match h.TryConsume 1 w with
  | (false, w) => h.fail errHistoryHostThrottle scope domainID "" w
  | (true, w) =>
  match request.CancelRequest with
  | none => (.panic, w)
  | some cancelRequest =>
  let w := w.emit (.Debugf
    "RequestCancelWorkflowExecution. DomainID: %v/%v, WorkflowID: %v, RunID: %v."
    [cancelRequest.Domain.getD "",
     request.DomainUUID.getD "",
     gen.WorkflowExecution.GetWorkflowId cancelRequest.WorkflowExecution,
     gen.WorkflowExecution.GetRunId cancelRequest.WorkflowExecution])
  let workflowID := gen.WorkflowExecution.GetWorkflowId cancelRequest.WorkflowExecution
  h.dispatch (.RequestCancelWorkflowExecution request) scope domainID workflowID false w

/-- The method `Handler.SignalWorkflowExecution`. -/
def Handler.SignalWorkflowExecution (h : Handler L)
    (wrappedRequest : hist.SignalWorkflowExecutionRequest) (w : World L) :
    Outcome × World L :=
  if h.startWG ≠ 0 then (.blocked, w) else
  let scope := metrics.Scope.HistorySignalWorkflowExecutionScope
  let w := w.startMetrics scope
  deferStop scope <|
  let domainID := wrappedRequest.DomainUUID.getD ""
  if domainID = "" then h.fail errDomainNotSet scope domainID "" w else
  match h.TryConsume 1 w with
  | (false, w) => h.fail errHistoryHostThrottle scope domainID "" w
  | (true, w) =>
  match wrappedRequest.SignalRequest with
  | none => (.panic, w)
  | some signalRequest =>
  let workflowExecution := signalRequest.WorkflowExecution
  let workflowID := gen.WorkflowExecution.GetWorkflowId workflowExecution
  h.dispatch (.SignalWorkflowExecution wrappedRequest) scope domainID workflowID false w

/-- The method `Handler.SignalWithStartWorkflowExecution`. -/
def Handler.SignalWithStartWorkflowExecution (h : Handler L)
    (wrappedRequest : hist.SignalWithStartWorkflowExecutionRequest) (w : World L) :
    Outcome × World L :=
  if h.startWG ≠ 0 then (.blocked, w) else
  let scope := metrics.Scope.HistorySignalWithStartWorkflowExecutionScope
  let w := w.startMetrics scope
  deferStop scope <|
  let domainID := wrappedRequest.DomainUUID.getD ""
  if domainID = "" then h.fail errDomainNotSet scope domainID "" w else
  match h.TryConsume 1 w with
  | (false, w) => h.fail errHistoryHostThrottle scope domainID "" w
  | (true, w) =>
  let signalWithStartRequest := wrappedRequest.SignalWithStartRequest
  let workflowID :=
    gen.SignalWithStartWorkflowExecutionRequest.GetWorkflowId signalWithStartRequest
  h.dispatch (.SignalWithStartWorkflowExecution wrappedRequest) scope domainID workflowID true w

/-- The method `Handler.RemoveSignalMutableState`. -/
def Handler.RemoveSignalMutableState (h : Handler L)
    (wrappedRequest : hist.RemoveSignalMutableStateRequest) (w : World L) :
    Outcome × World L :=
  if h.startWG ≠ 0 then (.blocked, w) else
  let scope := metrics.Scope.HistoryRemoveSignalMutableStateScope
  let w := w.startMetrics scope
  deferStop scope <|
  let domainID := wrappedRequest.DomainUUID.getD ""
  if domainID = "" then h.fail errDomainNotSet scope domainID "" w else
  match h.TryConsume 1 w with
  | (false, w) => h.fail errHistoryHostThrottle scope domainID "" w
  | (true, w) =>
  let workflowExecution := wrappedRequest.WorkflowExecution
  let workflowID := gen.WorkflowExecution.GetWorkflowId workflowExecution
  h.dispatch (.RemoveSignalMutableState wrappedRequest) scope domainID workflowID false w

/-- The method `Handler.QueryWorkflow`. -/
def Handler.QueryWorkflow (h : Handler L)
    (wrappedRequest : hist.QueryWorkflowRequest) (w : World L) : Outcome × World L :=
  if h.startWG ≠ 0 then (.blocked, w) else
  let scope := metrics.Scope.HistoryClientQueryWorkflowScope
  let w := w.startMetrics scope
  deferStop scope <|
  let domainID := wrappedRequest.DomainUUID.getD ""
  if domainID = "" then h.fail errDomainNotSet scope domainID "" w else
  match h.TryConsume 1 w with
  | (false, w) => h.fail errHistoryHostThrottle scope domainID "" w
  | (true, w) =>
  match wrappedRequest.QueryRequest with
  | none => (.panic, w)
  | some queryRequest =>
  let workflowExecution := queryRequest.Execution
  let workflowID := gen.WorkflowExecution.GetWorkflowId workflowExecution
  h.dispatch (.QueryWorkflow wrappedRequest) scope domainID workflowID true w

/-- The method `Handler.TerminateWorkflowExecution`. -/
def Handler.TerminateWorkflowExecution (h : Handler L)
    (wrappedRequest : hist.TerminateWorkflowExecutionRequest) (w : World L) :
    Outcome × World L :=
  if h.startWG ≠ 0 then (.blocked, w) else
  let scope := metrics.Scope.HistoryTerminateWorkflowExecutionScope
  let w := w.startMetrics scope
  deferStop scope <|
  let domainID := wrappedRequest.DomainUUID.getD ""
  if domainID = "" then h.fail errDomainNotSet scope domainID "" w else
  match h.TryConsume 1 w with
  | (false, w) => h.fail errHistoryHostThrottle scope domainID "" w
  | (true, w) =>
  match wrappedRequest.TerminateRequest with
  | none => (.panic, w)
  | some terminateRequest =>
  let workflowExecution := terminateRequest.WorkflowExecution
  let workflowID := gen.WorkflowExecution.GetWorkflowId workflowExecution
  h.dispatch (.TerminateWorkflowExecution wrappedRequest) scope domainID workflowID false w

/-- The method `Handler.ResetWorkflowExecution`. -/
def Handler.ResetWorkflowExecution (h : Handler L)
    (wrappedRequest : hist.ResetWorkflowExecutionRequest) (w : World L) :
    Outcome × World L :=
  if h.startWG ≠ 0 then (.blocked, w) else
  let scope := metrics.Scope.HistoryResetWorkflowExecutionScope
  let w := w.startMetrics scope
  deferStop scope <|
  let domainID := wrappedRequest.DomainUUID.getD ""
  if domainID = "" then h.fail errDomainNotSet scope domainID "" w else
  match h.TryConsume 1 w with
  | (false, w) => h.fail errHistoryHostThrottle scope domainID "" w
  | (true, w) =>
  match wrappedRequest.ResetRequest with
  | none => (.panic, w)
  | some resetRequest =>
  let workflowExecution := resetRequest.WorkflowExecution
  let workflowID := gen.WorkflowExecution.GetWorkflowId workflowExecution
  h.dispatch (.ResetWorkflowExecution wrappedRequest) scope domainID workflowID true w

/-- The method `Handler.ScheduleDecisionTask`. -/
def Handler.ScheduleDecisionTask (h : Handler L)
    (request : hist.ScheduleDecisionTaskRequest) (w : World L) : Outcome × World L :=
  if h.startWG ≠ 0 then (.blocked, w) else
  let scope := metrics.Scope.HistoryScheduleDecisionTaskScope
  let w := w.startMetrics scope
  deferStop scope <|
  let domainID := request.DomainUUID.getD ""
  if domainID = "" then h.fail errDomainNotSet scope domainID "" w else
  match h.TryConsume 1 w with
  | (false, w) => h.fail errHistoryHostThrottle scope domainID "" w
  | (true, w) =>
  if request.WorkflowExecution = none then
    h.fail errWorkflowExecutionNotSet scope domainID "" w
  else
  let workflowExecution := request.WorkflowExecution
  let workflowID := gen.WorkflowExecution.GetWorkflowId workflowExecution
  h.dispatch (.ScheduleDecisionTask request) scope domainID workflowID false w

/-- The method `Handler.RecordChildExecutionCompleted`. -/
def Handler.RecordChildExecutionCompleted (h : Handler L)
    (request : hist.RecordChildExecutionCompletedRequest) (w : World L) :
    Outcome × World L :=
  if h.startWG ≠ 0 then (.blocked, w) else
  let scope := metrics.Scope.HistoryRecordChildExecutionCompletedScope
  let w := w.startMetrics scope
  deferStop scope <|
  let domainID := request.DomainUUID.getD ""
  if domainID = "" then h.fail errDomainNotSet scope domainID "" w else
  match h.TryConsume 1 w with
  | (false, w) => h.fail errHistoryHostThrottle scope domainID "" w
  | (true, w) =>
  if request.WorkflowExecution = none then
    h.fail errWorkflowExecutionNotSet scope domainID "" w
  else
  let workflowExecution := request.WorkflowExecution
  let workflowID := gen.WorkflowExecution.GetWorkflowId workflowExecution
  h.dispatch (.RecordChildExecutionCompleted request) scope domainID workflowID false w

/-- The method `Handler.ResetStickyTaskList`. -/
def Handler.ResetStickyTaskList (h : Handler L)
    (resetRequest : hist.ResetStickyTaskListRequest) (w : World L) : Outcome × World L :=
  if h.startWG ≠ 0 then (.blocked, w) else
  let scope := metrics.Scope.HistoryResetStickyTaskListScope
  let w := w.startMetrics scope
  deferStop scope <|
  let domainID := resetRequest.DomainUUID.getD ""
  if domainID = "" then h.fail errDomainNotSet scope domainID "" w else
  match h.TryConsume 1 w with
  | (false, w) => h.fail errHistoryHostThrottle scope domainID "" w
  | (true, w) =>
  let workflowID := gen.WorkflowExecution.GetWorkflowId resetRequest.Execution
  h.dispatch (.ResetStickyTaskList resetRequest) scope domainID workflowID true w

/-- The method `Handler.ReplicateEvents`. -/
def Handler.ReplicateEvents (h : Handler L)
    (replicateRequest : hist.ReplicateEventsRequest) (w : World L) : Outcome × World L :=
  if h.startWG ≠ 0 then (.blocked, w) else
  let scope := metrics.Scope.HistoryReplicateEventsScope
  let w := w.startMetrics scope
  deferStop scope <|
  let domainID := replicateRequest.DomainUUID.getD ""
  if domainID = "" then h.fail errDomainNotSet scope domainID "" w else
  match h.TryConsume 1 w with
  | (false, w) => h.fail errHistoryHostThrottle scope domainID "" w
  | (true, w) =>
  let workflowExecution := replicateRequest.WorkflowExecution
  let workflowID := gen.WorkflowExecution.GetWorkflowId workflowExecution
  h.dispatch (.ReplicateEvents replicateRequest) scope domainID workflowID false w

/-- The method `Handler.ReplicateRawEvents`. -/
def Handler.ReplicateRawEvents (h : Handler L)
    (replicateRequest : hist.ReplicateRawEventsRequest) (w : World L) : Outcome × World L :=
  if h.startWG ≠ 0 then (.blocked, w) else
  let scope := metrics.Scope.HistoryReplicateRawEventsScope
  let w := w.startMetrics scope
  deferStop scope <|
  let domainID := replicateRequest.DomainUUID.getD ""
  if domainID = "" then h.fail errDomainNotSet scope domainID "" w else
  match h.TryConsume 1 w with
  | (false, w) => h.fail errHistoryHostThrottle scope domainID "" w
  | (true, w) =>
  let workflowExecution := replicateRequest.WorkflowExecution
  let workflowID := gen.WorkflowExecution.GetWorkflowId workflowExecution
  h.dispatch (.ReplicateRawEvents replicateRequest) scope domainID workflowID false w

/-- The method `Handler.SyncShardStatus`. The shard ID comes with the request. -/
def Handler.SyncShardStatus (h : Handler L)
    (syncShardStatusRequest : hist.SyncShardStatusRequest) (w : World L) :
    Outcome × World L :=
  if h.startWG ≠ 0 then (.blocked, w) else
  let scope := metrics.Scope.HistorySyncShardStatusScope
  let w := w.startMetrics scope
  deferStop scope <|
  match h.TryConsume 1 w with
  | (false, w) => h.fail errHistoryHostThrottle scope "" "" w
  | (true, w) =>
  if syncShardStatusRequest.SourceCluster = none then
    h.fail errSourceClusterNotSet scope "" "" w
  else
  if syncShardStatusRequest.ShardId = none then h.fail errShardIDNotSet scope "" "" w else
  if syncShardStatusRequest.Timestamp = none then h.fail errTimestampNotSet scope "" "" w else
  let shardID := syncShardStatusRequest.ShardId.getD 0
  let w := w.emit (.getEngineForShard shardID)
  match h.controller.getEngineForShard shardID with
  | .error err => h.fail err scope "" "" w
  | .ok engine =>
    let w := w.emit (.EngineCall engine (.SyncShardStatus syncShardStatusRequest))
    match h.engineOp engine (.SyncShardStatus syncShardStatusRequest) with
    | .error err => h.fail err scope "" "" w
    | .ok _ => (.ok none, w)

/-- The method `Handler.SyncActivity`. -/
def Handler.SyncActivity (h : Handler L)
    (syncActivityRequest : hist.SyncActivityRequest) (w : World L) : Outcome × World L :=
  if h.startWG ≠ 0 then (.blocked, w) else
  let scope := metrics.Scope.HistorySyncActivityScope
  let w := w.startMetrics scope
  deferStop scope <|
  let domainID := syncActivityRequest.DomainId.getD ""
  if syncActivityRequest.DomainId = none ∨
      h.uuid_Parse (syncActivityRequest.DomainId.getD "") = false
  then h.fail errDomainNotSet scope domainID "" w else
  match h.TryConsume 1 w with
  | (false, w) => h.fail errHistoryHostThrottle scope domainID "" w
  | (true, w) =>
  if syncActivityRequest.WorkflowId = none then
    h.fail errWorkflowIDNotSet scope domainID "" w
  else
  if syncActivityRequest.RunId = none ∨
      h.uuid_Parse (syncActivityRequest.RunId.getD "") = false
  then h.fail errRunIDNotValid scope domainID "" w else
  let workflowID := syncActivityRequest.WorkflowId.getD ""
  h.dispatch (.SyncActivity syncActivityRequest) scope domainID workflowID false w

/-! ## Serving a call -/

/-- Route a call to its handler method. -/
def Handler.handle (h : Handler L) (call : Call) (w : World L) : Outcome × World L :=
  match call with
  | .Health => h.Health w
  | .RecordActivityTaskHeartbeat r => h.RecordActivityTaskHeartbeat r w
  | .RecordActivityTaskStarted r => h.RecordActivityTaskStarted r w
  | .RecordDecisionTaskStarted r => h.RecordDecisionTaskStarted r w
  | .RespondActivityTaskCompleted r => h.RespondActivityTaskCompleted r w
  | .RespondActivityTaskFailed r => h.RespondActivityTaskFailed r w
  | .RespondActivityTaskCanceled r => h.RespondActivityTaskCanceled r w
  | .RespondDecisionTaskCompleted r => h.RespondDecisionTaskCompleted r w
  | .RespondDecisionTaskFailed r => h.RespondDecisionTaskFailed r w
  | .StartWorkflowExecution r => h.StartWorkflowExecution r w
  | .DescribeHistoryHost r => h.DescribeHistoryHost r w
  | .DescribeMutableState r => h.DescribeMutableState r w
  | .GetMutableState r => h.GetMutableState r w
  | .DescribeWorkflowExecution r => h.DescribeWorkflowExecution r w
  | .RequestCancelWorkflowExecution r => h.RequestCancelWorkflowExecution r w
  | .SignalWorkflowExecution r => h.SignalWorkflowExecution r w
  | .SignalWithStartWorkflowExecution r => h.SignalWithStartWorkflowExecution r w
  | .RemoveSignalMutableState r => h.RemoveSignalMutableState r w
  | .QueryWorkflow r => h.QueryWorkflow r w
  | .TerminateWorkflowExecution r => h.TerminateWorkflowExecution r w
  | .ResetWorkflowExecution r => h.ResetWorkflowExecution r w
  | .ScheduleDecisionTask r => h.ScheduleDecisionTask r w
  | .RecordChildExecutionCompleted r => h.RecordChildExecutionCompleted r w
  | .ResetStickyTaskList r => h.ResetStickyTaskList r w
  | .ReplicateEvents r => h.ReplicateEvents r w
  | .ReplicateRawEvents r => h.ReplicateRawEvents r w
  | .SyncShardStatus r => h.SyncShardStatus r w
  | .SyncActivity r => h.SyncActivity r w

/-- One call served from a given state of the rate limiter: how it ends, and the
collaborator calls it made (its trace starts empty). -/
def Handler.serve (h : Handler L) (call : Call) (rateLimiter : L) : Outcome × World L :=
  h.handle call { rateLimiter := rateLimiter, trace := [] }

/-! ## Vocabulary for the properties -/

/-- The event is a call on the rate limiter, the token serializer, the shard controller or
an engine. -/
def Event.isCall (e : Event) : Bool :=
  e.isRateLimiter || e.isDeserialize || e.isShardLookup || e.isEngineCall

/-- The calls a trace makes on the rate limiter, the token serializer, the shard
controller and the engines, in program order (metrics, logging and resolver lookups are
left out). -/
def calls (t : List Event) : List Event := t.filter Event.isCall

/-- The error is a `BadRequestError`. -/
def Err.isBadRequest : Err → Bool
  | .gen_BadRequestError _ => true
  | .persistence_ShardOwnershipLostError .. | .persistence_WorkflowExecutionAlreadyStartedError ..
  | .persistence_CurrentWorkflowConditionFailedError .. | .hist_ShardOwnershipLostError ..
  | .hist_EventAlreadyStartedError .. | .gen_DomainNotActiveError ..
  | .gen_WorkflowExecutionAlreadyStartedError .. | .gen_EntityNotExistsError ..
  | .gen_CancellationAlreadyRequestedError .. | .gen_LimitExceededError ..
  | .gen_RetryTaskError .. | .gen_ServiceBusyError .. | .yarpcerrors_Status ..
  | .gen_InternalServiceError .. | .other .. => false

/-- The domain identifier the request of a call carries: `GetDomainUUID()`, or
`GetDomainId()` for SyncActivity. The requests of Health, DescribeHistoryHost and
SyncShardStatus carry none. -/
def Call.domainID : Call → Option String
  | .Health => none
  | .DescribeHistoryHost _ => none
  | .SyncShardStatus _ => none
  | .RecordActivityTaskHeartbeat r => some (r.DomainUUID.getD "")
  | .RecordActivityTaskStarted r => some (r.DomainUUID.getD "")
  | .RecordDecisionTaskStarted r => some (r.DomainUUID.getD "")
  | .RespondActivityTaskCompleted r => some (r.DomainUUID.getD "")
  | .RespondActivityTaskFailed r => some (r.DomainUUID.getD "")
  | .RespondActivityTaskCanceled r => some (r.DomainUUID.getD "")
  | .RespondDecisionTaskCompleted r => some (r.DomainUUID.getD "")
  | .RespondDecisionTaskFailed r => some (r.DomainUUID.getD "")
  | .StartWorkflowExecution r => some (r.DomainUUID.getD "")
  | .DescribeMutableState r => some (r.DomainUUID.getD "")
  | .GetMutableState r => some (r.DomainUUID.getD "")
  | .DescribeWorkflowExecution r => some (r.DomainUUID.getD "")
  | .RequestCancelWorkflowExecution r => some (r.DomainUUID.getD "")
  | .SignalWorkflowExecution r => some (r.DomainUUID.getD "")
  | .SignalWithStartWorkflowExecution r => some (r.DomainUUID.getD "")
  | .RemoveSignalMutableState r => some (r.DomainUUID.getD "")
  | .QueryWorkflow r => some (r.DomainUUID.getD "")
  | .TerminateWorkflowExecution r => some (r.DomainUUID.getD "")
  | .ResetWorkflowExecution r => some (r.DomainUUID.getD "")
  | .ScheduleDecisionTask r => some (r.DomainUUID.getD "")
  | .RecordChildExecutionCompleted r => some (r.DomainUUID.getD "")
  | .ResetStickyTaskList r => some (r.DomainUUID.getD "")
  | .ReplicateEvents r => some (r.DomainUUID.getD "")
  | .ReplicateRawEvents r => some (r.DomainUUID.getD "")
  | .SyncActivity r => some (r.DomainId.getD "")

/-- The request passes the domain check of its method: the domain identifier is
non-empty; for RequestCancelWorkflowExecution the domain name of the inner request is
non-empty too; for SyncActivity the domain identifier is present and parses as a UUID.
Methods without a domain check pass. -/
def Call.passesDomainCheck (h : Handler L) (call : Call) : Bool :=
  match call with
  | .RequestCancelWorkflowExecution r =>
    !decide (r.DomainUUID.getD "" = "" ∨
      gen.RequestCancelWorkflowExecutionRequest.GetDomain r.CancelRequest = "")
  | .SyncActivity r =>
    !decide (r.DomainId = none ∨ h.uuid_Parse (r.DomainId.getD "") = false)
  | call =>
    match call.domainID with
    | some d => !decide (d = "")
    | none => true

/-- The method consults the rate limiter: every method but Health, DescribeHistoryHost
and DescribeMutableState. -/
def Call.rateLimited : Call → Bool
  | .Health => false
  | .DescribeHistoryHost _ => false
  | .DescribeMutableState _ => false
  | _ => true

/-- The task token of a token-based call (heartbeat, activity completed, failed or
canceled, decision completed or failed) whose inner request is present. -/
def Call.taskToken : Call → Option (List UInt8)
  | .RecordActivityTaskHeartbeat r => r.HeartbeatRequest.map (·.TaskToken)
  | .RespondActivityTaskCompleted r => r.CompleteRequest.map (·.TaskToken)
  | .RespondActivityTaskFailed r => r.FailedRequest.map (·.TaskToken)
  | .RespondActivityTaskCanceled r => r.CancelRequest.map (·.TaskToken)
  | .RespondDecisionTaskCompleted r => r.CompleteRequest.map (·.TaskToken)
  | .RespondDecisionTaskFailed r => r.FailedRequest.map (·.TaskToken)
  | _ => none

/-- The method is one of the six token-based ones. -/
def Call.tokenBased : Call → Bool
  | .RecordActivityTaskHeartbeat _ => true
  | .RespondActivityTaskCompleted _ => true
  | .RespondActivityTaskFailed _ => true
  | .RespondActivityTaskCanceled _ => true
  | .RespondDecisionTaskCompleted _ => true
  | .RespondDecisionTaskFailed _ => true
  | _ => false

/-- What is wrong with a task token, if anything: it does not deserialize, or it fails
`validateTaskToken`. -/
def Handler.tokenError (h : Handler L) (data : List UInt8) : Option Err :=
  match h.tokenSerializer_Deserialize data with
  | .error err0 => some (.gen_BadRequestError ("Error deserializing task token. Error: " ++ err0))
  | .ok token => validateTaskToken h.uuid_Parse token

/-- The first required-field check, other than the domain check, that the request of a
call violates, as the error that check reports: a bad task token, a missing task-list
name (RecordDecisionTaskStarted), a missing WorkflowExecution (ScheduleDecisionTask,
RecordChildExecutionCompleted), a missing SourceCluster, ShardId or Timestamp
(SyncShardStatus), a missing workflow ID or a missing or invalid run ID (SyncActivity). -/
def Call.missingField (h : Handler L) (call : Call) : Option Err :=
  match call with
  | .RecordDecisionTaskStarted r =>
    if r.PollRequest = none ∨ gen.TaskList.GetName (r.PollRequest.bind (·.TaskList)) = "" then
      some errTaskListNotSet
    else none
  | .ScheduleDecisionTask r =>
    if r.WorkflowExecution.isNone then some errWorkflowExecutionNotSet else none
  | .RecordChildExecutionCompleted r =>
    if r.WorkflowExecution.isNone then some errWorkflowExecutionNotSet else none
  | .SyncShardStatus r =>
    if r.SourceCluster.isNone then some errSourceClusterNotSet
    else if r.ShardId.isNone then some errShardIDNotSet
    else if r.Timestamp.isNone then some errTimestampNotSet
    else none
  | .SyncActivity r =>
    if r.WorkflowId.isNone then some errWorkflowIDNotSet
    else if r.RunId = none ∨ h.uuid_Parse (r.RunId.getD "") = false then some errRunIDNotValid
    else none
  | call =>
    match call.taskToken with
    | some data => h.tokenError data
    | none => none

/-- Every nested request the method reads a field of is present, so that the method
does not dereference a nil pointer. -/
def Call.pointersPresent : Call → Bool
  | .RecordActivityTaskHeartbeat r => r.HeartbeatRequest.isSome
  | .RecordDecisionTaskStarted r => r.WorkflowExecution.isSome
  | .RespondActivityTaskCompleted r => r.CompleteRequest.isSome
  | .RespondActivityTaskFailed r => r.FailedRequest.isSome
  | .RespondActivityTaskCanceled r => r.CancelRequest.isSome
  | .RespondDecisionTaskCompleted r => r.CompleteRequest.isSome
  | .RespondDecisionTaskFailed r => r.FailedRequest.isSome
  | .DescribeWorkflowExecution r => r.Request.isSome
  | .RequestCancelWorkflowExecution r => r.CancelRequest.isSome
  | .SignalWorkflowExecution r => r.SignalRequest.isSome
  | .QueryWorkflow r => r.QueryRequest.isSome
  | .TerminateWorkflowExecution r => r.TerminateRequest.isSome
  | .ResetWorkflowExecution r => r.ResetRequest.isSome
  | _ => true

/-- A well-formed request: it passes the domain check, every nested request the method
reads is present, and no required field is missing. -/
def Call.wellFormed (h : Handler L) (call : Call) : Bool :=
  call.passesDomainCheck h && call.pointersPresent && (call.missingField h).isNone

/-- The workflow ID that the request of a non-token, engine-backed call carries in its
workflow execution reference (the empty string when the field or the reference is
absent), for the methods that look their engine up by workflow ID. -/
def Call.workflowID : Call → Option String
  | .RecordActivityTaskStarted r => some (gen.WorkflowExecution.GetWorkflowId r.WorkflowExecution)
  | .RecordDecisionTaskStarted r => some (gen.WorkflowExecution.GetWorkflowId r.WorkflowExecution)
  | .StartWorkflowExecution r =>
    some (gen.StartWorkflowExecutionRequest.GetWorkflowId r.StartRequest)
  | .DescribeMutableState r => some (gen.WorkflowExecution.GetWorkflowId r.Execution)
  | .GetMutableState r => some (gen.WorkflowExecution.GetWorkflowId r.Execution)
  | .DescribeWorkflowExecution r =>
    some (gen.WorkflowExecution.GetWorkflowId (r.Request.bind (·.Execution)))
  | .RequestCancelWorkflowExecution r =>
    some (gen.WorkflowExecution.GetWorkflowId (r.CancelRequest.bind (·.WorkflowExecution)))
  | .SignalWorkflowExecution r =>
    some (gen.WorkflowExecution.GetWorkflowId (r.SignalRequest.bind (·.WorkflowExecution)))
  | .SignalWithStartWorkflowExecution r =>
    some (gen.SignalWithStartWorkflowExecutionRequest.GetWorkflowId r.SignalWithStartRequest)
  | .RemoveSignalMutableState r =>
    some (gen.WorkflowExecution.GetWorkflowId r.WorkflowExecution)
  | .QueryWorkflow r =>
    some (gen.WorkflowExecution.GetWorkflowId (r.QueryRequest.bind (·.Execution)))
  | .TerminateWorkflowExecution r =>
    some (gen.WorkflowExecution.GetWorkflowId (r.TerminateRequest.bind (·.WorkflowExecution)))
  | .ResetWorkflowExecution r =>
    some (gen.WorkflowExecution.GetWorkflowId (r.ResetRequest.bind (·.WorkflowExecution)))
  | .ScheduleDecisionTask r => some (gen.WorkflowExecution.GetWorkflowId r.WorkflowExecution)
  | .RecordChildExecutionCompleted r =>
    some (gen.WorkflowExecution.GetWorkflowId r.WorkflowExecution)
  | .ResetStickyTaskList r => some (gen.WorkflowExecution.GetWorkflowId r.Execution)
  | .ReplicateEvents r => some (gen.WorkflowExecution.GetWorkflowId r.WorkflowExecution)
  | .ReplicateRawEvents r => some (gen.WorkflowExecution.GetWorkflowId r.WorkflowExecution)
  | .SyncActivity r => some (r.WorkflowId.getD "")
  | _ => none

/-! ## The pipeline the engine-backed methods follow

The methods that end in an engine operation all follow one pipeline. `Call.pipeline`
writes it down once, as a summary of a served call; `summary_serve` below proves that
every such method, as embedded above, has exactly this summary. -/

/-- The event is a counter increment or a timer start or stop. -/
def Event.isMetric : Event → Bool
  | .IncCounter .. | .StartTimer .. | .StopTimer .. => true
  | .TryConsume .. | .Deserialize .. | .GetEngine .. | .getEngineForShard .. | .EngineCall ..
  | .Lookup .. | .GetCacheSize | .Debug .. | .Debugf .. | .Errorf ..
  | .LogInternalServiceError .. | .LogUncategorizedError .. => false

/-- The metric events of a trace, in program order. -/
def metricEvents (t : List Event) : List Event := t.filter Event.isMetric

/-- What is observed of a served call: how it ends, the bucket it leaves, the calls it made
on the limiter, the serializer, the controller and the engines, and its metric events. -/
structure Summary (L : Type) where
  outcome : Outcome
  rateLimiter : L
  calls : List Event
  metrics : List Event

/-- The summary of a served call. -/
def summary (res : Outcome × World L) : Summary L :=
  { outcome := res.1
    rateLimiter := res.2.rateLimiter
    calls := calls res.2.trace
    metrics := metricEvents res.2.trace }

/-- The metrics scope a method records under; Health and DescribeHistoryHost record no
metrics. -/
def Call.scope : Call → Option metrics.Scope
  | .Health => none
  | .DescribeHistoryHost _ => none
  | .RecordActivityTaskHeartbeat _ => some .HistoryRecordActivityTaskHeartbeatScope
  | .RecordActivityTaskStarted _ => some .HistoryRecordActivityTaskStartedScope
  | .RecordDecisionTaskStarted _ => some .HistoryRecordDecisionTaskStartedScope
  | .RespondActivityTaskCompleted _ => some .HistoryRespondActivityTaskCompletedScope
  | .RespondActivityTaskFailed _ => some .HistoryRespondActivityTaskFailedScope
  | .RespondActivityTaskCanceled _ => some .HistoryRespondActivityTaskCanceledScope
  | .RespondDecisionTaskCompleted _ => some .HistoryRespondDecisionTaskCompletedScope
  | .RespondDecisionTaskFailed _ => some .HistoryRespondDecisionTaskFailedScope
  | .StartWorkflowExecution _ => some .HistoryStartWorkflowExecutionScope
  | .DescribeMutableState _ => some .HistoryRecordActivityTaskHeartbeatScope
  | .GetMutableState _ => some .HistoryGetMutableStateScope
  | .DescribeWorkflowExecution _ => some .HistoryDescribeWorkflowExecutionScope
  | .RequestCancelWorkflowExecution _ => some .HistoryRequestCancelWorkflowExecutionScope
  | .SignalWorkflowExecution _ => some .HistorySignalWorkflowExecutionScope
  | .SignalWithStartWorkflowExecution _ => some .HistorySignalWithStartWorkflowExecutionScope
  | .RemoveSignalMutableState _ => some .HistoryRemoveSignalMutableStateScope
  | .QueryWorkflow _ => some .HistoryClientQueryWorkflowScope
  | .TerminateWorkflowExecution _ => some .HistoryTerminateWorkflowExecutionScope
  | .ResetWorkflowExecution _ => some .HistoryResetWorkflowExecutionScope
  | .ScheduleDecisionTask _ => some .HistoryScheduleDecisionTaskScope
  | .RecordChildExecutionCompleted _ => some .HistoryRecordChildExecutionCompletedScope
  | .ResetStickyTaskList _ => some .HistoryResetStickyTaskListScope
  | .ReplicateEvents _ => some .HistoryReplicateEventsScope
  | .ReplicateRawEvents _ => some .HistoryReplicateRawEventsScope
  | .SyncShardStatus _ => some .HistorySyncShardStatusScope
  | .SyncActivity _ => some .HistorySyncActivityScope

/-- The method reads through a nested request before anything else, metrics included
(the debug line of RecordDecisionTaskStarted). -/
def Call.derefAtEntry : Call → Bool
  | .RecordDecisionTaskStarted _ => true
  | _ => false

/-- The method hands back a response besides the error. -/
def Call.hasResponse : Call → Bool
  | .RecordActivityTaskHeartbeat _ | .RecordActivityTaskStarted _
  | .RecordDecisionTaskStarted _ | .RespondDecisionTaskCompleted _
  | .StartWorkflowExecution _ | .DescribeMutableState _ | .GetMutableState _
  | .DescribeWorkflowExecution _ | .SignalWithStartWorkflowExecution _ | .QueryWorkflow _
  | .ResetWorkflowExecution _ | .ResetStickyTaskList _ => true
  | _ => false

/-- The shard lookup a method makes once its checks have passed, and its answer:
`GetEngine` on the workflow ID of the decoded token or of the request, or, for
SyncShardStatus, `getEngineForShard` on the shard ID of the request. -/
def Call.shardLookup (h : Handler L) (call : Call) : Event × Except Err Engine :=
  match call with
  | .SyncShardStatus r =>
    (.getEngineForShard (r.ShardId.getD 0), h.controller.getEngineForShard (r.ShardId.getD 0))
  | call =>
    let workflowID :=
      match call.taskToken with
      | some data =>
        match h.tokenSerializer_Deserialize data with
        | .ok token => token.WorkflowID
        | .error _ => ""
      | none => call.workflowID.getD ""
    (.GetEngine workflowID, h.controller.GetEngine workflowID)

/-- The summary of a call that ends in `h.error(err, scope, ...)`. -/
def Handler.failureSummary (h : Handler L) (scope : metrics.Scope) (err : Err) (lim : L)
    (cs : List Event) : Summary L :=
  { outcome := .error (h.convertError err).1
    rateLimiter := lim
    calls := cs
    metrics :=
      [.IncCounter scope .CadenceRequests, .StartTimer scope .CadenceLatency] ++
        metricEvents (h.updateErrorMetric scope "" "" (h.convertError err).1) ++
        [.StopTimer scope .CadenceLatency] }

/-- The summary of a call that ends without an error being classified: with a response,
or in a panic after the metrics prologue. -/
def Handler.plainSummary (_h : Handler L) (scope : metrics.Scope) (out : Outcome) (lim : L)
    (cs : List Event) : Summary L :=
  { outcome := out
    rateLimiter := lim
    calls := cs
    metrics :=
      [.IncCounter scope .CadenceRequests, .StartTimer scope .CadenceLatency,
       .StopTimer scope .CadenceLatency] }

/-- The call on the token serializer that a token-based method makes once admitted. -/
def Call.tokenCalls (call : Call) : List Event :=
  match call.taskToken with
  | some data => [.Deserialize data]
  | none => []

/-- Last stage of the pipeline: the shard lookup, then the engine operation. `cs` lists
the collaborator calls made so far. -/
def Call.afterChecks (h : Handler L) (call : Call) (scope : metrics.Scope) (lim : L)
    (cs : List Event) : Summary L :=
  match (call.shardLookup h).2 with
  | .error err1 => h.failureSummary scope err1 lim (cs ++ [(call.shardLookup h).1])
  | .ok engine =>
    match h.engineOp engine call with
    | .error err2 =>
      h.failureSummary scope err2 lim (cs ++ [(call.shardLookup h).1, .EngineCall engine call])
    | .ok response =>
      h.plainSummary scope (.ok (if call.hasResponse then some (.engine response) else none)) lim
        (cs ++ [(call.shardLookup h).1, .EngineCall engine call])

/-- Middle stage of the pipeline, entered once the call is admitted: the nested
requests, then the required fields (decoding the task token first), then the last
stage. -/
def Call.afterAdmission (h : Handler L) (call : Call) (scope : metrics.Scope) (lim : L)
    (cs : List Event) : Summary L :=
  if call.pointersPresent = false then h.plainSummary scope .panic lim cs
  else
    match call.missingField h with
    | some err => h.failureSummary scope err lim (cs ++ call.tokenCalls)
    | none => call.afterChecks h scope lim (cs ++ call.tokenCalls)

/-- The pipeline every engine-backed method follows, as a summary of the call: the start
barrier; the domain check; admission by the rate limiter (skipped by
DescribeMutableState); then the stages above. RecordDecisionTaskStarted reads through its
WorkflowExecution before all of this. -/
def Call.pipeline (h : Handler L) (call : Call) (scope : metrics.Scope) (lim : L) :
    Summary L :=
  if h.startWG ≠ 0 then
    { outcome := .blocked, rateLimiter := lim, calls := [], metrics := [] }
  else if call.derefAtEntry = true ∧ call.pointersPresent = false then
    { outcome := .panic, rateLimiter := lim, calls := [], metrics := [] }
  else if call.passesDomainCheck h = false then h.failureSummary scope errDomainNotSet lim []
  else if call.rateLimited = false then call.afterAdmission h scope lim []
  else if (h.rateLimiter_TryConsume 1 lim).1 = false then
    h.failureSummary scope errHistoryHostThrottle (h.rateLimiter_TryConsume 1 lim).2
      [.TryConsume 1 false]
  else call.afterAdmission h scope (h.rateLimiter_TryConsume 1 lim).2 [.TryConsume 1 true]

/-! ## A concrete handler for the examples -/

/-- Modelled from the spec: the rate limiter `common.TokenBucket`, whose source file is not
among the sources. The spec gives its contract as `tryConsume(n) -> bool` on a token
bucket; this is a bucket holding `tokens` tokens that is refilled at 0 tokens per second.
`TryConsume n` succeeds when `n` tokens are available, and then removes them. -/
structure TokenBucket where
  tokens : Nat
deriving DecidableEq, Repr, Inhabited

/-- Modelled from the spec: `TokenBucket.TryConsume` of the bucket above. -/
def TokenBucket.TryConsume (n : Nat) (b : TokenBucket) : Bool × TokenBucket :=
  if n ≤ b.tokens then (true, { tokens := b.tokens - n }) else (false, b)

/-- The text has the canonical form of a UUID: 36 characters, hyphens at positions 8, 13,
18 and 23, hexadecimal digits elsewhere. -/
def isCanonicalUUID (s : String) : Bool :=
  let cs := s.toList
  cs.length == 36 &&
    (List.range 36).all fun i =>
      let c := cs.getD i ' '
      if i = 8 ∨ i = 13 ∨ i = 18 ∨ i = 23 then c == '-'
      else c.isDigit || ('a' ≤ c && c ≤ 'f') || ('A' ≤ c && c ≤ 'F')

/-- A started handler on host `10.0.0.1:7934`: every shard lookup yields engine 3, every
engine operation answers with payload 7, the resolver names `10.0.0.2:7934` as owner of
every shard, and a task token decodes unless it is empty; its first byte, when odd, makes
the decoded run ID a text that is not a UUID. -/
def sampleHandler : Handler TokenBucket :=
  { startWG := 0
    hostAddress := "10.0.0.1:7934"
    hServiceResolver_Lookup := fun _ => .ok { addr := "10.0.0.2:7934" }
    rateLimiter_TryConsume := TokenBucket.TryConsume
    tokenSerializer_Deserialize := fun data =>
      match data with
      | [] => .error "unexpected end of JSON input"
      | b :: _ =>
        .ok { DomainID := "d", WorkflowID := "wf", RunID := if b % 2 = 1 then "not-a-uuid" else "",
              ScheduleID := 2 }
    uuid_Parse := isCanonicalUUID
    controller :=
      { isStarted := 1
        isStopped := 0
        isStopping := false
        numShards := 4
        shardIDs := [0, 1, 2, 3]
        GetEngine := fun _ => .ok { id := 3 }
        getEngineForShard := fun _ => .ok { id := 3 } }
    domainCache_GetCacheSize := (0, 0)
    engineOp := fun _ _ => .ok 7 }

/-- A start request for workflow `wf` in domain `d`. -/
def sampleStart : Call :=
  .StartWorkflowExecution { DomainUUID := some "d", StartRequest := some { WorkflowId := some "wf" } }

/-- A heartbeat in domain `d` carrying the task token `data`. -/
def sampleHeartbeat (data : List UInt8) : Call :=
  .RecordActivityTaskHeartbeat { DomainUUID := some "d", HeartbeatRequest := some { TaskToken := data } }

/-! ## Construction, start and stop of the handler

`NewHandler`, `Handler.Start` and `Handler.Stop` are straight-line code over the
handler's collaborators. A run of one of them lists the calls it issues, in program
order. A statement is reached only when every call before it has returned; whether a
call returns (rather than panics or blocks) is up to the collaborator. -/

/-- A call that `Start` or `Stop` makes on a collaborator or on the start wait group. -/
inductive LifecycleCall
  | Dispatcher_Register_historyserviceserver
  | Dispatcher_Register_metaserver
  | Service_Start
  | GetResolver
  | Fatalf (format : String)
  | NewProducerWithClusterName
  | NewProducer
  | domainCache_Start
  | historyEventNotifier_Start
  | controller_Start
  | startWG_Done
  | domainCache_Stop
  | controller_Stop
  | shardManager_Close
  | historyMgr_Close
  | historyV2Mgr_Close
  | executionMgrFactory_Close
  | metadataMgr_Close
  | visibilityMgr_Close
  | Service_Stop
  | historyEventNotifier_Stop
deriving DecidableEq, Repr, Inhabited

/-- How `Start` or `Stop` ends: it returns; the process exits in `Fatalf`; it panics; or
a call it made on a collaborator does not return. -/
inductive Exit
  | returned
  | fatal
  | panic
  | notReturned
deriving DecidableEq, Repr, Inhabited

/-- The handler over its life: the handler as its RPC methods see it (the counter of
the start wait group is `handler.startWG`), and whether the fields `domainCache`,
`controller` and `historyEventNotifier`, which are nil until `Start` assigns them, are
set. -/
structure Lifecycle (L : Type) where
  handler : Handler L
  domainCache : Bool
  controller : Bool
  historyEventNotifier : Bool

/-- What `Start` and `Stop` meet in their environment: whether a call on a collaborator
returns, which configuration flags are on, and which constructors hand back an error. -/
structure LifecycleEnv where
  returns : LifecycleCall → Bool
  GetResolver_err : Bool
  IsGlobalDomainEnabled : Bool
  NewProducerWithClusterName_err : Bool
  EnableVisibilityToKafka : Bool
  NewProducer_err : Bool

/-- A run of `Start` or `Stop` so far: how it ended, if it has ended; the handler; and
the calls issued, in program order. -/
structure Run (L : Type) where
  exit : Option Exit
  state : Lifecycle L
  trace : List LifecycleCall

/-- A statement that calls a collaborator through a field of the handler. It is reached
only if the run has not ended. A call through a nil field (`present = false`) panics.
Otherwise the call is issued, and the run ends here if the call does not return. -/
def Run.call (r : Run L) (returns : LifecycleCall → Bool) (present : Bool)
    (c : LifecycleCall) : Run L :=
  match r.exit with
  | some _ => r
  | none =>
    if present = false then { r with exit := some .panic }
    else if returns c = false then
      { r with exit := some .notReturned, trace := r.trace ++ [c] }
    else { r with trace := r.trace ++ [c] }

/-- The statement `h.GetLogger().Fatalf(format, ...)`, which logs and exits the process. -/
def Run.Fatalf (r : Run L) (format : String) : Run L :=
  match r.exit with
  | some _ => r
  | none => { r with exit := some .fatal, trace := r.trace ++ [.Fatalf format] }

/-- An assignment to fields of the handler. -/
def Run.assign (r : Run L) (f : Lifecycle L → Lifecycle L) : Run L :=
  match r.exit with
  | some _ => r
  | none => { r with state := f r.state }

/-- The statement `h.startWG.Done()`: it decrements the counter of the wait group, and
panics on a counter that is zero already. -/
def Run.Done (r : Run L) : Run L :=
  match r.exit with
  | some _ => r
  | none =>
    if r.state.handler.startWG = 0 then
      { r with exit := some .panic, trace := r.trace ++ [.startWG_Done] }
    else
      { r with
        state := { r.state with
          handler := { r.state.handler with startWG := r.state.handler.startWG - 1 } }
        trace := r.trace ++ [.startWG_Done] }

/-- The end of the method body: `return`. -/
def Run.ret (r : Run L) : Run L :=
  match r.exit with
  | some _ => r
  | none => { r with exit := some .returned }

/-- The function `NewHandler`. `collaborators` gives the behaviour of what the handler
is built over. The wait group of the new handler starts at zero and
`handler.startWG.Add(1)` arms it; the fields that `Start` assigns are left nil. -/
def NewHandler (collaborators : Handler L) : Lifecycle L :=
  let handler : Handler L := { collaborators with startWG := 0 }
  let handler : Handler L := { handler with startWG := handler.startWG + 1 }
  { handler := handler, domainCache := false, controller := false,
    historyEventNotifier := false }

/-- The method `Handler.Start`. The three retryable clients and the metrics client are
built from getters and leave no call; `h.domainCache`, `h.controller` and
`h.historyEventNotifier` are assigned right before their first use. -/
def Handler.Start (p : Lifecycle L) (env : LifecycleEnv) : Run L :=
  let r : Run L := { exit := none, state := p, trace := [] }
  let r := r.call env.returns true .Dispatcher_Register_historyserviceserver
  let r := r.call env.returns true .Dispatcher_Register_metaserver
  let r := r.call env.returns true .Service_Start
  let r := r.call env.returns true .GetResolver
  let r :=
    if env.GetResolver_err then r.Fatalf "Unable to get history service resolver: " else r
  let r :=
    if env.IsGlobalDomainEnabled then
      let r := r.call env.returns true .NewProducerWithClusterName
      if env.NewProducerWithClusterName_err then
        r.Fatalf "Creating kafka producer failed: %v"
      else r
    else r
  let r :=
    if env.EnableVisibilityToKafka then
      let r := r.call env.returns true .NewProducer
      if env.NewProducer_err then r.Fatalf "Creating visibility producer failed: %v" else r
    else r
  let r := r.assign fun s => { s with domainCache := true }
  let r := r.call env.returns true .domainCache_Start
  let r := r.assign fun s => { s with controller := true }
  let r := r.assign fun s => { s with historyEventNotifier := true }
  let r := r.call env.returns true .historyEventNotifier_Start
  let r := r.call env.returns true .controller_Start
  let r := r.Done
  r.ret

/-- The method `Handler.Stop`. -/
def Handler.Stop (p : Lifecycle L) (env : LifecycleEnv) : Run L :=
  let r : Run L := { exit := none, state := p, trace := [] }
  let r := r.call env.returns p.domainCache .domainCache_Stop
  let r := r.call env.returns p.controller .controller_Stop
  let r := r.call env.returns true .shardManager_Close
  let r := r.call env.returns true .historyMgr_Close
  let r := r.call env.returns true .historyV2Mgr_Close
  let r := r.call env.returns true .executionMgrFactory_Close
  let r := r.call env.returns true .metadataMgr_Close
  let r := r.call env.returns true .visibilityMgr_Close
  let r := r.call env.returns true .Service_Stop
  let r := r.call env.returns p.historyEventNotifier .historyEventNotifier_Stop
  r.ret

/-! ## Vocabulary for the lifecycle and the error classes -/

/-- The calls issued when the calls of `cs` are made one after the other, each once
the one before it has returned: `cs` up to and including the first call that does not
return. -/
def issued (returns : LifecycleCall → Bool) : List LifecycleCall → List LifecycleCall
  | [] => []
  | c :: cs => if returns c then c :: issued returns cs else [c]

/-- A run in which the start wait group has not been released: `Done` has not been
called, the counter is still `n`, and the run has not returned. -/
def Run.armed (n : Nat) (r : Run L) : Prop :=
  LifecycleCall.startWG_Done ∉ r.trace ∧ LifecycleCall.controller_Start ∉ r.trace ∧
    r.state.handler.startWG = n ∧ r.exit ≠ some .returned

/-- An environment in which every call returns, no constructor fails, and both
configuration flags are off. -/
def sampleEnv : LifecycleEnv :=
  { returns := fun _ => true
    GetResolver_err := false
    IsGlobalDomainEnabled := false
    NewProducerWithClusterName_err := false
    EnableVisibilityToKafka := false
    NewProducer_err := false }

/-- The nine error kinds that `updateErrorMetric` has a case for and that the caller sees
as they are, besides the generic failures. -/
inductive ErrKind
  | badRequest
  | domainNotActive
  | entityNotExists
  | cancellationAlreadyRequested
  | limitExceeded
  | retryTask
  | serviceBusy
  | eventAlreadyStarted
  | shardOwnershipLost
deriving DecidableEq, Repr, Inhabited

/-- The kind of an error, for the errors of one of the nine kinds. -/
def Err.kind : Err → Option ErrKind
  | .gen_BadRequestError _ => some .badRequest
  | .gen_DomainNotActiveError _ => some .domainNotActive
  | .gen_EntityNotExistsError _ => some .entityNotExists
  | .gen_CancellationAlreadyRequestedError _ => some .cancellationAlreadyRequested
  | .gen_LimitExceededError _ => some .limitExceeded
  | .gen_RetryTaskError _ => some .retryTask
  | .gen_ServiceBusyError _ => some .serviceBusy
  | .hist_EventAlreadyStartedError _ => some .eventAlreadyStarted
  | .hist_ShardOwnershipLostError _ _ => some .shardOwnershipLost
  | .persistence_ShardOwnershipLostError .. | .persistence_WorkflowExecutionAlreadyStartedError ..
  | .persistence_CurrentWorkflowConditionFailedError ..
  | .gen_WorkflowExecutionAlreadyStartedError .. | .yarpcerrors_Status ..
  | .gen_InternalServiceError .. | .other .. => none

/-- The counter of the case that `updateErrorMetric` has for the errors of a kind. -/
def ErrKind.counter : ErrKind → metrics.Metric
  | .badRequest => .CadenceErrBadRequestCounter
  | .domainNotActive => .CadenceErrBadRequestCounter
  | .entityNotExists => .CadenceErrEntityNotExistsCounter
  | .cancellationAlreadyRequested => .CadenceErrCancellationAlreadyRequestedCounter
  | .limitExceeded => .CadenceErrLimitExceededCounter
  | .retryTask => .CadenceErrRetryTaskCounter
  | .serviceBusy => .CadenceErrServiceBusyCounter
  | .eventAlreadyStarted => .CadenceErrEventAlreadyStartedCounter
  | .shardOwnershipLost => .CadenceErrShardOwnershipLostCounter

/-- The counters that a run of `updateErrorMetric` increments, in order. -/
def countersOf : List Event → List metrics.Metric
  | [] => []
  | .IncCounter _ counter :: t => counter :: countersOf t
  | _ :: t => countersOf t

/-- The name of the RPC method of a call. -/
def Call.method : Call → String
  | .Health => "Health"
  | .RecordActivityTaskHeartbeat _ => "RecordActivityTaskHeartbeat"
  | .RecordActivityTaskStarted _ => "RecordActivityTaskStarted"
  | .RecordDecisionTaskStarted _ => "RecordDecisionTaskStarted"
  | .RespondActivityTaskCompleted _ => "RespondActivityTaskCompleted"
  | .RespondActivityTaskFailed _ => "RespondActivityTaskFailed"
  | .RespondActivityTaskCanceled _ => "RespondActivityTaskCanceled"
  | .RespondDecisionTaskCompleted _ => "RespondDecisionTaskCompleted"
  | .RespondDecisionTaskFailed _ => "RespondDecisionTaskFailed"
  | .StartWorkflowExecution _ => "StartWorkflowExecution"
  | .DescribeHistoryHost _ => "DescribeHistoryHost"
  | .DescribeMutableState _ => "DescribeMutableState"
  | .GetMutableState _ => "GetMutableState"
  | .DescribeWorkflowExecution _ => "DescribeWorkflowExecution"
  | .RequestCancelWorkflowExecution _ => "RequestCancelWorkflowExecution"
  | .SignalWorkflowExecution _ => "SignalWorkflowExecution"
  | .SignalWithStartWorkflowExecution _ => "SignalWithStartWorkflowExecution"
  | .RemoveSignalMutableState _ => "RemoveSignalMutableState"
  | .QueryWorkflow _ => "QueryWorkflow"
  | .TerminateWorkflowExecution _ => "TerminateWorkflowExecution"
  | .ResetWorkflowExecution _ => "ResetWorkflowExecution"
  | .ScheduleDecisionTask _ => "ScheduleDecisionTask"
  | .RecordChildExecutionCompleted _ => "RecordChildExecutionCompleted"
  | .ResetStickyTaskList _ => "ResetStickyTaskList"
  | .ReplicateEvents _ => "ReplicateEvents"
  | .ReplicateRawEvents _ => "ReplicateRawEvents"
  | .SyncShardStatus _ => "SyncShardStatus"
  | .SyncActivity _ => "SyncActivity"

/-- The metrics scope of an event, for the metric events. -/
def Event.scope : Event → Option metrics.Scope
  | .IncCounter scope _ | .StartTimer scope _ | .StopTimer scope _ => some scope
  | .TryConsume .. | .Deserialize .. | .GetEngine .. | .getEngineForShard .. | .EngineCall ..
  | .Lookup .. | .GetCacheSize | .Debug .. | .Debugf .. | .Errorf ..
  | .LogInternalServiceError .. | .LogUncategorizedError .. => none

/-! ## The caller's context -/

namespace context

/-- What a method could read of its `context.Context`: whether the deadline has passed,
that is, whether `ctx.Err()` is `context.DeadlineExceeded`. -/
structure Context where
  deadlineExceeded : Bool
deriving DecidableEq, Repr, Inhabited

end context

/-- An RPC as its caller makes it, with the context `ctx`. Every method takes `ctx` as its
first parameter, hands it on to the operation of the engine and reads it nowhere else;
`engineOp ctx` is how the engines answer under `ctx`. -/
def Handler.rpc (h : Handler L)
    (engineOp : context.Context → Engine → Call → Except Err Nat) (ctx : context.Context)
    (call : Call) (rateLimiter : L) : Outcome × World L :=
  ({ h with engineOp := engineOp ctx }).serve call rateLimiter

/-- Engines that answer with payload 7 while the deadline of the context has not passed,
and with a deadline-exceeded status once it has. -/
def sampleEngineOp (ctx : context.Context) (_engine : Engine) (_call : Call) : Except Err Nat :=
  if ctx.deadlineExceeded then
    .error (.yarpcerrors_Status yarpcerrors.CodeDeadlineExceeded "context deadline exceeded")
  else .ok 7

/-- The type of the error has a case of its own in the switch of `updateErrorMetric`;
the other errors are handled by its `default` case. -/
def Err.hasCase : Err → Bool
  | .hist_ShardOwnershipLostError .. | .hist_EventAlreadyStartedError ..
  | .gen_BadRequestError .. | .gen_DomainNotActiveError ..
  | .gen_WorkflowExecutionAlreadyStartedError .. | .gen_EntityNotExistsError ..
  | .gen_CancellationAlreadyRequestedError .. | .gen_LimitExceededError ..
  | .gen_RetryTaskError .. | .gen_ServiceBusyError .. | .yarpcerrors_Status ..
  | .gen_InternalServiceError .. => true
  | .persistence_ShardOwnershipLostError .. | .persistence_WorkflowExecutionAlreadyStartedError ..
  | .persistence_CurrentWorkflowConditionFailedError .. | .other .. => false

/-! ## The plugin registry (`common/plugin/plugin.go`)

A Go map with string keys is the list of its entries, no key twice; a field that holds
a map is an `Option`, `none` being the nil map. Reading a nil map finds nothing; writing
to it panics. The mutex of the registry is taken at the start of every method and
released when the method leaves, whichever way; calls are modelled one at a time. -/

namespace plugin

/-- A Go map with keys of type `string`. -/
abbrev Map (V : Type) := List (String × V)

/-- The statement `m[key] = value` on a map that is not nil. -/
def Map.set {V : Type} (m : Map V) (key : String) (value : V) : Map V :=
  (key, value) :: m.filter fun e => e.1 ≠ key

/-- The expression `m[key]` with its `ok` flag, on a map that may be nil. -/
def Map.get {V : Type} (m : Option (Map V)) (key : String) : Option V :=
  match m with
  | none => none
  | some m => m.lookup key

/-- The struct `Provider`; `Function` stands for the value of type `interface{}`. -/
structure Provider where
  PluginID : String
  Name : String
  Scope : String
  Function : Nat
deriving DecidableEq, Repr, Inhabited

/-- The struct `Plugin`. -/
structure Plugin where
  ID : String
  Description : String
  Providers : List Provider
deriving DecidableEq, Repr, Inhabited

/-- The struct `Registry`, without its logger and its mutex. -/
structure Registry where
  plugins : Option (Map Plugin)
  used : Bool
  providers : Option (Map (Map Provider))
  providersSlice : Option (Map (List Provider))
deriving DecidableEq, Repr, Inhabited

/-- The struct `ScopedRegistry`. -/
structure ScopedRegistry where
  providers : Option (Map Provider)
deriving DecidableEq, Repr, Inhabited

/-- The errors that the registry builds with `errors.New` and `fmt.Errorf`, by the
statement that builds them, with the values formatted into the text. -/
inductive Error
  | calledAfterUsage
  | missingPluginID (Description : String)
  | duplicatedPluginID (ID : String)
  | duplicatedProvider (ID Scope Name : String)
  | noProvidersForScope (scope : String)
deriving DecidableEq, Repr, Inhabited

/-- The text of these errors, as their method `Error()` gives it. -/
def Error.message : Error → String
  | .calledAfterUsage => "Registry.Register called after usage"
  | .missingPluginID description => "missing plugin ID: Description=" ++ description
  | .duplicatedPluginID id => "failure registering plugin: duplicated plugin ID=" ++ id
  | .duplicatedProvider id scope name =>
    "failure registering plugin: duplicated provider ID=" ++ id ++ ", Scope=" ++ scope ++
      ", Name=" ++ name
  | .noProvidersForScope scope => "NewScopedRegistry failure: no providers for scope " ++ scope

/-- How a call of `Register` ends: it returns nil, it returns an error, or it panics. -/
inductive Result
  | nil
  | error (err : Error)
  | panic (text : String)
deriving DecidableEq, Repr, Inhabited

/-- The function `NewRegistry`: it makes `plugins` and `providers` and leaves
`providersSlice` nil. -/
def NewRegistry : Registry :=
  { plugins := some [], used := false, providers := some [], providersSlice := none }

/-- The loop `for _, provider := range plugin.Providers` of `Register`. The inner map
`byName` is shared with `r.providers`, so a write to it shows in the registry. -/
def Registry.Register.loop (pluginID : String) : List Provider → Registry → Result × Registry
  | [], r => (.nil, r)
  | provider :: rest, r =>
    match Map.get r.providers provider.Scope with
    | none =>
      let byName : Map Provider := []
      let byName := byName.set provider.Name provider
      match r.providers with
      | none => (.panic "assignment to entry in nil map", r)
      | some providers =>
        let r := { r with providers := some (providers.set provider.Scope byName) }
        match r.providersSlice with
        | none => (.panic "assignment to entry in nil map", r)
        | some providersSlice =>
          let r :=
            { r with providersSlice := some (providersSlice.set provider.Scope [provider]) }
          Registry.Register.loop pluginID rest r
    | some byName =>
      match Map.get (some byName) provider.Name with
      | some _ =>
        (.error (.duplicatedProvider pluginID provider.Scope provider.Name), r)
      | none =>
        let byName := byName.set provider.Name provider
        let r :=
          { r with
            providers :=
              r.providers.map fun (ps : Map (Map Provider)) => ps.set provider.Scope byName }
        let appended := (Map.get r.providersSlice provider.Scope).getD [] ++ [provider]
        match r.providersSlice with
        | none => (.panic "assignment to entry in nil map", r)
        | some providersSlice =>
          let r := { r with providersSlice := some (providersSlice.set provider.Scope appended) }
          Registry.Register.loop pluginID rest r

/-- The method `Registry.Register`: how the call ends and the registry it leaves. -/
def Registry.Register (r : Registry) (plugin : Plugin) : Result × Registry :=
  if r.used then (.error .calledAfterUsage, r)
  else if plugin.ID = "" then (.error (.missingPluginID plugin.Description), r)
  else
    match Map.get r.plugins plugin.ID with
    | some _ => (.error (.duplicatedPluginID plugin.ID), r)
    | none =>
      match r.plugins with
      | none => (.panic "assignment to entry in nil map", r)
      | some plugins =>
        let r := { r with plugins := some (plugins.set plugin.ID plugin) }
        Registry.Register.loop plugin.ID plugin.Providers r

/-- The method `Registry.NewScopedRegistry`. -/
def Registry.NewScopedRegistry (r : Registry) (scope : String) :
    Except Error ScopedRegistry × Registry :=
  let r := { r with used := true }
  match Map.get r.providers scope with
  | some providers => (.ok { providers := some providers }, r)
  | none => (.error (.noProvidersForScope scope), r)

/-- The method `Registry.GetAll`; the error it returns is always nil. -/
def Registry.GetAll (r : Registry) (scope : String) : List Provider × Registry :=
  let r := { r with used := true }
  ((Map.get r.providersSlice scope).getD [], r)

/-- A plugin `metrics` with one provider, `statsd` in the scope `reporter`. -/
def samplePlugin : Plugin :=
  { ID := "metrics"
    Description := "metrics reporters"
    Providers := [{ PluginID := "metrics", Name := "statsd", Scope := "reporter", Function := 1 }] }

/-- A plugin `metrics2` that declares the provider `statsd` of the scope `reporter`
again. -/
def sampleClash : Plugin :=
  { ID := "metrics2"
    Description := "more metrics reporters"
    Providers :=
      [{ PluginID := "metrics2", Name := "statsd", Scope := "reporter", Function := 2 }] }

/-- A plugin `tracing` that declares no provider. -/
def sampleBare : Plugin :=
  { ID := "tracing", Description := "tracing hooks", Providers := [] }

end plugin

/-! ## Lemmas on traces and on the error translator -/

theorem calls_nil : calls [] = [] := rfl

theorem calls_append (s t : List Event) : calls (s ++ t) = calls s ++ calls t := by
  simp [calls]

theorem calls_IncCounter (s c) (t : List Event) : calls (.IncCounter s c :: t) = calls t := rfl

theorem calls_StartTimer (s c) (t : List Event) : calls (.StartTimer s c :: t) = calls t := rfl

theorem calls_StopTimer (s c) (t : List Event) : calls (.StopTimer s c :: t) = calls t := rfl

theorem calls_TryConsume (n b) (t : List Event) :
    calls (.TryConsume n b :: t) = .TryConsume n b :: calls t := rfl

theorem calls_Deserialize (d) (t : List Event) :
    calls (.Deserialize d :: t) = .Deserialize d :: calls t := rfl

theorem calls_GetEngine (d) (t : List Event) :
    calls (.GetEngine d :: t) = .GetEngine d :: calls t := rfl

theorem calls_getEngineForShard (d) (t : List Event) :
    calls (.getEngineForShard d :: t) = .getEngineForShard d :: calls t := rfl

theorem calls_EngineCall (e c) (t : List Event) :
    calls (.EngineCall e c :: t) = .EngineCall e c :: calls t := rfl

theorem calls_Lookup (k) (t : List Event) : calls (.Lookup k :: t) = calls t := rfl

theorem calls_GetCacheSize (t : List Event) : calls (.GetCacheSize :: t) = calls t := rfl

theorem calls_Debug (m) (t : List Event) : calls (.Debug m :: t) = calls t := rfl

theorem calls_Debugf (f a) (t : List Event) : calls (.Debugf f a :: t) = calls t := rfl

theorem calls_Errorf (f e a) (t : List Event) : calls (.Errorf f e a :: t) = calls t := rfl

theorem calls_LogInternalServiceError (l e) (t : List Event) :
    calls (.LogInternalServiceError l e :: t) = calls t := rfl

theorem calls_LogUncategorizedError (l e) (t : List Event) :
    calls (.LogUncategorizedError l e :: t) = calls t := rfl

/-- Translating an error makes no call on the limiter, the serializer, the controller or
an engine. -/
theorem calls_convertError (h : Handler L) (err : Err) : calls (h.convertError err).2 = [] := by
  cases err <;> simp only [Handler.convertError] <;> first | rfl | (split <;> rfl)

/-- Classifying an error makes no call on the limiter, the serializer, the controller or
an engine. -/
theorem calls_updateErrorMetric (h : Handler L) (s : metrics.Scope) (d wf : String)
    (err : Err) : calls (h.updateErrorMetric s d wf err) = [] := by
  cases err <;> simp only [Handler.updateErrorMetric] <;> first | rfl | (split <;> rfl)

/-- The method `Handler.error` makes no call on the limiter, the serializer, the controller
or an engine. -/
theorem calls_error (h : Handler L) (err : Err) (s : metrics.Scope) (d wf : String) :
    calls (h.error err s d wf).2 = [] := by
  simp only [Handler.error, calls_append, calls_convertError, calls_updateErrorMetric,
    List.append_nil]

/-- A `BadRequestError` is handed back as it is and counted as a bad request. -/
theorem error_badRequest (h : Handler L) (msg : String) (s : metrics.Scope) (d wf : String) :
    h.error (.gen_BadRequestError msg) s d wf =
      (.gen_BadRequestError msg, [.IncCounter s .CadenceErrBadRequestCounter]) := rfl

/-- The throttle error is handed back as it is and counted as service busy. -/
theorem error_throttle (h : Handler L) (s : metrics.Scope) (d wf : String) :
    h.error errHistoryHostThrottle s d wf =
      (errHistoryHostThrottle, [.IncCounter s .CadenceErrServiceBusyCounter]) := rfl

/-! ## The error translator -/

/-- C2. For a persistence ShardOwnershipLostError of any shard, `convertError` returns the
history service's ShardOwnershipLostError whose message is "Shard is not owned by host: "
followed by this host's address, and whose owner is the address the membership resolver
returns for the shard's key when the lookup succeeds and the empty string when it fails;
`Handler.error` hands back the same error. -/
theorem convertError_shardOwnershipLost (h : Handler L) (shardID : Int) (msg : String) :
    (∀ info, h.hServiceResolver_Lookup (goString shardID) = .ok info →
      (h.convertError (.persistence_ShardOwnershipLostError shardID msg)).1 =
        .hist_ShardOwnershipLostError (some ("Shard is not owned by host: " ++ h.hostAddress))
          (some info.GetAddress)) ∧
    (∀ e, h.hServiceResolver_Lookup (goString shardID) = .error e →
      (h.convertError (.persistence_ShardOwnershipLostError shardID msg)).1 =
        .hist_ShardOwnershipLostError (some ("Shard is not owned by host: " ++ h.hostAddress))
          (some "")) ∧
    ∀ scope domainID workflowID,
      (h.error (.persistence_ShardOwnershipLostError shardID msg) scope domainID workflowID).1 =
        (h.convertError (.persistence_ShardOwnershipLostError shardID msg)).1 := by
  refine ⟨fun info hl => ?_, fun e hl => ?_, fun _ _ _ => rfl⟩ <;>
    simp only [Handler.convertError, hl, createShardOwnershipLostError]

/-- C10. For a persistence WorkflowExecutionAlreadyStartedError with start request ID `R`
and run ID `U`, `convertError` returns the caller-visible
WorkflowExecutionAlreadyStartedError carrying `R` and `U` unchanged, and `Handler.error`
hands back that error and counts it, once, under the execution-already-started counter of
the method's scope. -/
theorem convertError_alreadyStarted (h : Handler L) (msg R U : String)
    (scope : metrics.Scope) (domainID workflowID : String) :
    (h.convertError (.persistence_WorkflowExecutionAlreadyStartedError msg R U)).1 =
      .gen_WorkflowExecutionAlreadyStartedError (some "Workflow is already running")
        (some R) (some U) ∧
    h.error (.persistence_WorkflowExecutionAlreadyStartedError msg R U) scope domainID
        workflowID =
      (.gen_WorkflowExecutionAlreadyStartedError (some "Workflow is already running")
        (some R) (some U),
       [.IncCounter scope .CadenceErrExecutionAlreadyStartedCounter]) :=
  ⟨rfl, rfl⟩

/-! ## Task tokens -/

/-- C6. `validateTaskToken` accepts a token exactly when its WorkflowID is non-empty and its
RunID is empty or parses as a UUID; it reports "WorkflowId is not set on request."
whenever the WorkflowID is empty, whatever the RunID, and "RunID is not valid UUID." when
the WorkflowID is non-empty and the RunID is a non-empty text that is not a UUID. -/
theorem validateTaskToken_spec (uuidParse : String → Bool) (token : common.TaskToken) :
    (validateTaskToken uuidParse token = none ↔
      token.WorkflowID ≠ "" ∧ (token.RunID = "" ∨ uuidParse token.RunID = true)) ∧
    (token.WorkflowID = "" →
      validateTaskToken uuidParse token =
        some (.gen_BadRequestError "WorkflowId is not set on request.")) ∧
    (token.WorkflowID ≠ "" → token.RunID ≠ "" → uuidParse token.RunID = false →
      validateTaskToken uuidParse token =
        some (.gen_BadRequestError "RunID is not valid UUID.")) := by
  unfold validateTaskToken errWorkflowIDNotSet errRunIDNotValid
  by_cases hw : token.WorkflowID = "" <;> by_cases hr : token.RunID = "" <;>
    cases hu : uuidParse token.RunID <;> simp [hw, hr, hu]

theorem metricEvents_nil : metricEvents [] = [] := rfl

theorem metricEvents_append (s t : List Event) :
    metricEvents (s ++ t) = metricEvents s ++ metricEvents t := by
  simp [metricEvents]

theorem metricEvents_IncCounter (s c) (t : List Event) :
    metricEvents (.IncCounter s c :: t) = .IncCounter s c :: metricEvents t := rfl

theorem metricEvents_StartTimer (s c) (t : List Event) :
    metricEvents (.StartTimer s c :: t) = .StartTimer s c :: metricEvents t := rfl

theorem metricEvents_StopTimer (s c) (t : List Event) :
    metricEvents (.StopTimer s c :: t) = .StopTimer s c :: metricEvents t := rfl

theorem metricEvents_TryConsume (n b) (t : List Event) :
    metricEvents (.TryConsume n b :: t) = metricEvents t := rfl

theorem metricEvents_Deserialize (d) (t : List Event) :
    metricEvents (.Deserialize d :: t) = metricEvents t := rfl

theorem metricEvents_GetEngine (d) (t : List Event) :
    metricEvents (.GetEngine d :: t) = metricEvents t := rfl

theorem metricEvents_getEngineForShard (d) (t : List Event) :
    metricEvents (.getEngineForShard d :: t) = metricEvents t := rfl

theorem metricEvents_EngineCall (e c) (t : List Event) :
    metricEvents (.EngineCall e c :: t) = metricEvents t := rfl

theorem metricEvents_Debugf (f a) (t : List Event) :
    metricEvents (.Debugf f a :: t) = metricEvents t := rfl

theorem metricEvents_Errorf (f e a) (t : List Event) :
    metricEvents (.Errorf f e a :: t) = metricEvents t := rfl

/-- The counters `updateErrorMetric` increments do not depend on the logging tags. -/
theorem metricEvents_updateErrorMetric (h : Handler L) (s : metrics.Scope) (d wf : String)
    (err : Err) :
    metricEvents (h.updateErrorMetric s d wf err) =
      metricEvents (h.updateErrorMetric s "" "" err) := by
  cases err <;> rfl

/-- The metric events of `Handler.error` are the counters of the translated error. -/
theorem metricEvents_error (h : Handler L) (err : Err) (s : metrics.Scope) (d wf : String) :
    metricEvents (h.error err s d wf).2 =
      metricEvents (h.updateErrorMetric s "" "" (h.convertError err).1) := by
  have hc : metricEvents (h.convertError err).2 = [] := by
    cases err <;> simp only [Handler.convertError] <;> first | rfl | (split <;> rfl)
  simp only [Handler.error, metricEvents_append, hc, List.nil_append]
  exact metricEvents_updateErrorMetric h s d wf _

theorem error_fst (h : Handler L) (err : Err) (s : metrics.Scope) (d wf : String) :
    (h.error err s d wf).1 = (h.convertError err).1 := rfl

set_option maxHeartbeats 1600000 in
theorem summary_handle (h : Handler L) (call : Call) (scope : metrics.Scope) (lim : L)
    (res : Outcome × World L) (hs : call.scope = some scope)
    (hres : h.handle call { rateLimiter := lim, trace := [] } = res) :
    summary res = call.pipeline h scope lim := by
  rcases hadm : h.rateLimiter_TryConsume 1 lim with ⟨ok, lim1⟩
  cases ok <;> cases call <;>
    simp only [Call.scope, Option.some.injEq, reduceCtorEq] at hs <;> subst hs <;>
    simp only [hadm, Handler.handle, Handler.RecordActivityTaskHeartbeat,
      Handler.RecordActivityTaskStarted, Handler.RecordDecisionTaskStarted,
      Handler.RespondActivityTaskCompleted, Handler.RespondActivityTaskFailed,
      Handler.RespondActivityTaskCanceled, Handler.RespondDecisionTaskCompleted,
      Handler.RespondDecisionTaskFailed, Handler.StartWorkflowExecution,
      Handler.DescribeMutableState, Handler.GetMutableState, Handler.DescribeWorkflowExecution,
      Handler.RequestCancelWorkflowExecution, Handler.SignalWorkflowExecution,
      Handler.SignalWithStartWorkflowExecution, Handler.RemoveSignalMutableState,
      Handler.QueryWorkflow, Handler.TerminateWorkflowExecution, Handler.ResetWorkflowExecution,
      Handler.ScheduleDecisionTask, Handler.RecordChildExecutionCompleted,
      Handler.ResetStickyTaskList, Handler.ReplicateEvents, Handler.ReplicateRawEvents,
      Handler.SyncShardStatus, Handler.SyncActivity, Handler.dispatch, Handler.TryConsume,
      deferStop, World.startMetrics, World.emit, Handler.fail] at hres <;>
    (repeat' split at hres) <;>
    subst hres <;>
    simp_all [summary, Call.pipeline, Call.afterAdmission, Call.afterChecks, Call.tokenCalls,
      Call.derefAtEntry, Call.pointersPresent,
      Call.passesDomainCheck, Call.domainID, Call.rateLimited, Call.taskToken,
      Call.missingField, Call.shardLookup, Call.workflowID, Call.hasResponse,
      Handler.tokenError, Handler.failureSummary, Handler.plainSummary,
      calls_nil, calls_append, calls_IncCounter, calls_StartTimer, calls_StopTimer,
      calls_TryConsume, calls_Deserialize, calls_GetEngine, calls_getEngineForShard,
      calls_EngineCall, calls_Debugf, calls_Errorf, calls_error,
      metricEvents_nil, metricEvents_append, metricEvents_IncCounter, metricEvents_StartTimer,
      metricEvents_StopTimer, metricEvents_TryConsume, metricEvents_Deserialize,
      metricEvents_GetEngine, metricEvents_getEngineForShard, metricEvents_EngineCall,
      metricEvents_Debugf, metricEvents_Errorf, metricEvents_error, error_fst,
      errDomainNotSet, errHistoryHostThrottle]

/-- Every engine-backed method follows the pipeline: served from an empty trace, a
call's outcome, bucket, collaborator calls and metric events are those of
`Call.pipeline`. -/
theorem summary_serve (h : Handler L) (call : Call) (scope : metrics.Scope) (lim : L)
    (hs : call.scope = some scope) :
    summary (h.serve call lim) = call.pipeline h scope lim :=
  summary_handle h call scope lim _ hs rfl

theorem mem_calls {e : Event} {t : List Event} (h : e ∈ t) (hc : e.isCall = true) :
    e ∈ calls t := List.mem_filter.mpr ⟨h, hc⟩

/-- Health and DescribeHistoryHost make no call on the limiter, the serializer, the
controller or an engine, record no metric and leave the bucket as it was. -/
theorem serve_of_scope_none (h : Handler L) (call : Call) (lim : L)
    (hs : call.scope = none) :
    calls (h.serve call lim).2.trace = [] ∧ metricEvents (h.serve call lim).2.trace = [] ∧
      (h.serve call lim).2.rateLimiter = lim := by
  cases call <;> simp only [Call.scope, reduceCtorEq] at hs <;>
    simp only [Handler.serve, Handler.handle, Handler.Health, Handler.DescribeHistoryHost,
      World.emit] <;>
    split <;> exact ⟨rfl, rfl, rfl⟩

/-! ## The domain check -/

/-- A request with an empty domain identifier is rejected with "Domain not set on request."
before the limiter, the serializer, the controller or an engine is called, and the bucket
is left as it was, provided the handler is started, `uuid.Parse` rejects the empty
text, and, for RecordDecisionTaskStarted, the request has a WorkflowExecution. -/
theorem empty_domain_rejected (h : Handler L) (call : Call) (lim : L)
    (hstart : h.startWG = 0) (huuid : h.uuid_Parse "" = false)
    (hdom : call.domainID = some "")
    (hwe : ∀ r, call = .RecordDecisionTaskStarted r → r.WorkflowExecution ≠ none) :
    (h.serve call lim).1 = .error (.gen_BadRequestError "Domain not set on request.") ∧
    (h.serve call lim).2.rateLimiter = lim ∧
    calls (h.serve call lim).2.trace = [] := by
  obtain ⟨scope, hs⟩ : ∃ scope, call.scope = some scope := by
    cases call <;> first | exact ⟨_, rfl⟩ | cases hdom
  have hdc : call.passesDomainCheck h = false := by
    cases call <;> simp only [Call.domainID, Option.some.injEq, reduceCtorEq] at hdom <;>
      simp [Call.passesDomainCheck, Call.domainID, hdom, huuid]
  have hde : ¬(call.derefAtEntry = true ∧ call.pointersPresent = false) := by
    rintro ⟨h1, h2⟩
    cases call <;> simp only [Call.derefAtEntry, Bool.false_eq_true] at h1
    rename_i r
    have hnone : r.WorkflowExecution = none := by
      cases hr : r.WorkflowExecution with
      | none => rfl
      | some we => simp [Call.pointersPresent, hr] at h2
    exact hwe r rfl hnone
  have hsum := summary_serve h call scope lim hs
  simp only [Call.pipeline, hstart, hde, hdc, ne_eq, not_true_eq_false, ↓reduceIte] at hsum
  exact ⟨congrArg Summary.outcome hsum, congrArg Summary.rateLimiter hsum,
    congrArg Summary.calls hsum⟩

/-- C1 (failing input). A RecordDecisionTaskStarted request with no domain identifier and no
WorkflowExecution is not answered with "Domain not set on request.": the debug line at the
top of the method reads `recordRequest.WorkflowExecution.RunId` through the nil pointer, so
the call panics before the domain check, and before any metric is recorded. -/
theorem RecordDecisionTaskStarted_empty_domain_panics (h : Handler L) (lim : L)
    (scheduleId : Option Int) (pollRequest : Option gen.PollForDecisionTaskRequest) :
    ({ h with startWG := 0 } : Handler L).serve
        (.RecordDecisionTaskStarted
          { DomainUUID := none, WorkflowExecution := none, ScheduleId := scheduleId,
            PollRequest := pollRequest }) lim =
      (.panic, { rateLimiter := lim, trace := [] }) := rfl

/-- The shard lookup of a method is a call on the controller, by workflow ID or by shard
ID, and its answer is the controller's. -/
theorem shardLookup_cases (h : Handler L) (call : Call) :
    (∃ workflowID, call.shardLookup h =
        (.GetEngine workflowID, h.controller.GetEngine workflowID)) ∨
      ∃ shardID, call.shardLookup h =
        (.getEngineForShard shardID, h.controller.getEngineForShard shardID) := by
  cases call <;> first | exact .inl ⟨_, rfl⟩ | exact .inr ⟨_, rfl⟩

/-- The shard lookup of a method is a call on the controller. -/
theorem shardLookup_fst (h : Handler L) (call : Call) :
    (∃ workflowID, (call.shardLookup h).1 = .GetEngine workflowID) ∨
      ∃ shardID, (call.shardLookup h).1 = .getEngineForShard shardID := by
  rcases shardLookup_cases h call with ⟨x, hx⟩ | ⟨x, hx⟩
  · exact .inl ⟨x, by rw [hx]⟩
  · exact .inr ⟨x, by rw [hx]⟩

/-- No event of a trace is a shard lookup or an engine operation when none of its
collaborator calls is. -/
theorem not_forwarded_of_calls (t : List Event)
    (hc : ∀ e ∈ calls t, e.isShardLookup = false ∧ e.isEngineCall = false) :
    ∀ e ∈ t, e.isShardLookup = false ∧ e.isEngineCall = false := by
  intro e he
  by_cases hcall : e.isCall = true
  · exact hc e (mem_calls he hcall)
  · simp only [Event.isCall, Bool.or_eq_true, not_or, Bool.not_eq_true] at hcall
    exact ⟨hcall.1.2, hcall.2⟩

/-- The metric events of a call that fails with the throttle error. -/
theorem failureSummary_throttle (h : Handler L) (scope : metrics.Scope) (lim : L) (cs : List Event) :
    h.failureSummary scope errHistoryHostThrottle lim cs =
      { outcome := .error errHistoryHostThrottle
        rateLimiter := lim
        calls := cs
        metrics :=
          [.IncCounter scope .CadenceRequests, .StartTimer scope .CadenceLatency,
           .IncCounter scope .CadenceErrServiceBusyCounter, .StopTimer scope .CadenceLatency] } :=
  rfl

/-- The stages entered after admission make no call on the rate limiter. -/
theorem afterAdmission_limiter_calls (h : Handler L) (call : Call) (scope : metrics.Scope) (lim : L)
    (cs : List Event) (n : Nat) (b : Bool)
    (hmem : Event.TryConsume n b ∈ (call.afterAdmission h scope lim cs).calls) :
    Event.TryConsume n b ∈ cs := by
  have hl := shardLookup_fst h call
  have ht : Event.TryConsume n b ∉ call.tokenCalls := by
    unfold Call.tokenCalls; split <;> simp
  unfold Call.afterAdmission Call.afterChecks at hmem
  repeat' split at hmem
  all_goals
    simp only [Handler.failureSummary, Handler.plainSummary, List.mem_append, List.mem_cons,
      List.not_mem_nil, or_false, reduceCtorEq, ht] at hmem
  all_goals
    first
    | exact hmem
    | (rcases hl with ⟨x, hx⟩ | ⟨x, hx⟩ <;> simp only [hx, reduceCtorEq, or_false] at hmem <;>
        exact hmem)

/-! ## Admission control -/

/-- The pipeline of a started handler for a request that passes the domain check, up to
admission. -/
theorem pipeline_of_passesDomainCheck (h : Handler L) (call : Call) (scope : metrics.Scope)
    (lim : L) (hst : h.startWG = 0) (hdc : call.passesDomainCheck h = true)
    (hde : call.derefAtEntry = true → call.pointersPresent = true) :
    call.pipeline h scope lim =
      if call.rateLimited = false then call.afterAdmission h scope lim []
      else if (h.rateLimiter_TryConsume 1 lim).1 = false then
        h.failureSummary scope errHistoryHostThrottle (h.rateLimiter_TryConsume 1 lim).2
          [.TryConsume 1 false]
      else call.afterAdmission h scope (h.rateLimiter_TryConsume 1 lim).2 [.TryConsume 1 true] := by
  have hne : ¬(call.derefAtEntry = true ∧ call.pointersPresent = false) := by
    rintro ⟨h1, h2⟩
    rw [hde h1] at h2
    cases h2
  simp only [Call.pipeline, hst, hdc, hne, ne_eq, not_true_eq_false, Bool.true_eq_false,
    ↓reduceIte]

/-- C3. Whenever a call's `TryConsume(1)` reports that no token is available, the method
returns the ServiceBusyError "History host rps exceeded", the rejected `TryConsume(1)` is
the only call made on the limiter, the serializer, the controller and the engines (so
the request is not forwarded), and the only counters incremented are the request counter
and the service-busy counter of the method's scope. The limiter is asked, and so reports,
whenever a started handler serves a rate-limited method a request that passes the domain
check (and, for RecordDecisionTaskStarted, has its WorkflowExecution) from a bucket without
a token. -/
theorem throttled_call_is_not_forwarded (h : Handler L) (call : Call) (lim : L) :
    (Event.TryConsume 1 false ∈ (h.serve call lim).2.trace →
      (h.serve call lim).1 = .error (.gen_ServiceBusyError "History host rps exceeded") ∧
      calls (h.serve call lim).2.trace = [.TryConsume 1 false] ∧
      ∃ scope, call.scope = some scope ∧
        metricEvents (h.serve call lim).2.trace =
          [.IncCounter scope .CadenceRequests, .StartTimer scope .CadenceLatency,
           .IncCounter scope .CadenceErrServiceBusyCounter,
           .StopTimer scope .CadenceLatency]) ∧
    (h.startWG = 0 → call.rateLimited = true → call.passesDomainCheck h = true →
      (call.derefAtEntry = true → call.pointersPresent = true) →
      (h.rateLimiter_TryConsume 1 lim).1 = false →
      Event.TryConsume 1 false ∈ (h.serve call lim).2.trace) := by
  refine ⟨fun hno => ?_, fun hst hrl hdc hde hadm => ?_⟩
  · have hmem := mem_calls hno rfl
    cases hs : call.scope with
    | none => rw [(serve_of_scope_none h call lim hs).1] at hmem; cases hmem
    | some scope =>
      have hsum := summary_serve h call scope lim hs
      have hc : calls (h.serve call lim).2.trace = (call.pipeline h scope lim).calls :=
        congrArg Summary.calls hsum
      have ho : (h.serve call lim).1 = (call.pipeline h scope lim).outcome :=
        congrArg Summary.outcome hsum
      have hm : metricEvents (h.serve call lim).2.trace =
          (call.pipeline h scope lim).metrics := congrArg Summary.metrics hsum
      rw [hc] at hmem ⊢
      rw [ho, hm]
      refine ⟨?_, ?_, scope, rfl, ?_⟩ <;>
        · unfold Call.pipeline at hmem ⊢
          split_ifs at hmem ⊢ with h1 h2 h3 h4 h5
          · cases hmem
          · cases hmem
          · simp [Handler.failureSummary] at hmem
          · have := afterAdmission_limiter_calls h call scope lim [] 1 false hmem
            cases this
          · rfl
          · have := afterAdmission_limiter_calls h call scope _ _ 1 false hmem
            simp at this
  · obtain ⟨scope, hs⟩ : ∃ scope, call.scope = some scope := by
      cases call <;> first | exact ⟨_, rfl⟩ | cases hrl
    have hsum := summary_serve h call scope lim hs
    rw [pipeline_of_passesDomainCheck h call scope lim hst hdc hde] at hsum
    simp only [hrl, hadm, Bool.true_eq_false, ↓reduceIte] at hsum
    have hc : calls (h.serve call lim).2.trace = [.TryConsume 1 false] :=
      congrArg Summary.calls hsum
    have hin : Event.TryConsume 1 false ∈ calls (h.serve call lim).2.trace := by
      rw [hc]; exact List.mem_singleton.2 rfl
    exact List.mem_of_mem_filter hin

/-! ## Facts about the stages of the pipeline -/

/-- A rate-limited method records under a scope. -/
theorem scope_of_rateLimited (call : Call) (hrl : call.rateLimited = true) :
    ∃ scope, call.scope = some scope := by
  cases call <;> first | exact ⟨_, rfl⟩ | cases hrl

/-- The calls of the last stage: the shard lookup and, when it yields an engine, the
engine operation. The bucket is not touched. -/
theorem afterChecks_spec (h : Handler L) (call : Call) (scope : metrics.Scope) (lim : L)
    (cs : List Event) :
    (call.afterChecks h scope lim cs).calls =
        cs ++ (call.shardLookup h).1 ::
          (match (call.shardLookup h).2 with
           | .ok engine => [Event.EngineCall engine call]
           | .error _ => []) ∧
      (call.afterChecks h scope lim cs).rateLimiter = lim := by
  cases hsl : (call.shardLookup h).2 with
  | error err1 => simp only [Call.afterChecks, hsl]; exact ⟨rfl, rfl⟩
  | ok engine =>
    cases heo : h.engineOp engine call with
    | error err2 =>
      simp only [Call.afterChecks, hsl, heo]
      exact ⟨by simp [Handler.failureSummary], rfl⟩
    | ok response =>
      simp only [Call.afterChecks, hsl, heo]
      exact ⟨by simp [Handler.plainSummary], rfl⟩

/-- A well-formed request goes through the middle stage to the last one. -/
theorem afterAdmission_of_wellFormed (h : Handler L) (call : Call) (scope : metrics.Scope) (lim : L)
    (cs : List Event) (hpp : call.pointersPresent = true) (hmf : call.missingField h = none) :
    call.afterAdmission h scope lim cs = call.afterChecks h scope lim (cs ++ call.tokenCalls) := by
  simp only [Call.afterAdmission, hpp, hmf, Bool.true_eq_false, ↓reduceIte]

/-- A request with a missing required field ends in the middle stage, with that error. -/
theorem afterAdmission_of_missingField (h : Handler L) (call : Call) (scope : metrics.Scope)
    (lim : L) (cs : List Event) (err : Err) (hpp : call.pointersPresent = true)
    (hmf : call.missingField h = some err) :
    call.afterAdmission h scope lim cs = h.failureSummary scope err lim (cs ++ call.tokenCalls) := by
  simp only [Call.afterAdmission, hpp, hmf, Bool.true_eq_false, ↓reduceIte]

/-- The stages entered after admission leave the bucket as it is. -/
theorem afterAdmission_rateLimiter (h : Handler L) (call : Call) (scope : metrics.Scope) (lim : L)
    (cs : List Event) : (call.afterAdmission h scope lim cs).rateLimiter = lim := by
  unfold Call.afterAdmission
  split
  · rfl
  · split
    · rfl
    · exact (afterChecks_spec h call scope lim _).2

/-- The stages entered after admission add no call on the rate limiter. -/
theorem afterAdmission_filter_isRateLimiter (h : Handler L) (call : Call) (scope : metrics.Scope)
    (lim : L) (cs : List Event) :
    (call.afterAdmission h scope lim cs).calls.filter Event.isRateLimiter =
      cs.filter Event.isRateLimiter := by
  have ht : call.tokenCalls.filter Event.isRateLimiter = [] := by
    unfold Call.tokenCalls; split <;> rfl
  have hl : ((call.shardLookup h).1).isRateLimiter = false := by
    rcases shardLookup_fst h call with ⟨x, hx⟩ | ⟨x, hx⟩ <;> rw [hx] <;> rfl
  unfold Call.afterAdmission
  split
  · rfl
  · split
    · simp only [Handler.failureSummary, List.filter_append, ht, List.append_nil]
    · rw [(afterChecks_spec h call scope lim _).1]
      have he : ∀ e c, (Event.EngineCall e c).isRateLimiter = false := fun _ _ => rfl
      cases (call.shardLookup h).2 <;> simp [List.filter_append, List.filter_cons, hl, ht, he]

/-- A `BadRequestError` is handed back as it is by the error translator. -/
theorem convertError_of_isBadRequest (h : Handler L) (err : Err)
    (hb : err.isBadRequest = true) : (h.convertError err).1 = err := by
  cases err <;> first | rfl | cases hb

/-- What is wrong with a task token is reported as a `BadRequestError`. -/
theorem tokenError_isBadRequest (h : Handler L) (data : List UInt8) (err : Err)
    (he : h.tokenError data = some err) : err.isBadRequest = true := by
  unfold Handler.tokenError at he
  split at he
  · cases he; rfl
  · unfold validateTaskToken at he
    split_ifs at he <;> cases he <;> rfl

/-- A missing required field is reported as a `BadRequestError`, and only methods that
consult the rate limiter have required fields besides the domain. -/
theorem missingField_spec (h : Handler L) (call : Call) (err : Err)
    (hmf : call.missingField h = some err) :
    err.isBadRequest = true ∧ call.rateLimited = true := by
  have tok : ∀ c : Call, (match c.taskToken with
      | some data => h.tokenError data
      | none => none) = some err → err.isBadRequest = true := by
    intro c hc
    split at hc
    · exact tokenError_isBadRequest h _ err hc
    · cases hc
  cases call <;> simp only [Call.missingField] at hmf <;>
    first
    | (refine ⟨?_, rfl⟩
       first
       | exact tok _ hmf
       | (split_ifs at hmf <;> cases hmf <;> rfl))
    | (exfalso; simp [Call.taskToken] at hmf)

/-- The engine of a method that takes its workflow ID from the request is looked up
under that workflow ID. -/
theorem shardLookup_of_workflowID (h : Handler L) (call : Call) (workflowID : String)
    (hw : call.workflowID = some workflowID) :
    call.shardLookup h = (.GetEngine workflowID, h.controller.GetEngine workflowID) := by
  cases call <;> simp only [Call.workflowID, reduceCtorEq, Option.some.injEq] at hw <;>
    subst hw <;> rfl

/-- The engine of a token-based method is looked up under the workflow ID of the decoded
token. -/
theorem shardLookup_of_taskToken (h : Handler L) (call : Call) (data : List UInt8)
    (token : common.TaskToken) (ht : call.taskToken = some data)
    (hd : h.tokenSerializer_Deserialize data = .ok token) :
    call.shardLookup h = (.GetEngine token.WorkflowID, h.controller.GetEngine token.WorkflowID) := by
  cases call <;> simp only [Call.taskToken, reduceCtorEq] at ht <;>
    simp only [Call.shardLookup, Call.taskToken, ht, hd]

/-- What a well-formed request is, spelled out. -/
theorem wellFormed_iff (h : Handler L) (call : Call) :
    call.wellFormed h = true ↔
      call.passesDomainCheck h = true ∧ call.pointersPresent = true ∧
        call.missingField h = none := by
  simp [Call.wellFormed, and_assoc]

/-- The pipeline of a started handler for a request that passes the domain check and
whose nested requests are present: admission, then the later stages. -/
theorem pipeline_of_domain_ok (h : Handler L) (call : Call) (scope : metrics.Scope) (lim : L)
    (hst : h.startWG = 0) (hdc : call.passesDomainCheck h = true)
    (hpp : call.pointersPresent = true) :
    call.pipeline h scope lim =
      if call.rateLimited = false then call.afterAdmission h scope lim []
      else if (h.rateLimiter_TryConsume 1 lim).1 = false then
        h.failureSummary scope errHistoryHostThrottle (h.rateLimiter_TryConsume 1 lim).2
          [.TryConsume 1 false]
      else call.afterAdmission h scope (h.rateLimiter_TryConsume 1 lim).2 [.TryConsume 1 true] :=
  pipeline_of_passesDomainCheck h call scope lim hst hdc fun _ => hpp

/-- C4 (counterexample). DescribeMutableState does not consult the rate limiter: with an
empty bucket, on which `TryConsume(1)` reports that no token is available, a well-formed
DescribeMutableState request is still forwarded to the engine and answered. -/
theorem DescribeMutableState_is_not_rate_limited :
    (sampleHandler.rateLimiter_TryConsume 1 { tokens := 0 }).1 = false ∧
    (Call.DescribeMutableState
      { DomainUUID := some "d",
        Execution := some { WorkflowId := some "wf", RunId := none } }).wellFormed
        sampleHandler = true ∧
    (sampleHandler.serve
      (.DescribeMutableState
        { DomainUUID := some "d",
          Execution := some { WorkflowId := some "wf", RunId := none } })
      { tokens := 0 }).1 = .ok (some (.engine 7)) ∧
    calls (sampleHandler.serve
      (.DescribeMutableState
        { DomainUUID := some "d",
          Execution := some { WorkflowId := some "wf", RunId := none } })
      { tokens := 0 }).2.trace =
      [.GetEngine "wf",
       .EngineCall { id := 3 }
        (.DescribeMutableState
          { DomainUUID := some "d",
            Execution := some { WorkflowId := some "wf", RunId := none } })] := by
  decide

/-- A rate-limited method served a well-formed request from a bucket without a token:
the summary of the call. -/
theorem summary_of_no_token (h : Handler L) (call : Call) (lim : L)
    (hst : h.startWG = 0) (hrl : call.rateLimited = true) (hwf : call.wellFormed h = true)
    (hno : (h.rateLimiter_TryConsume 1 lim).1 = false) :
    (h.serve call lim).1 = .error errHistoryHostThrottle ∧
    calls (h.serve call lim).2.trace = [.TryConsume 1 false] := by
  obtain ⟨scope, hs⟩ := scope_of_rateLimited call hrl
  obtain ⟨hdc, hpp, -⟩ := (wellFormed_iff h call).1 hwf
  have hsum := summary_serve h call scope lim hs
  rw [pipeline_of_domain_ok h call scope lim hst hdc hpp] at hsum
  simp only [hrl, hno, Bool.true_eq_false, ↓reduceIte] at hsum
  exact ⟨congrArg Summary.outcome hsum, congrArg Summary.calls hsum⟩

/-- C4 (amended). The token-bucket limiter gates every method except Health,
DescribeHistoryHost and DescribeMutableState: for each of the other methods and every
well-formed request, when the limiter has no token available the call fails with the
ServiceBusyError "History host rps exceeded", and the rejected `TryConsume(1)` is the only
call made on the limiter, the serializer, the controller and the engines, so no engine
operation is invoked. -/
theorem limiter_gates_rate_limited_methods (h : Handler L) (call : Call) (lim : L)
    (hst : h.startWG = 0) (hrl : call.rateLimited = true) (hwf : call.wellFormed h = true)
    (hno : (h.rateLimiter_TryConsume 1 lim).1 = false) :
    (h.serve call lim).1 = .error (.gen_ServiceBusyError "History host rps exceeded") ∧
    calls (h.serve call lim).2.trace = [.TryConsume 1 false] ∧
    ∀ e ∈ (h.serve call lim).2.trace, e.isShardLookup = false ∧ e.isEngineCall = false := by
  obtain ⟨ho, hc⟩ := summary_of_no_token h call lim hst hrl hwf hno
  refine ⟨ho, hc, not_forwarded_of_calls _ ?_⟩
  rw [hc]
  intro e he
  simp only [List.mem_singleton] at he
  subst he
  exact ⟨rfl, rfl⟩

/-- C4 (witness). A start request served from an empty bucket fails with the
ServiceBusyError and reaches neither the controller nor an engine. -/
theorem limiter_gates_rate_limited_methods_witness :
    (sampleHandler.serve sampleStart { tokens := 0 }).1 =
        .error (.gen_ServiceBusyError "History host rps exceeded") ∧
      calls (sampleHandler.serve sampleStart { tokens := 0 }).2.trace =
        [.TryConsume 1 false] ∧
      ∀ e ∈ (sampleHandler.serve sampleStart { tokens := 0 }).2.trace,
        e.isShardLookup = false ∧ e.isEngineCall = false :=
  limiter_gates_rate_limited_methods sampleHandler sampleStart { tokens := 0 }
    (by decide) (by decide) (by decide) (by decide)

/-- C3 (witness). A start request served from an empty bucket: its `TryConsume(1)` reports
that no token is available, and the call is answered with the ServiceBusyError. -/
theorem throttled_call_is_not_forwarded_witness :
    Event.TryConsume 1 false ∈ (sampleHandler.serve sampleStart { tokens := 0 }).2.trace ∧
    (sampleHandler.serve sampleStart { tokens := 0 }).1 =
      .error (.gen_ServiceBusyError "History host rps exceeded") ∧
    calls (sampleHandler.serve sampleStart { tokens := 0 }).2.trace = [.TryConsume 1 false] :=
  have asked := (throttled_call_is_not_forwarded sampleHandler sampleStart { tokens := 0 }).2
    (by decide) (by decide) (by decide) (fun _ => by decide) (by decide)
  have key := (throttled_call_is_not_forwarded sampleHandler sampleStart { tokens := 0 }).1 asked
  ⟨asked, key.1, key.2.1⟩

/-- The summary of the last stage when the controller yields an engine and the engine
answers: the call was forwarded. -/
theorem afterChecks_calls_of_ok (h : Handler L) (call : Call) (scope : metrics.Scope) (lim : L)
    (cs : List Event) (engine : Engine) (hl : (call.shardLookup h).2 = .ok engine) :
    (call.afterChecks h scope lim cs).calls =
      cs ++ [(call.shardLookup h).1, .EngineCall engine call] := by
  rw [(afterChecks_spec h call scope lim cs).1, hl]

/-- C5. Every admitted call consumes exactly one token. A rate-limited method served a
well-formed request calls `TryConsume` exactly once, with `n = 1`, and leaves the bucket
as that one call left it. Hence, when the bucket grants the first `TryConsume(1)` and
refuses the next (capacity 1, never refilled) and the controller has an engine for every
lookup, of two well-formed calls served back to back the first is forwarded to the engine,
exactly once, and the second fails with the ServiceBusyError, without reaching an
engine. -/
theorem each_call_consumes_one_token (h : Handler L) (call : Call) (lim : L)
    (hst : h.startWG = 0) (hrl : call.rateLimited = true) (hwf : call.wellFormed h = true) :
    (calls (h.serve call lim).2.trace).filter Event.isRateLimiter =
        [.TryConsume 1 (h.rateLimiter_TryConsume 1 lim).1] ∧
    (h.serve call lim).2.rateLimiter = (h.rateLimiter_TryConsume 1 lim).2 ∧
    ∀ (call2 : Call) (lim1 : L),
      h.rateLimiter_TryConsume 1 lim = (true, lim1) →
      (h.rateLimiter_TryConsume 1 lim1).1 = false →
      (∀ workflowID, ∃ engine, h.controller.GetEngine workflowID = .ok engine) →
      (∀ shardID, ∃ engine, h.controller.getEngineForShard shardID = .ok engine) →
      call2.rateLimited = true → call2.wellFormed h = true →
      (∃ engine,
        (calls (h.serve call lim).2.trace).filter Event.isEngineCall =
          [.EngineCall engine call]) ∧
      (h.serve call2 (h.serve call lim).2.rateLimiter).1 =
        .error (.gen_ServiceBusyError "History host rps exceeded") ∧
      (calls (h.serve call2 (h.serve call lim).2.rateLimiter).2.trace).filter
        Event.isEngineCall = [] := by
  obtain ⟨scope, hs⟩ := scope_of_rateLimited call hrl
  obtain ⟨hdc, hpp, hmf⟩ := (wellFormed_iff h call).1 hwf
  have hsum := summary_serve h call scope lim hs
  rw [pipeline_of_domain_ok h call scope lim hst hdc hpp] at hsum
  simp only [hrl, Bool.true_eq_false, ↓reduceIte] at hsum
  have hc := congrArg Summary.calls hsum
  have hl := congrArg Summary.rateLimiter hsum
  simp only [summary] at hc hl
  have h1 : (calls (h.serve call lim).2.trace).filter Event.isRateLimiter =
      [.TryConsume 1 (h.rateLimiter_TryConsume 1 lim).1] := by
    rw [hc]
    cases hadm : (h.rateLimiter_TryConsume 1 lim).1
    · simp only [↓reduceIte]; rfl
    · simp only [Bool.true_eq_false, ↓reduceIte, afterAdmission_filter_isRateLimiter]; rfl
  have h2 : (h.serve call lim).2.rateLimiter = (h.rateLimiter_TryConsume 1 lim).2 := by
    rw [hl]
    cases hadm : (h.rateLimiter_TryConsume 1 lim).1
    · simp only [↓reduceIte]; rfl
    · simp only [Bool.true_eq_false, ↓reduceIte, afterAdmission_rateLimiter]
  refine ⟨h1, h2, fun call2 lim1 hfirst hsecond hctl hctl2 hrl2 hwf2 => ?_⟩
  have hlim : (h.serve call lim).2.rateLimiter = lim1 := by rw [h2, hfirst]
  obtain ⟨engine, hengine⟩ : ∃ engine, (call.shardLookup h).2 = .ok engine := by
    rcases shardLookup_cases h call with ⟨x, hx⟩ | ⟨x, hx⟩ <;> rw [hx]
    · exact hctl x
    · exact hctl2 x
  refine ⟨⟨engine, ?_⟩, ?_, ?_⟩
  · rw [hc]
    simp only [hfirst, Bool.true_eq_false, ↓reduceIte,
      afterAdmission_of_wellFormed h call scope _ _ hpp hmf,
      afterChecks_calls_of_ok h call scope _ _ engine hengine]
    have ht : call.tokenCalls.filter Event.isEngineCall = [] := by
      unfold Call.tokenCalls; split <;> rfl
    have hk : ((call.shardLookup h).1).isEngineCall = false := by
      rcases shardLookup_fst h call with ⟨x, hx⟩ | ⟨x, hx⟩ <;> rw [hx] <;> rfl
    have he : (Event.EngineCall engine call).isEngineCall = true := rfl
    have hr : (Event.TryConsume 1 true).isEngineCall = false := rfl
    simp [List.filter_append, List.filter_cons, ht, hk, he, hr]
  · rw [hlim]
    exact (summary_of_no_token h call2 lim1 hst hrl2 hwf2 hsecond).1
  · rw [hlim, (summary_of_no_token h call2 lim1 hst hrl2 hwf2 hsecond).2]
    rfl

/-- C5 (witness). A bucket of capacity 1 that is never refilled: a start request is
forwarded and takes the token, the heartbeat served next is throttled. -/
theorem each_call_consumes_one_token_witness :
    (calls (sampleHandler.serve sampleStart { tokens := 1 }).2.trace).filter
        Event.isRateLimiter = [.TryConsume 1 true] ∧
    (sampleHandler.serve sampleStart { tokens := 1 }).2.rateLimiter = { tokens := 0 } ∧
    (sampleHandler.serve (sampleHeartbeat [2])
        (sampleHandler.serve sampleStart { tokens := 1 }).2.rateLimiter).1 =
      .error (.gen_ServiceBusyError "History host rps exceeded") :=
  have key := each_call_consumes_one_token sampleHandler sampleStart { tokens := 1 }
    (by decide) (by decide) (by decide)
  ⟨key.1, key.2.1,
    (key.2.2 (sampleHeartbeat [2]) { tokens := 0 } rfl (by decide) (fun _ => ⟨_, rfl⟩)
      (fun _ => ⟨_, rfl⟩) (by decide) (by decide)).2.1⟩

/-! ## Task tokens in the pipeline -/

/-- What the pipeline knows of a token-based call whose inner request is present. -/
theorem token_call_facts (h : Handler L) (call : Call) (data : List UInt8)
    (htok : call.taskToken = some data) :
    call.rateLimited = true ∧ call.pointersPresent = true ∧ call.derefAtEntry = false ∧
      call.missingField h = h.tokenError data ∧ call.tokenCalls = [.Deserialize data] := by
  have ht : call.tokenCalls = [.Deserialize data] := by simp only [Call.tokenCalls, htok]
  refine ⟨?_, ?_, ?_, ?_, ht⟩ <;>
    cases call <;> simp only [Call.taskToken, reduceCtorEq, Option.map_eq_some'] at htok <;>
    first
    | rfl
    | (obtain ⟨x, hx, -⟩ := htok
       simp only [Call.pointersPresent, hx, Option.isSome_some])
    | (obtain ⟨x, hx, hd⟩ := htok
       simp only [Call.missingField, Call.taskToken, hx, Option.map_some', hd])

/-- The calls a token-based call can have made when its token is bad. -/
theorem calls_of_bad_token (h : Handler L) (call : Call) (lim : L) (data : List UInt8)
    (err : Err) (htok : call.taskToken = some data) (hbad : h.tokenError data = some err) :
    calls (h.serve call lim).2.trace = [] ∨
      calls (h.serve call lim).2.trace = [.TryConsume 1 false] ∨
      calls (h.serve call lim).2.trace = [.TryConsume 1 true, .Deserialize data] := by
  obtain ⟨hrl, hpp, hde, hmf, ht⟩ := token_call_facts h call data htok
  obtain ⟨scope, hs⟩ := scope_of_rateLimited call hrl
  have hc : calls (h.serve call lim).2.trace = (call.pipeline h scope lim).calls :=
    congrArg Summary.calls (summary_serve h call scope lim hs)
  rw [hc, Call.pipeline]
  simp only [hde, hrl, Bool.false_eq_true, false_and, Bool.true_eq_false, ↓reduceIte,
    afterAdmission_of_missingField h call scope _ _ err hpp (hmf.trans hbad), ht]
  split_ifs
  · exact .inl rfl
  · exact .inl rfl
  · exact .inr (.inl rfl)
  · exact .inr (.inr rfl)

/-- C7. For each of the six token-based methods, on a request that carries a task token:
if the token fails to deserialize or fails `validateTaskToken`, the shard controller and
the engines are never invoked, and when the call reaches the token (handler started,
domain check passed, call admitted) it returns that failure, a BadRequestError, having
only consumed a token and tried to decode; otherwise the engine is resolved with
`GetEngine` applied to exactly the WorkflowID field of the decoded token, and no other
shard lookup is made. -/
theorem token_is_checked_before_shard_lookup (h : Handler L) (call : Call) (lim : L)
    (data : List UInt8) (htok : call.taskToken = some data) :
    (∀ err, h.tokenError data = some err →
      (∀ e ∈ (h.serve call lim).2.trace, e.isShardLookup = false ∧ e.isEngineCall = false) ∧
      (h.startWG = 0 → call.passesDomainCheck h = true →
        (h.rateLimiter_TryConsume 1 lim).1 = true →
        (h.serve call lim).1 = .error err ∧ err.isBadRequest = true ∧
          calls (h.serve call lim).2.trace = [.TryConsume 1 true, .Deserialize data])) ∧
    (∀ token, h.tokenSerializer_Deserialize data = .ok token →
      validateTaskToken h.uuid_Parse token = none →
      h.startWG = 0 → call.passesDomainCheck h = true →
      (h.rateLimiter_TryConsume 1 lim).1 = true →
      (calls (h.serve call lim).2.trace).filter Event.isShardLookup =
        [.GetEngine token.WorkflowID]) := by
  obtain ⟨hrl, hpp, hde, hmf, ht⟩ := token_call_facts h call data htok
  obtain ⟨scope, hs⟩ := scope_of_rateLimited call hrl
  have hsum := summary_serve h call scope lim hs
  refine ⟨fun err hbad => ⟨not_forwarded_of_calls _ ?_, fun hst hdc hadm => ?_⟩,
    fun token hd hv hst hdc hadm => ?_⟩
  · rcases calls_of_bad_token h call lim data err htok hbad with hc | hc | hc <;> rw [hc] <;>
      intro e he <;> simp only [List.mem_cons, List.mem_singleton, List.not_mem_nil,
        or_false] at he
    · subst he; exact ⟨rfl, rfl⟩
    · rcases he with rfl | rfl <;> exact ⟨rfl, rfl⟩
  · have hb := tokenError_isBadRequest h data err hbad
    rw [pipeline_of_domain_ok h call scope lim hst hdc hpp] at hsum
    simp only [hrl, hadm, Bool.true_eq_false, ↓reduceIte,
      afterAdmission_of_missingField h call scope _ _ err hpp (hmf.trans hbad), ht] at hsum
    refine ⟨?_, hb, congrArg Summary.calls hsum⟩
    have ho := congrArg Summary.outcome hsum
    simp only [summary, Handler.failureSummary, convertError_of_isBadRequest h err hb] at ho
    exact ho
  · have hnone : call.missingField h = none := by
      rw [hmf]; simp only [Handler.tokenError, hd, hv]
    rw [pipeline_of_domain_ok h call scope lim hst hdc hpp] at hsum
    simp only [hrl, hadm, Bool.true_eq_false, ↓reduceIte,
      afterAdmission_of_wellFormed h call scope _ _ hpp hnone, ht] at hsum
    have hc := congrArg Summary.calls hsum
    simp only [summary, (afterChecks_spec h call scope _ _).1,
      shardLookup_of_taskToken h call data token htok hd] at hc
    rw [hc]
    cases h.controller.GetEngine token.WorkflowID <;> rfl

/-- C7 (witness). Heartbeats in domain `d` served by the sample handler: one whose token
does not decode, and one whose token decodes to workflow `wf`. -/
theorem token_is_checked_before_shard_lookup_witness :
    ((sampleHandler.serve (sampleHeartbeat []) { tokens := 1 }).1 =
        .error (.gen_BadRequestError
          "Error deserializing task token. Error: unexpected end of JSON input") ∧
      calls (sampleHandler.serve (sampleHeartbeat []) { tokens := 1 }).2.trace =
        [.TryConsume 1 true, .Deserialize []]) ∧
    (calls (sampleHandler.serve (sampleHeartbeat [2]) { tokens := 1 }).2.trace).filter
        Event.isShardLookup = [.GetEngine "wf"] := by
  have key := ((token_is_checked_before_shard_lookup sampleHandler (sampleHeartbeat [])
    { tokens := 1 } [] rfl).1 _ rfl).2 (by decide) (by decide) (by decide)
  exact ⟨⟨key.1, key.2.2⟩,
    (token_is_checked_before_shard_lookup sampleHandler (sampleHeartbeat [2])
      { tokens := 1 } [2] rfl).2 _ rfl (by decide) (by decide) (by decide) (by decide)⟩

/-! ## Required fields -/

/-- C8 (counterexample). A required-field violation other than the domain is found only
after the rate limiter has been consulted: a ScheduleDecisionTask request without a
WorkflowExecution, served from a bucket holding one token, is answered with the
BadRequestError "WorkflowExecution not set on request." after `TryConsume(1)` has been
called and has taken the token. -/
theorem ScheduleDecisionTask_checked_after_admission :
    (sampleHandler.serve
      (.ScheduleDecisionTask { DomainUUID := some "d", WorkflowExecution := none })
      { tokens := 1 }).1 =
      .error (.gen_BadRequestError "WorkflowExecution not set on request.") ∧
    calls (sampleHandler.serve
      (.ScheduleDecisionTask { DomainUUID := some "d", WorkflowExecution := none })
      { tokens := 1 }).2.trace = [.TryConsume 1 true] ∧
    (sampleHandler.serve
      (.ScheduleDecisionTask { DomainUUID := some "d", WorkflowExecution := none })
      { tokens := 1 }).2.rateLimiter = { tokens := 0 } := by
  decide

/-- C8 (amended). A required-field violation is answered with a BadRequestError without
any shard lookup or engine operation, but only the domain check is made before rate
limiting. A request that fails the domain check is rejected with "Domain not set on
request." without `TryConsume` being called. Every other required-field check is made
after `TryConsume(1)`: the limiter is consulted first, exactly once; when it admits the
call the violation's BadRequestError is returned, and when it does not the call fails
with the ServiceBusyError. -/
theorem required_fields_are_checked_around_admission (h : Handler L) (call : Call) (lim : L)
    (hst : h.startWG = 0) (hpp : call.pointersPresent = true) :
    (call.passesDomainCheck h = false →
      (h.serve call lim).1 = .error (.gen_BadRequestError "Domain not set on request.") ∧
        calls (h.serve call lim).2.trace = [] ∧
        (h.serve call lim).2.rateLimiter = lim) ∧
    (∀ err, call.passesDomainCheck h = true → call.missingField h = some err →
      err.isBadRequest = true ∧
      (∀ e ∈ (h.serve call lim).2.trace, e.isShardLookup = false ∧ e.isEngineCall = false) ∧
      (h.serve call lim).2.rateLimiter = (h.rateLimiter_TryConsume 1 lim).2 ∧
      ((h.rateLimiter_TryConsume 1 lim).1 = true →
        (h.serve call lim).1 = .error err ∧
          calls (h.serve call lim).2.trace = .TryConsume 1 true :: call.tokenCalls) ∧
      ((h.rateLimiter_TryConsume 1 lim).1 = false →
        (h.serve call lim).1 = .error (.gen_ServiceBusyError "History host rps exceeded") ∧
          calls (h.serve call lim).2.trace = [.TryConsume 1 false])) := by
  cases hs : call.scope with
  | none =>
    constructor
    · intro hdc
      cases call <;> simp only [Call.scope, reduceCtorEq] at hs <;>
        simp [Call.passesDomainCheck, Call.domainID] at hdc
    · intro err _ hmf
      cases call <;> simp only [Call.scope, reduceCtorEq] at hs <;>
        simp [Call.missingField, Call.taskToken] at hmf
  | some scope =>
  have hsum := summary_serve h call scope lim hs
  refine ⟨fun hdc => ?_, fun err hdc hmf => ?_⟩
  · simp only [Call.pipeline, hst, hpp, hdc, ne_eq, not_true_eq_false, Bool.true_eq_false,
      and_false, ↓reduceIte] at hsum
    exact ⟨congrArg Summary.outcome hsum, congrArg Summary.calls hsum,
      congrArg Summary.rateLimiter hsum⟩
  · obtain ⟨hb, hrl⟩ := missingField_spec h call err hmf
    rw [pipeline_of_domain_ok h call scope lim hst hdc hpp] at hsum
    simp only [hrl, Bool.true_eq_false, ↓reduceIte,
      afterAdmission_of_missingField h call scope _ _ err hpp hmf] at hsum
    have ho := congrArg Summary.outcome hsum
    have hc := congrArg Summary.calls hsum
    have hl := congrArg Summary.rateLimiter hsum
    simp only [summary] at ho hc hl
    have htc : ∀ e ∈ call.tokenCalls, e.isShardLookup = false ∧ e.isEngineCall = false := by
      intro e he
      unfold Call.tokenCalls at he
      split at he
      · simp only [List.mem_singleton] at he; subst he; exact ⟨rfl, rfl⟩
      · cases he
    cases hadm : (h.rateLimiter_TryConsume 1 lim).1
    · simp only [hadm, ↓reduceIte, failureSummary_throttle] at ho hc hl
      refine ⟨hb, not_forwarded_of_calls _ ?_, hl, fun hf => (by cases hf), fun _ => ⟨ho, hc⟩⟩
      rw [hc]
      intro e he
      simp only [List.mem_singleton] at he
      subst he
      exact ⟨rfl, rfl⟩
    · simp only [hadm, Bool.true_eq_false, ↓reduceIte, Handler.failureSummary,
        convertError_of_isBadRequest h err hb, List.singleton_append] at ho hc hl
      refine ⟨hb, not_forwarded_of_calls _ ?_, hl, fun _ => ⟨ho, hc⟩, fun hf => (by cases hf)⟩
      rw [hc]
      intro e he
      simp only [List.mem_cons] at he
      rcases he with rfl | he
      · exact ⟨rfl, rfl⟩
      · exact htc e he

/-- C8 (witness). The ScheduleDecisionTask request without a WorkflowExecution, served
from a bucket holding one token: the limiter is consulted, then the BadRequestError is
returned. -/
theorem required_fields_are_checked_around_admission_witness :
    (sampleHandler.serve
      (.ScheduleDecisionTask { DomainUUID := some "d", WorkflowExecution := none })
      { tokens := 1 }).1 =
      .error (.gen_BadRequestError "WorkflowExecution not set on request.") ∧
    calls (sampleHandler.serve
      (.ScheduleDecisionTask { DomainUUID := some "d", WorkflowExecution := none })
      { tokens := 1 }).2.trace = [.TryConsume 1 true] :=
  ((required_fields_are_checked_around_admission sampleHandler
      (.ScheduleDecisionTask { DomainUUID := some "d", WorkflowExecution := none })
      { tokens := 1 } (by decide) (by decide)).2
    _ (by decide) rfl).2.2.2.1 (by decide)

/-! ## The workflow ID of a request -/

/-- C9 (counterexample). A request with an empty workflow ID is not rejected by the
handler: a StartWorkflowExecution request in domain `d` without a workflow ID is admitted,
`GetEngine` is called with the empty workflow ID, and the engine's answer is returned. -/
theorem StartWorkflowExecution_forwards_empty_workflowID :
    Call.workflowID
      (.StartWorkflowExecution
        { DomainUUID := some "d", StartRequest := some { WorkflowId := none } }) = some "" ∧
    (sampleHandler.serve
      (.StartWorkflowExecution
        { DomainUUID := some "d", StartRequest := some { WorkflowId := none } })
      { tokens := 1 }).1 = .ok (some (.engine 7)) ∧
    Event.GetEngine "" ∈ (sampleHandler.serve
      (.StartWorkflowExecution
        { DomainUUID := some "d", StartRequest := some { WorkflowId := none } })
      { tokens := 1 }).2.trace := by
  decide

/-- C9 (amended). For a method that takes its workflow ID from the request, the handler
does not check that the workflow ID is non-empty. When the handler is started, the domain
check and admission pass, the nested requests are present and no required field is
missing, `GetEngine` is called exactly once, with the workflow ID read from the request
as it is, the empty string included. Only SyncActivity rejects a request without a
workflow-ID field, with "WorkflowId is not set on request." and without a shard lookup. -/
theorem workflowID_is_forwarded_unchecked (h : Handler L) (call : Call) (lim : L)
    (hst : h.startWG = 0) (hdc : call.passesDomainCheck h = true)
    (hadm : call.rateLimited = true → (h.rateLimiter_TryConsume 1 lim).1 = true) :
    (∀ workflowID, call.workflowID = some workflowID → call.pointersPresent = true →
      call.missingField h = none →
      (calls (h.serve call lim).2.trace).filter Event.isShardLookup =
        [.GetEngine workflowID]) ∧
    (∀ r, call = .SyncActivity r → r.WorkflowId = none →
      (h.serve call lim).1 =
          .error (.gen_BadRequestError "WorkflowId is not set on request.") ∧
        calls (h.serve call lim).2.trace = [.TryConsume 1 true]) := by
  refine ⟨fun workflowID hw hpp hmf => ?_, fun r hr hnone => ?_⟩
  · obtain ⟨scope, hs⟩ : ∃ scope, call.scope = some scope := by
      cases call <;> first | exact ⟨_, rfl⟩ | cases hw
    have hsum := summary_serve h call scope lim hs
    rw [pipeline_of_domain_ok h call scope lim hst hdc hpp] at hsum
    have hnt : call.tokenCalls = [] := by
      cases call <;> first | rfl | cases hw
    have hc := congrArg Summary.calls hsum
    simp only [summary] at hc
    rw [hc]
    cases hrl : call.rateLimited
    · simp only [↓reduceIte, afterAdmission_of_wellFormed h call scope _ _ hpp hmf,
        (afterChecks_spec h call scope _ _).1, shardLookup_of_workflowID h call workflowID hw,
        hnt]
      cases h.controller.GetEngine workflowID <;> rfl
    · simp only [hadm hrl, Bool.true_eq_false, ↓reduceIte,
        afterAdmission_of_wellFormed h call scope _ _ hpp hmf,
        (afterChecks_spec h call scope _ _).1, shardLookup_of_workflowID h call workflowID hw,
        hnt]
      cases h.controller.GetEngine workflowID <;> rfl
  · subst hr
    have hsum := summary_serve h (.SyncActivity r) .HistorySyncActivityScope lim rfl
    have hmf : Call.missingField h (.SyncActivity r) = some errWorkflowIDNotSet := by
      simp only [Call.missingField, hnone, Option.isNone_none, ↓reduceIte]
    rw [pipeline_of_domain_ok h _ _ lim hst hdc rfl] at hsum
    simp only [hadm rfl, Call.rateLimited, Bool.true_eq_false, ↓reduceIte,
      afterAdmission_of_missingField h (.SyncActivity r) _ _ _ _ rfl hmf] at hsum
    exact ⟨congrArg Summary.outcome hsum, congrArg Summary.calls hsum⟩

/-- C9 (witness). The start request without a workflow ID: `GetEngine` is called once,
with the empty workflow ID. -/
theorem workflowID_is_forwarded_unchecked_witness :
    (calls (sampleHandler.serve
      (.StartWorkflowExecution
        { DomainUUID := some "d", StartRequest := some { WorkflowId := none } })
      { tokens := 1 }).2.trace).filter Event.isShardLookup = [.GetEngine ""] :=
  (workflowID_is_forwarded_unchecked sampleHandler
    (.StartWorkflowExecution
      { DomainUUID := some "d", StartRequest := some { WorkflowId := none } })
    { tokens := 1 } (by decide) (by decide) (fun _ => by decide)).1 "" rfl rfl rfl

/-! ## The error translator and the metrics classifier, case by case -/

/-- C11. A persistence `CurrentWorkflowConditionFailedError` with message `msg` comes out
of `Handler.error` as an `InternalServiceError` with that message, without a resolver
lookup; the only counter incremented is the generic failure counter `CadenceFailures`,
under the scope of the call, and the translated error is logged as an internal service
error. -/
theorem error_currentWorkflowConditionFailed (h : Handler L) (msg : String)
    (scope : metrics.Scope) (domainID workflowID : String) :
    h.convertError (.persistence_CurrentWorkflowConditionFailedError msg) =
        (.gen_InternalServiceError msg, []) ∧
      h.error (.persistence_CurrentWorkflowConditionFailedError msg) scope domainID workflowID =
        (.gen_InternalServiceError msg,
          [.IncCounter scope .CadenceFailures,
           .LogInternalServiceError (h.getLoggerWithTags domainID workflowID)
             (.gen_InternalServiceError msg)]) ∧
      countersOf
          (h.error (.persistence_CurrentWorkflowConditionFailedError msg) scope domainID
            workflowID).2 = [.CadenceFailures] :=
  ⟨rfl, rfl, rfl⟩

/-- C12. An error that is not one of the three persistence errors that `convertError`
translates (shard ownership lost, workflow execution already started, current workflow
condition failed) comes out of `convertError` and of `Handler.error` as it went in, and
neither of them asks the membership resolver. -/
theorem other_errors_pass_through (h : Handler L) (err : Err) (scope : metrics.Scope)
    (domainID workflowID : String)
    (h1 : ∀ shardID msg, err ≠ .persistence_ShardOwnershipLostError shardID msg)
    (h2 : ∀ msg startRequestID runID,
      err ≠ .persistence_WorkflowExecutionAlreadyStartedError msg startRequestID runID)
    (h3 : ∀ msg, err ≠ .persistence_CurrentWorkflowConditionFailedError msg) :
    h.convertError err = (err, []) ∧
      (h.error err scope domainID workflowID).1 = err ∧
      ∀ key, Event.Lookup key ∉ (h.error err scope domainID workflowID).2 := by
  cases err with
  | persistence_ShardOwnershipLostError s m => exact absurd rfl (h1 s m)
  | persistence_WorkflowExecutionAlreadyStartedError m s r => exact absurd rfl (h2 m s r)
  | persistence_CurrentWorkflowConditionFailedError m => exact absurd rfl (h3 m)
  | yarpcerrors_Status code message =>
    refine ⟨rfl, rfl, fun key hk => ?_⟩
    simp only [Handler.error, Handler.convertError, Handler.updateErrorMetric,
      List.nil_append] at hk
    split_ifs at hk <;> simp at hk
  | _ =>
    refine ⟨rfl, rfl, fun key hk => ?_⟩
    simp [Handler.error, Handler.convertError, Handler.updateErrorMetric] at hk

/-- C12 at an entity-not-exists error on the sample handler. -/
theorem other_errors_pass_through_witness :
    sampleHandler.convertError (.gen_EntityNotExistsError "no such workflow") =
        (.gen_EntityNotExistsError "no such workflow", []) ∧
      (sampleHandler.error (.gen_EntityNotExistsError "no such workflow")
        .HistoryGetMutableStateScope "d" "wf").1 = .gen_EntityNotExistsError "no such workflow" ∧
      ∀ key, Event.Lookup key ∉
        (sampleHandler.error (.gen_EntityNotExistsError "no such workflow")
          .HistoryGetMutableStateScope "d" "wf").2 :=
  other_errors_pass_through sampleHandler (.gen_EntityNotExistsError "no such workflow")
    .HistoryGetMutableStateScope "d" "wf" (by intros; simp) (by intros; simp) (by intros; simp)

/-- For an error of one of the nine kinds, `updateErrorMetric` increments the counter of
the kind, under the scope it is given, and does nothing else. -/
theorem updateErrorMetric_of_kind (h : Handler L) (scope : metrics.Scope)
    (domainID workflowID : String) (err : Err) (k : ErrKind) (hk : err.kind = some k) :
    h.updateErrorMetric scope domainID workflowID err = [.IncCounter scope k.counter] := by
  cases err <;> simp only [Err.kind, reduceCtorEq, Option.some.injEq] at hk <;> subst hk <;> rfl

/-- C13 (counterexample). A domain-not-active error and a bad-request error are of
different kinds, and `updateErrorMetric` increments the same counter for both:
`CadenceErrBadRequestCounter`. -/
theorem domainNotActive_is_counted_as_badRequest :
    (Err.gen_DomainNotActiveError "domain is not active in this cluster").kind ≠
        (Err.gen_BadRequestError "Domain not set on request.").kind ∧
      sampleHandler.updateErrorMetric .HistoryStartWorkflowExecutionScope "d" "wf"
          (.gen_DomainNotActiveError "domain is not active in this cluster") =
        [.IncCounter .HistoryStartWorkflowExecutionScope .CadenceErrBadRequestCounter] ∧
      sampleHandler.updateErrorMetric .HistoryStartWorkflowExecutionScope "d" "wf"
          (.gen_BadRequestError "Domain not set on request.") =
        [.IncCounter .HistoryStartWorkflowExecutionScope .CadenceErrBadRequestCounter] := by
  decide

/-- C13 (amended). For an error of one of the nine kinds `updateErrorMetric` increments
exactly one counter, the one of its case for the kind, under the scope it is given, and
does nothing else. Two different kinds among the nine have the same counter if and only
if one is bad-request and the other domain-not-active; every other pair of kinds is
counted apart. -/
theorem error_kinds_are_counted_apart (h : Handler L) (scope : metrics.Scope)
    (domainID workflowID : String) (e1 e2 : Err) (k1 k2 : ErrKind)
    (hk1 : e1.kind = some k1) (hk2 : e2.kind = some k2) (hne : k1 ≠ k2) :
    h.updateErrorMetric scope domainID workflowID e1 = [.IncCounter scope k1.counter] ∧
      h.updateErrorMetric scope domainID workflowID e2 = [.IncCounter scope k2.counter] ∧
      (k1.counter = k2.counter ↔
        (k1 = .badRequest ∧ k2 = .domainNotActive) ∨
          (k1 = .domainNotActive ∧ k2 = .badRequest)) := by
  refine ⟨updateErrorMetric_of_kind h scope domainID workflowID e1 k1 hk1,
    updateErrorMetric_of_kind h scope domainID workflowID e2 k2 hk2, ?_⟩
  cases k1 <;> cases k2 <;> first | exact absurd rfl hne | decide

/-- C13 (amended) at an entity-not-exists and a service-busy error. -/
theorem error_kinds_are_counted_apart_witness :
    sampleHandler.updateErrorMetric .HistoryGetMutableStateScope "d" "wf"
        (.gen_EntityNotExistsError "no such workflow") =
      [.IncCounter .HistoryGetMutableStateScope ErrKind.entityNotExists.counter] ∧
    sampleHandler.updateErrorMetric .HistoryGetMutableStateScope "d" "wf"
        (.gen_ServiceBusyError "busy") =
      [.IncCounter .HistoryGetMutableStateScope ErrKind.serviceBusy.counter] ∧
    (ErrKind.entityNotExists.counter = ErrKind.serviceBusy.counter ↔
      (ErrKind.entityNotExists = .badRequest ∧ ErrKind.serviceBusy = .domainNotActive) ∨
        (ErrKind.entityNotExists = .domainNotActive ∧ ErrKind.serviceBusy = .badRequest)) :=
  error_kinds_are_counted_apart sampleHandler .HistoryGetMutableStateScope "d" "wf"
    (.gen_EntityNotExistsError "no such workflow") (.gen_ServiceBusyError "busy")
    .entityNotExists .serviceBusy rfl rfl (by decide)

/-- C14. For a yarpc status error, `updateErrorMetric` increments the context-timeout
counter if and only if the code of the status is deadline-exceeded, and it increments the
generic failure counter once whatever the code; it increments no other counter. -/
theorem yarpc_status_is_counted (h : Handler L) (scope : metrics.Scope)
    (domainID workflowID : String) (code : Nat) (message : String) :
    (Event.IncCounter scope .CadenceErrContextTimeoutCounter ∈
        h.updateErrorMetric scope domainID workflowID (.yarpcerrors_Status code message) ↔
      code = yarpcerrors.CodeDeadlineExceeded) ∧
    (h.updateErrorMetric scope domainID workflowID (.yarpcerrors_Status code message)).count
        (.IncCounter scope .CadenceFailures) = 1 ∧
    countersOf (h.updateErrorMetric scope domainID workflowID (.yarpcerrors_Status code message)) =
      if code = yarpcerrors.CodeDeadlineExceeded then
        [.CadenceErrContextTimeoutCounter, .CadenceFailures]
      else [.CadenceFailures] := by
  simp only [Handler.updateErrorMetric]
  split_ifs with hc
  · exact ⟨⟨fun _ => hc, fun _ => by simp⟩, by simp, rfl⟩
  · refine ⟨⟨fun hm => ?_, fun hx => absurd hx hc⟩, by simp, rfl⟩
    simp at hm

/-! ## Dispatch to the engine -/

/-- The summary of a call of a started handler whose request is well-formed and which is
admitted: the last stage of the pipeline, after the admission and the token calls. -/
theorem summary_of_admitted (h : Handler L) (call : Call) (scope : metrics.Scope) (lim : L)
    (hst : h.startWG = 0) (hs : call.scope = some scope) (hwf : call.wellFormed h = true)
    (hadm : call.rateLimited = true → (h.rateLimiter_TryConsume 1 lim).1 = true) :
    ∃ lim1 cs, cs.filter Event.isEngineCall = [] ∧ cs.filter Event.isShardLookup = [] ∧
      summary (h.serve call lim) = call.afterChecks h scope lim1 cs := by
  obtain ⟨hdc, hpp, hmf⟩ := (wellFormed_iff h call).1 hwf
  have hsum := summary_serve h call scope lim hs
  rw [pipeline_of_domain_ok h call scope lim hst hdc hpp] at hsum
  have ht : call.tokenCalls.filter Event.isEngineCall = [] ∧
      call.tokenCalls.filter Event.isShardLookup = [] := by
    unfold Call.tokenCalls; split <;> exact ⟨rfl, rfl⟩
  cases hrl : call.rateLimited with
  | false =>
    simp only [hrl, ↓reduceIte, afterAdmission_of_wellFormed h call scope _ _ hpp hmf] at hsum
    exact ⟨_, _, by simpa using ht.1, by simpa using ht.2, hsum⟩
  | true =>
    simp only [hrl, hadm hrl, Bool.true_eq_false, ↓reduceIte,
      afterAdmission_of_wellFormed h call scope _ _ hpp hmf] at hsum
    refine ⟨_, _, ?_, ?_, hsum⟩
    · rw [List.filter_append, ht.1]; rfl
    · rw [List.filter_append, ht.2]; rfl

/-- C15. A method that dispatches to an engine, on a started handler, for a request that
passes every check of the method and is admitted by the limiter, once the controller has
handed back an engine: the operation of the method is invoked on that engine exactly
once, with the request as it came in. When the operation answers, the call returns that
answer (nothing but a nil error for a method that returns only an error), and its metric
events are the request counter and the latency timer, no error counter. When the
operation fails with `err`, the call returns no response and the error that
`Handler.error` makes of `err`, and the metric events of `Handler.error` come between the
start and the stop of the timer. -/
theorem engine_result_is_returned_verbatim (h : Handler L) (call : Call)
    (scope : metrics.Scope) (lim : L) (engine : Engine)
    (hst : h.startWG = 0) (hs : call.scope = some scope) (hwf : call.wellFormed h = true)
    (hadm : call.rateLimited = true → (h.rateLimiter_TryConsume 1 lim).1 = true)
    (hl : (call.shardLookup h).2 = .ok engine) :
    (calls (h.serve call lim).2.trace).filter Event.isEngineCall = [.EngineCall engine call] ∧
    match h.engineOp engine call with
    | .ok response =>
      (h.serve call lim).1 =
          .ok (if call.hasResponse then some (.engine response) else none) ∧
        metricEvents (h.serve call lim).2.trace =
          [.IncCounter scope .CadenceRequests, .StartTimer scope .CadenceLatency,
           .StopTimer scope .CadenceLatency]
    | .error err =>
      ∀ domainID workflowID,
        (h.serve call lim).1 = .error (h.error err scope domainID workflowID).1 ∧
          metricEvents (h.serve call lim).2.trace =
            [.IncCounter scope .CadenceRequests, .StartTimer scope .CadenceLatency] ++
              metricEvents (h.error err scope domainID workflowID).2 ++
              [.StopTimer scope .CadenceLatency] := by
  obtain ⟨lim1, cs, hce, -, hsum⟩ := summary_of_admitted h call scope lim hst hs hwf hadm
  have hle : [(call.shardLookup h).1].filter Event.isEngineCall = [] := by
    rcases shardLookup_fst h call with ⟨x, hx⟩ | ⟨x, hx⟩ <;> rw [hx] <;> rfl
  have hee : [Event.EngineCall engine call].filter Event.isEngineCall =
      [Event.EngineCall engine call] := rfl
  have hcalls : (calls (h.serve call lim).2.trace).filter Event.isEngineCall =
      [.EngineCall engine call] := by
    have := congrArg Summary.calls hsum
    simp only [summary] at this
    rw [this, (afterChecks_spec h call scope lim1 cs).1, hl]
    show (cs ++ ([(call.shardLookup h).1] ++ [Event.EngineCall engine call])).filter
      Event.isEngineCall = _
    rw [List.filter_append, List.filter_append, hce, hle, hee]; rfl
  refine ⟨hcalls, ?_⟩
  cases heo : h.engineOp engine call with
  | ok response =>
    simp only [Call.afterChecks, hl, heo] at hsum
    exact ⟨congrArg Summary.outcome hsum, congrArg Summary.metrics hsum⟩
  | error err =>
    simp only [Call.afterChecks, hl, heo] at hsum
    intro domainID workflowID
    refine ⟨congrArg Summary.outcome hsum, ?_⟩
    rw [metricEvents_error]
    exact congrArg Summary.metrics hsum

/-- C15 at a start request served by the sample handler from a bucket with one token. -/
theorem engine_result_is_returned_verbatim_witness :
    (calls (sampleHandler.serve sampleStart { tokens := 1 }).2.trace).filter Event.isEngineCall =
        [.EngineCall { id := 3 } sampleStart] ∧
      (sampleHandler.serve sampleStart { tokens := 1 }).1 = .ok (some (.engine 7)) ∧
      metricEvents (sampleHandler.serve sampleStart { tokens := 1 }).2.trace =
        [.IncCounter .HistoryStartWorkflowExecutionScope .CadenceRequests,
         .StartTimer .HistoryStartWorkflowExecutionScope .CadenceLatency,
         .StopTimer .HistoryStartWorkflowExecutionScope .CadenceLatency] :=
  engine_result_is_returned_verbatim sampleHandler sampleStart
    .HistoryStartWorkflowExecutionScope { tokens := 1 } { id := 3 } rfl rfl (by decide)
    (fun _ => by decide) rfl

/-! ## Metrics scopes, the health check and the shard-status sync -/

/-- Two methods record under the same metrics scope only if they are the same method, or
one is RecordActivityTaskHeartbeat and the other DescribeMutableState. -/
theorem scope_shared_only_by (c1 c2 : Call) (scope : metrics.Scope)
    (h1 : c1.scope = some scope) (h2 : c2.scope = some scope) :
    c1.method = c2.method ∨
      (c1.method = "RecordActivityTaskHeartbeat" ∧ c2.method = "DescribeMutableState") ∨
      (c1.method = "DescribeMutableState" ∧ c2.method = "RecordActivityTaskHeartbeat") := by
  cases c1 <;> simp only [Call.scope, reduceCtorEq, Option.some.injEq] at h1 <;> subst h1 <;>
    cases c2 <;> simp only [Call.scope, reduceCtorEq, Option.some.injEq] at h2 <;>
    first
    | exact .inl rfl
    | exact .inr (.inl ⟨rfl, rfl⟩)
    | exact .inr (.inr ⟨rfl, rfl⟩)

/-- C16 (failing input). DescribeMutableState records its request counter and its latency
timer under `HistoryRecordActivityTaskHeartbeatScope`, the scope of
RecordActivityTaskHeartbeat: the metric events of a DescribeMutableState call and of a
heartbeat call, both answered by the engine, are the same. -/
theorem DescribeMutableState_records_under_heartbeat_scope :
    metricEvents
        (sampleHandler.serve
          (.DescribeMutableState
            { DomainUUID := some "d",
              Execution := some { WorkflowId := some "wf", RunId := none } })
          { tokens := 1 }).2.trace =
      [.IncCounter .HistoryRecordActivityTaskHeartbeatScope .CadenceRequests,
       .StartTimer .HistoryRecordActivityTaskHeartbeatScope .CadenceLatency,
       .StopTimer .HistoryRecordActivityTaskHeartbeatScope .CadenceLatency] ∧
    metricEvents (sampleHandler.serve (sampleHeartbeat [2]) { tokens := 1 }).2.trace =
      [.IncCounter .HistoryRecordActivityTaskHeartbeatScope .CadenceRequests,
       .StartTimer .HistoryRecordActivityTaskHeartbeatScope .CadenceLatency,
       .StopTimer .HistoryRecordActivityTaskHeartbeatScope .CadenceLatency] ∧
    (Call.DescribeMutableState
        { DomainUUID := some "d",
          Execution := some { WorkflowId := some "wf", RunId := none } }).method ≠
      (sampleHeartbeat [2]).method := by
  decide

/-- C17. Once the start barrier is released, Health returns the status with `Ok = true`
and the message "history good", and a nil error, whatever the handler's collaborators
and the bucket of the limiter are. All it does is write one debug line: it makes no call
on the limiter, the token serializer, the controller or an engine, records no metric and
leaves the bucket as it is. -/
theorem Health_is_always_good (h : Handler L) (lim : L) (hst : h.startWG = 0) :
    h.serve .Health lim =
      (.ok (some (.health { Ok := true, Msg := some "history good" })),
        { rateLimiter := lim, trace := [.Debug "History health check endpoint reached."] }) := by
  simp only [Handler.serve, Handler.handle, Handler.Health, hst, ne_eq, not_true_eq_false,
    ↓reduceIte, World.emit, List.nil_append]

/-- C17 on the sample handler with an empty bucket. -/
theorem Health_is_always_good_witness :
    sampleHandler.serve .Health { tokens := 0 } =
      (.ok (some (.health { Ok := true, Msg := some "history good" })),
        { rateLimiter := { tokens := 0 },
          trace := [.Debug "History health check endpoint reached."] }) :=
  Health_is_always_good sampleHandler { tokens := 0 } rfl

/-- C18. A SyncShardStatus request with SourceCluster, ShardId and Timestamp set, served
by a started handler and admitted by the limiter: after the admission the handler asks
the controller for the engine of the shard ID carried in the request, by
`getEngineForShard`, and invokes the operation on the engine it gets; it never calls
`GetEngine`, the lookup by workflow ID. The outcome is decided by the controller and the
engine alone: no domain identifier is read or checked. -/
theorem SyncShardStatus_looks_up_by_shardID (h : Handler L)
    (r : hist.SyncShardStatusRequest) (lim : L) (sourceCluster : String)
    (shardID timestamp : Int) (hst : h.startWG = 0)
    (hsc : r.SourceCluster = some sourceCluster) (hsid : r.ShardId = some shardID)
    (hts : r.Timestamp = some timestamp)
    (hadm : (h.rateLimiter_TryConsume 1 lim).1 = true) :
    calls (h.serve (.SyncShardStatus r) lim).2.trace =
        .TryConsume 1 true :: .getEngineForShard shardID ::
          (match h.controller.getEngineForShard shardID with
           | .ok engine => [Event.EngineCall engine (.SyncShardStatus r)]
           | .error _ => []) ∧
      (∀ workflowID, Event.GetEngine workflowID ∉ (h.serve (.SyncShardStatus r) lim).2.trace) ∧
      (h.serve (.SyncShardStatus r) lim).1 =
        match h.controller.getEngineForShard shardID with
        | .error err => .error (h.convertError err).1
        | .ok engine =>
          match h.engineOp engine (.SyncShardStatus r) with
          | .ok _ => .ok none
          | .error err => .error (h.convertError err).1 := by
  have hwf : (Call.SyncShardStatus r).wellFormed h = true := by
    simp [Call.wellFormed, Call.passesDomainCheck, Call.domainID, Call.pointersPresent,
      Call.missingField, hsc, hsid, hts]
  have hsl : (Call.SyncShardStatus r).shardLookup h =
      (.getEngineForShard shardID, h.controller.getEngineForShard shardID) := by
    simp only [Call.shardLookup, hsid, Option.getD_some]
  obtain ⟨hdc, hpp, hmf⟩ := (wellFormed_iff h _).1 hwf
  have hsum := summary_serve h (.SyncShardStatus r) .HistorySyncShardStatusScope lim rfl
  rw [pipeline_of_domain_ok h _ _ lim hst hdc hpp] at hsum
  have hrl : (Call.SyncShardStatus r).rateLimited = true := rfl
  have htc : (Call.SyncShardStatus r).tokenCalls = [] := rfl
  simp only [hrl, hadm, Bool.true_eq_false, ↓reduceIte,
    afterAdmission_of_wellFormed h _ _ _ _ hpp hmf, htc, List.append_nil] at hsum
  have hcalls : calls (h.serve (.SyncShardStatus r) lim).2.trace =
      .TryConsume 1 true :: .getEngineForShard shardID ::
        (match h.controller.getEngineForShard shardID with
         | .ok engine => [Event.EngineCall engine (.SyncShardStatus r)]
         | .error _ => []) := by
    have := congrArg Summary.calls hsum
    simp only [summary] at this
    rw [this, (afterChecks_spec h _ _ _ _).1, hsl]
    rfl
  refine ⟨hcalls, fun workflowID hm => ?_, ?_⟩
  · have := mem_calls hm rfl
    rw [hcalls] at this
    cases hx : h.controller.getEngineForShard shardID <;> simp [hx] at this
  · have := congrArg Summary.outcome hsum
    simp only [summary] at this
    rw [this]
    simp only [Call.afterChecks, hsl]
    cases h.controller.getEngineForShard shardID with
    | error err => rfl
    | ok engine =>
      simp only
      cases h.engineOp engine (.SyncShardStatus r) <;> rfl

/-- C18 at a request for shard 2 served by the sample handler from a bucket with one
token. -/
theorem SyncShardStatus_looks_up_by_shardID_witness :
    calls (sampleHandler.serve
        (.SyncShardStatus
          { SourceCluster := some "standby", ShardId := some 2, Timestamp := some 1700 })
        { tokens := 1 }).2.trace =
      [.TryConsume 1 true, .getEngineForShard 2,
       .EngineCall { id := 3 }
        (.SyncShardStatus
          { SourceCluster := some "standby", ShardId := some 2, Timestamp := some 1700 })] ∧
    (∀ workflowID, Event.GetEngine workflowID ∉
      (sampleHandler.serve
        (.SyncShardStatus
          { SourceCluster := some "standby", ShardId := some 2, Timestamp := some 1700 })
        { tokens := 1 }).2.trace) ∧
    (sampleHandler.serve
        (.SyncShardStatus
          { SourceCluster := some "standby", ShardId := some 2, Timestamp := some 1700 })
        { tokens := 1 }).1 = .ok none :=
  SyncShardStatus_looks_up_by_shardID sampleHandler
    { SourceCluster := some "standby", ShardId := some 2, Timestamp := some 1700 }
    { tokens := 1 } "standby" 2 1700 rfl rfl rfl rfl (by decide)

/-- Every metric event of `updateErrorMetric` carries the scope it is given. -/
theorem updateErrorMetric_scope (h : Handler L) (scope : metrics.Scope)
    (domainID workflowID : String) (err : Err) :
    ∀ e ∈ metricEvents (h.updateErrorMetric scope domainID workflowID err),
      e.scope = some scope := by
  intro e he
  cases err <;> simp only [Handler.updateErrorMetric] at he
  case yarpcerrors_Status code message =>
    split_ifs at he <;>
      simp only [metricEvents, List.filter, Event.isMetric, List.nil_append, List.cons_append,
        List.mem_cons, List.not_mem_nil, or_false] at he <;>
      rcases he with rfl | rfl <;> rfl
  all_goals
    simp only [metricEvents, List.filter, Event.isMetric, List.mem_cons, List.not_mem_nil,
      or_false] at he
    subst he
    rfl

/-- Every metric event of a summary of the pipeline carries the scope of the method. -/
theorem pipeline_scope (h : Handler L) (call : Call) (scope : metrics.Scope) (lim : L) :
    ∀ e ∈ (call.pipeline h scope lim).metrics, e.scope = some scope := by
  have hf : ∀ (err : Err) (l : L) (cs : List Event),
      ∀ e ∈ (h.failureSummary scope err l cs).metrics, e.scope = some scope := by
    intro err l cs e he
    simp only [Handler.failureSummary, List.mem_append, List.mem_cons, List.not_mem_nil,
      or_false] at he
    rcases he with ((rfl | rfl) | he) | rfl
    · rfl
    · rfl
    · exact updateErrorMetric_scope h scope "" "" _ e he
    · rfl
  have hp : ∀ (out : Outcome) (l : L) (cs : List Event),
      ∀ e ∈ (h.plainSummary scope out l cs).metrics, e.scope = some scope := by
    intro out l cs e he
    simp only [Handler.plainSummary, List.mem_cons, List.not_mem_nil, or_false] at he
    rcases he with rfl | rfl | rfl <;> rfl
  have ha : ∀ (l : L) (cs : List Event),
      ∀ e ∈ (call.afterAdmission h scope l cs).metrics, e.scope = some scope := by
    intro l cs
    unfold Call.afterAdmission Call.afterChecks
    repeat' split
    all_goals first | exact hf _ _ _ | exact hp _ _ _
  unfold Call.pipeline
  repeat' split
  all_goals first | exact hf _ _ _ | exact ha _ _ | (intro e he; cases he)

/-- The metric events of a served call carry the scope of its method. -/
theorem serve_scope (h : Handler L) (call : Call) (scope : metrics.Scope) (lim : L)
    (hs : call.scope = some scope) :
    ∀ e ∈ metricEvents (h.serve call lim).2.trace, e.scope = some scope := by
  have hsum := congrArg Summary.metrics (summary_serve h call scope lim hs)
  simp only [summary] at hsum
  rw [hsum]
  exact pipeline_scope h call scope lim

/-- Calls of two different methods record a metric under the same scope only if one is a
RecordActivityTaskHeartbeat and the other a DescribeMutableState call: every other method
that records metrics has a scope of its own. -/
theorem scopes_are_per_method_but_one (h : Handler L) (c1 c2 : Call) (l1 l2 : L)
    (e1 e2 : Event) (h1 : e1 ∈ metricEvents (h.serve c1 l1).2.trace)
    (h2 : e2 ∈ metricEvents (h.serve c2 l2).2.trace) (he : e1.scope = e2.scope) :
    c1.method = c2.method ∨
      (c1.method = "RecordActivityTaskHeartbeat" ∧ c2.method = "DescribeMutableState") ∨
      (c1.method = "DescribeMutableState" ∧ c2.method = "RecordActivityTaskHeartbeat") := by
  cases hs1 : c1.scope with
  | none => rw [(serve_of_scope_none h c1 l1 hs1).2.1] at h1; cases h1
  | some s1 =>
    cases hs2 : c2.scope with
    | none => rw [(serve_of_scope_none h c2 l2 hs2).2.1] at h2; cases h2
    | some s2 =>
      have e1s := serve_scope h c1 s1 l1 hs1 e1 h1
      have e2s := serve_scope h c2 s2 l2 hs2 e2 h2
      rw [e1s, e2s, Option.some.injEq] at he
      subst he
      exact scope_shared_only_by c1 c2 s1 hs1 hs2

/-! ## Start and stop -/

theorem issued_initial (returns : LifecycleCall → Bool) (cs : List LifecycleCall) :
    issued returns cs <+: cs := by
  induction cs with
  | nil => exact List.prefix_refl _
  | cons c cs ih =>
    simp only [issued]
    split
    · exact (List.prefix_cons_inj c).2 ih
    · exact ⟨cs, rfl⟩

theorem issued_append (returns : LifecycleCall → Bool) (as bs : List LifecycleCall) :
    issued returns (as ++ bs) =
      if as.all returns then as ++ issued returns bs else issued returns as := by
  induction as with
  | nil => rfl
  | cons a as ih =>
    show issued returns (a :: (as ++ bs)) = _
    cases ha : returns a with
    | false => simp [issued, ha]
    | true =>
      simp only [issued, ha, ↓reduceIte, ih, List.all_cons, Bool.true_and]
      split <;> rfl

/-- Every issued call but the last one has returned. -/
theorem issued_dropLast (returns : LifecycleCall → Bool) (cs : List LifecycleCall) :
    ∀ c ∈ (issued returns cs).dropLast, returns c = true := by
  induction cs with
  | nil => intro c hc; simp [issued] at hc
  | cons a as ih =>
    intro c hc
    simp only [issued] at hc
    split at hc
    · next ha =>
      cases has : issued returns as with
      | nil => simp [has] at hc
      | cons b bs =>
        rw [has, List.dropLast_cons₂, List.mem_cons] at hc
        rcases hc with rfl | hc
        · exact ha
        · exact ih c (by rw [has]; exact hc)
    · simp at hc

/-- A run that has ended stays as it is. -/
theorem foldl_call_of_ended (returns : LifecycleCall → Bool)
    (stmts : List (Bool × LifecycleCall)) (r : Run L) (e : Exit) (hr : r.exit = some e) :
    stmts.foldl (fun r s => r.call returns s.1 s.2) r = r := by
  induction stmts with
  | nil => rfl
  | cons s stmts ih =>
    have : r.call returns s.1 s.2 = r := by simp only [Run.call, hr]
    simp only [List.foldl_cons, this, ih]

/-- Calls made one after the other through fields that are set: the calls issued, and
whether the run goes on. -/
theorem foldl_call (returns : LifecycleCall → Bool) (stmts : List (Bool × LifecycleCall))
    (r : Run L) (hr : r.exit = none) (hp : ∀ s ∈ stmts, s.1 = true) :
    (stmts.foldl (fun r s => r.call returns s.1 s.2) r).trace =
        r.trace ++ issued returns (stmts.map Prod.snd) ∧
      (stmts.foldl (fun r s => r.call returns s.1 s.2) r).exit =
        (if (stmts.map Prod.snd).all returns then none else some .notReturned) ∧
      (stmts.foldl (fun r s => r.call returns s.1 s.2) r).state = r.state := by
  induction stmts generalizing r with
  | nil => simp [issued, hr]
  | cons s stmts ih =>
    have hs : s.1 = true := hp s (List.mem_cons_self _ _)
    have hp1 : ∀ s ∈ stmts, s.1 = true := fun x hx => hp x (List.mem_cons_of_mem _ hx)
    cases hret : returns s.2 with
    | true =>
      have hstep : r.call returns s.1 s.2 = { r with trace := r.trace ++ [s.2] } := by
        simp [Run.call, hr, hs, hret]
      obtain ⟨h1, h2, h3⟩ := ih { r with trace := r.trace ++ [s.2] } hr hp1
      simp only [List.foldl_cons, hstep, h1, h2, h3, List.map_cons, issued, hret, ↓reduceIte,
        List.all_cons, Bool.true_and, List.append_assoc, List.singleton_append, and_self]
    | false =>
      have hstep : r.call returns s.1 s.2 =
          { r with exit := some .notReturned, trace := r.trace ++ [s.2] } := by
        simp [Run.call, hr, hs, hret]
      have hend := foldl_call_of_ended returns stmts
        ({ r with exit := some .notReturned, trace := r.trace ++ [s.2] } : Run L)
        .notReturned rfl
      simp only [List.foldl_cons, hstep, hend, List.map_cons, issued, hret,
        List.all_cons, Bool.false_and, Bool.false_eq_true, ↓reduceIte, and_self]

theorem issued_of_all (returns : LifecycleCall → Bool) (cs : List LifecycleCall)
    (hall : cs.all returns = true) : issued returns cs = cs := by
  induction cs with
  | nil => rfl
  | cons c cs ih =>
    simp only [List.all_cons, Bool.and_eq_true] at hall
    simp only [issued, hall.1, ↓reduceIte, ih hall.2]

theorem issued_singleton (returns : LifecycleCall → Bool) (c : LifecycleCall) :
    issued returns [c] = [c] := by
  simp [issued]

/-- The calls issued up to and including one more call, made through a field. -/
theorem ret_call_trace (r : Run L) (returns : LifecycleCall → Bool) (present : Bool)
    (c : LifecycleCall) :
    (Run.ret (r.call returns present c)).trace =
      if r.exit = none ∧ present = true then r.trace ++ [c] else r.trace := by
  cases hr : r.exit <;> cases present <;> cases hc : returns c <;>
    simp [Run.ret, Run.call, hr, hc]

/-- The calls that `Stop` issues on a handler whose domain cache and controller are set. -/
theorem Stop_trace (p : Lifecycle L) (env : LifecycleEnv)
    (hdc : p.domainCache = true) (hc : p.controller = true) :
    (Handler.Stop p env).trace =
      issued env.returns
        ([.domainCache_Stop, .controller_Stop, .shardManager_Close, .historyMgr_Close,
          .historyV2Mgr_Close, .executionMgrFactory_Close, .metadataMgr_Close,
          .visibilityMgr_Close, .Service_Stop] ++
          if p.historyEventNotifier then [.historyEventNotifier_Stop] else []) := by
  obtain ⟨h1, h2, -⟩ := foldl_call env.returns
    [(true, .domainCache_Stop), (true, .controller_Stop), (true, .shardManager_Close),
     (true, .historyMgr_Close), (true, .historyV2Mgr_Close),
     (true, .executionMgrFactory_Close), (true, .metadataMgr_Close),
     (true, .visibilityMgr_Close), (true, .Service_Stop)]
    ({ exit := none, state := p, trace := [] } : Run L) rfl (by simp)
  obtain ⟨r9, hr9⟩ : ∃ r9 : Run L, r9 =
      List.foldl (fun r s => r.call env.returns s.1 s.2)
        ({ exit := none, state := p, trace := [] } : Run L)
        [(true, .domainCache_Stop), (true, .controller_Stop), (true, .shardManager_Close),
         (true, .historyMgr_Close), (true, .historyV2Mgr_Close),
         (true, .executionMgrFactory_Close), (true, .metadataMgr_Close),
         (true, .visibilityMgr_Close), (true, .Service_Stop)] := ⟨_, rfl⟩
  have key : Handler.Stop p env =
      Run.ret (Run.call r9 env.returns p.historyEventNotifier .historyEventNotifier_Stop) := by
    rw [hr9]
    simp only [Handler.Stop, hdc, hc, List.foldl_cons, List.foldl_nil]
  rw [← hr9] at h1 h2
  simp only [List.map_cons, List.map_nil, List.nil_append] at h1 h2
  rw [key, ret_call_trace, h1, issued_append]
  split_ifs at h2 with hall
  · rw [if_pos hall, issued_of_all _ _ hall]
    cases hn : p.historyEventNotifier
    · simp [h2, issued]
    · simp [h2, issued_singleton]
  · rw [if_neg hall, if_neg (by simp [h2])]

/-- C19. `Stop`, on a handler whose domain cache and controller have been set by `Start`,
issues its stop and close calls in the order domain cache, shard controller, shard
manager, history manager, history V2 manager, execution-manager factory, metadata manager,
visibility manager, base service (and then the history event notifier): the calls issued
are an initial part of this sequence, so each is issued at most once and after those
before it; every issued call but the last has returned; and when each of the nine
returns, all nine are issued, each exactly once. -/
theorem Stop_order (p : Lifecycle L) (env : LifecycleEnv)
    (hdc : p.domainCache = true) (hc : p.controller = true) :
    (Handler.Stop p env).trace <+:
        [.domainCache_Stop, .controller_Stop, .shardManager_Close, .historyMgr_Close,
         .historyV2Mgr_Close, .executionMgrFactory_Close, .metadataMgr_Close,
         .visibilityMgr_Close, .Service_Stop, .historyEventNotifier_Stop] ∧
      (∀ c ∈ (Handler.Stop p env).trace.dropLast, env.returns c = true) ∧
      ((∀ c ∈ [LifecycleCall.domainCache_Stop, .controller_Stop, .shardManager_Close,
          .historyMgr_Close, .historyV2Mgr_Close, .executionMgrFactory_Close,
          .metadataMgr_Close, .visibilityMgr_Close, .Service_Stop], env.returns c = true) →
        [.domainCache_Stop, .controller_Stop, .shardManager_Close, .historyMgr_Close,
          .historyV2Mgr_Close, .executionMgrFactory_Close, .metadataMgr_Close,
          .visibilityMgr_Close, .Service_Stop] <+: (Handler.Stop p env).trace ∧
        ∀ c ∈ [LifecycleCall.domainCache_Stop, .controller_Stop, .shardManager_Close,
          .historyMgr_Close, .historyV2Mgr_Close, .executionMgrFactory_Close,
          .metadataMgr_Close, .visibilityMgr_Close, .Service_Stop],
          (Handler.Stop p env).trace.count c = 1) := by
  have ht := Stop_trace p env hdc hc
  have hpre : (Handler.Stop p env).trace <+:
      [.domainCache_Stop, .controller_Stop, .shardManager_Close, .historyMgr_Close,
       .historyV2Mgr_Close, .executionMgrFactory_Close, .metadataMgr_Close,
       .visibilityMgr_Close, .Service_Stop, .historyEventNotifier_Stop] := by
    rw [ht]
    cases p.historyEventNotifier
    · exact (issued_initial _ _).trans ⟨[.historyEventNotifier_Stop], rfl⟩
    · exact issued_initial _ _
  refine ⟨hpre, ?_, fun hall => ?_⟩
  · rw [ht]; exact issued_dropLast _ _
  · have hall1 : List.all [LifecycleCall.domainCache_Stop, .controller_Stop,
        .shardManager_Close, .historyMgr_Close, .historyV2Mgr_Close,
        .executionMgrFactory_Close, .metadataMgr_Close, .visibilityMgr_Close, .Service_Stop]
        env.returns = true := List.all_eq_true.2 hall
    have hnine : [LifecycleCall.domainCache_Stop, .controller_Stop, .shardManager_Close,
        .historyMgr_Close, .historyV2Mgr_Close, .executionMgrFactory_Close,
        .metadataMgr_Close, .visibilityMgr_Close, .Service_Stop] <+:
        (Handler.Stop p env).trace := by
      rw [ht, issued_append, if_pos hall1]
      exact List.prefix_append _ _
    refine ⟨hnine, fun c hc => ?_⟩
    have hle := hnine.sublist.count_le c
    have hge := hpre.sublist.count_le c
    have h1 : List.count c [LifecycleCall.domainCache_Stop, .controller_Stop,
        .shardManager_Close, .historyMgr_Close, .historyV2Mgr_Close,
        .executionMgrFactory_Close, .metadataMgr_Close, .visibilityMgr_Close,
        .Service_Stop] = 1 := by
      simp only [List.mem_cons, List.mem_singleton, List.not_mem_nil, or_false] at hc
      rcases hc with rfl | rfl | rfl | rfl | rfl | rfl | rfl | rfl | rfl <;> decide
    have h2 : List.count c [LifecycleCall.domainCache_Stop, .controller_Stop,
        .shardManager_Close, .historyMgr_Close, .historyV2Mgr_Close,
        .executionMgrFactory_Close, .metadataMgr_Close, .visibilityMgr_Close,
        .Service_Stop, .historyEventNotifier_Stop] = 1 := by
      simp only [List.mem_cons, List.mem_singleton, List.not_mem_nil, or_false] at hc
      rcases hc with rfl | rfl | rfl | rfl | rfl | rfl | rfl | rfl | rfl <;> decide
    omega

/-- C19 on the sample handler once started, every call returning. -/
theorem Stop_order_witness :
    (Handler.Stop (Handler.Start (NewHandler sampleHandler) sampleEnv).state sampleEnv).trace <+:
        [.domainCache_Stop, .controller_Stop, .shardManager_Close, .historyMgr_Close,
         .historyV2Mgr_Close, .executionMgrFactory_Close, .metadataMgr_Close,
         .visibilityMgr_Close, .Service_Stop, .historyEventNotifier_Stop] ∧
      (∀ c ∈ (Handler.Stop (Handler.Start (NewHandler sampleHandler) sampleEnv).state
          sampleEnv).trace.dropLast, sampleEnv.returns c = true) ∧
      [.domainCache_Stop, .controller_Stop, .shardManager_Close, .historyMgr_Close,
        .historyV2Mgr_Close, .executionMgrFactory_Close, .metadataMgr_Close,
        .visibilityMgr_Close, .Service_Stop] <+:
        (Handler.Stop (Handler.Start (NewHandler sampleHandler) sampleEnv).state
          sampleEnv).trace ∧
      ∀ c ∈ [LifecycleCall.domainCache_Stop, .controller_Stop, .shardManager_Close,
        .historyMgr_Close, .historyV2Mgr_Close, .executionMgrFactory_Close,
        .metadataMgr_Close, .visibilityMgr_Close, .Service_Stop],
        (Handler.Stop (Handler.Start (NewHandler sampleHandler) sampleEnv).state
          sampleEnv).trace.count c = 1 := by
  have h := Stop_order (Handler.Start (NewHandler sampleHandler) sampleEnv).state sampleEnv
    rfl rfl
  exact ⟨h.1, h.2.1, h.2.2 (fun _ _ => rfl)⟩

/-! ## The start barrier -/

theorem armed_call (n : Nat) (r : Run L) (returns : LifecycleCall → Bool) (present : Bool)
    (c : LifecycleCall) (h1 : c ≠ .startWG_Done) (h2 : c ≠ .controller_Start)
    (hr : r.armed n) : (r.call returns present c).armed n := by
  obtain ⟨ha, hb, hc, hd⟩ := hr
  unfold Run.call
  split
  · exact ⟨ha, hb, hc, hd⟩
  · split_ifs
    · exact ⟨ha, hb, hc, by simp⟩
    · exact ⟨by simp [ha, Ne.symm h1], by simp [hb, Ne.symm h2], hc, by simp⟩
    · refine ⟨by simp [ha, Ne.symm h1], by simp [hb, Ne.symm h2], hc, ?_⟩
      simp only [ne_eq]; simp [*]

theorem armed_Fatalf (n : Nat) (r : Run L) (format : String) (hr : r.armed n) :
    (r.Fatalf format).armed n := by
  obtain ⟨ha, hb, hc, hd⟩ := hr
  unfold Run.Fatalf
  split
  · exact ⟨ha, hb, hc, hd⟩
  · exact ⟨by simp [ha], by simp [hb], hc, by simp⟩

theorem armed_assign (n : Nat) (r : Run L) (f : Lifecycle L → Lifecycle L)
    (hf : ∀ s, (f s).handler = s.handler) (hr : r.armed n) : (r.assign f).armed n := by
  obtain ⟨ha, hb, hc, hd⟩ := hr
  unfold Run.assign
  split
  · exact ⟨ha, hb, hc, hd⟩
  · exact ⟨ha, hb, by simp [hf, hc], by simp [*]⟩

theorem armed_ite (n : Nat) (c : Prop) [Decidable c] (x y : Run L) (hx : x.armed n)
    (hy : y.armed n) : (if c then x else y).armed n := by
  split <;> assumption

/-- The run of `Start` up to the statement `h.historyEventNotifier.Start()`: the start
wait group is as it was. -/
theorem Start_armed (p : Lifecycle L) (env : LifecycleEnv) :
    ∃ r : Run L, r.armed p.handler.startWG ∧
      Handler.Start p env =
        (((r.call env.returns true .historyEventNotifier_Start).call env.returns true
          .controller_Start).Done).ret := by
  refine ⟨_, ?_, rfl⟩
  have h0 : Run.armed p.handler.startWG ({ exit := none, state := p, trace := [] } : Run L) :=
    ⟨by simp, by simp, rfl, by simp⟩
  repeat'
    first
    | exact h0
    | exact fun _ => rfl
    | decide
    | apply armed_call
    | apply armed_assign
    | apply armed_Fatalf
    | apply armed_ite

/-- The last three statements of `Start` and its return, after a run in which the wait
group has not been released. -/
theorem Start_release (n : Nat) (r : Run L) (returns : LifecycleCall → Bool)
    (hr : r.armed n) :
    ((((r.call returns true .historyEventNotifier_Start).call returns true
        .controller_Start).Done).ret.exit = some .returned →
      n ≠ 0 ∧ returns .historyEventNotifier_Start = true ∧ returns .controller_Start = true ∧
        (((r.call returns true .historyEventNotifier_Start).call returns true
          .controller_Start).Done).ret.trace =
          r.trace ++ [.historyEventNotifier_Start, .controller_Start, .startWG_Done] ∧
        (((r.call returns true .historyEventNotifier_Start).call returns true
          .controller_Start).Done).ret.state.handler.startWG = n - 1) ∧
    ((((r.call returns true .historyEventNotifier_Start).call returns true
        .controller_Start).Done).ret.exit ≠ some .returned →
      (((r.call returns true .historyEventNotifier_Start).call returns true
        .controller_Start).Done).ret.state.handler.startWG = n) := by
  obtain ⟨-, -, hc, hd⟩ := hr
  cases he : r.exit with
  | some e =>
    have hne : e ≠ .returned := fun h => hd (by rw [he, h])
    simp [Run.call, Run.Done, Run.ret, he, hne, hc]
  | none =>
    cases h1 : returns .historyEventNotifier_Start <;>
      cases h2 : returns .controller_Start <;>
      by_cases h3 : n = 0 <;>
      simp [Run.call, Run.Done, Run.ret, he, h1, h2, h3, hc]

/-- A call that arrives while the start wait group is not at zero does not get past
`h.startWG.Wait()`: it makes no call on a collaborator, records no metric, writes no log
line and leaves the bucket of the limiter as it is. -/
theorem blocked_before_release (h : Handler L) (call : Call) (lim : L) (hst : h.startWG ≠ 0) :
    h.serve call lim = (.blocked, { rateLimiter := lim, trace := [] }) := by
  cases call <;> exact if_pos hst

/-- C20. The handler that `NewHandler` builds has its start wait group at one, and any
RPC method called on a handler whose wait group is not at zero, Health and
DescribeHistoryHost included, stops at the barrier before anything else: no metric, no
call on the limiter, the controller or an engine, and no error, a not-owned error
included. `Start` brings the wait group to zero exactly when it returns, and it returns
only through `startWG.Done()` as its last call, right after the history event notifier
and then the shard controller have been started and both calls have returned; on every
other run of `Start` (the process exits in `Fatalf`, or a call does not return) calls
stay blocked. -/
theorem no_call_is_served_before_Start_completes (collaborators : Handler L)
    (env : LifecycleEnv) (call : Call) (lim : L) :
    (NewHandler collaborators).handler.startWG = 1 ∧
    (∀ h : Handler L, h.startWG ≠ 0 →
      h.serve call lim = (.blocked, { rateLimiter := lim, trace := [] })) ∧
    (NewHandler collaborators).handler.serve call lim =
      (.blocked, { rateLimiter := lim, trace := [] }) ∧
    ((Handler.Start (NewHandler collaborators) env).state.handler.startWG = 0 ↔
      (Handler.Start (NewHandler collaborators) env).exit = some .returned) ∧
    ((Handler.Start (NewHandler collaborators) env).exit = some .returned →
      env.returns .historyEventNotifier_Start = true ∧ env.returns .controller_Start = true ∧
      ∃ pre, (Handler.Start (NewHandler collaborators) env).trace =
          pre ++ [.historyEventNotifier_Start, .controller_Start, .startWG_Done] ∧
        LifecycleCall.startWG_Done ∉ pre ∧ LifecycleCall.controller_Start ∉ pre) ∧
    ((Handler.Start (NewHandler collaborators) env).exit ≠ some .returned →
      (Handler.Start (NewHandler collaborators) env).state.handler.serve call lim =
        (.blocked, { rateLimiter := lim, trace := [] })) := by
  obtain ⟨r, hr, hstart⟩ := Start_armed (NewHandler collaborators) env
  have hrel := Start_release _ r env.returns hr
  rw [← hstart] at hrel
  have hone : (NewHandler collaborators).handler.startWG = 1 := rfl
  rw [hone] at hrel
  refine ⟨rfl, fun h hst => blocked_before_release h call lim hst,
    blocked_before_release _ call lim (by rw [hone]; decide), ⟨fun h0 => ?_, fun hret => ?_⟩,
    fun hret => ?_, fun hnot => ?_⟩
  · by_contra hnot
    rw [hrel.2 hnot] at h0
    cases h0
  · exact (hrel.1 hret).2.2.2.2
  · obtain ⟨-, h1, h2, h3, -⟩ := hrel.1 hret
    exact ⟨h1, h2, r.trace, h3, hr.1, hr.2.1⟩
  · exact blocked_before_release _ call lim (by rw [hrel.2 hnot]; decide)

/-- A run of `Start` in which every call returns, on a new handler over the sample
collaborators: the calls issued, the last of which releases the barrier. -/
theorem Start_releases_sample :
    (Handler.Start (NewHandler sampleHandler) sampleEnv).exit = some .returned ∧
    (Handler.Start (NewHandler sampleHandler) sampleEnv).trace =
      [.Dispatcher_Register_historyserviceserver, .Dispatcher_Register_metaserver,
       .Service_Start, .GetResolver, .domainCache_Start, .historyEventNotifier_Start,
       .controller_Start, .startWG_Done] ∧
    (Handler.Start (NewHandler sampleHandler) sampleEnv).state.handler.startWG = 0 :=
  ⟨rfl, rfl, rfl⟩

/-! ## The deadline of the caller, and the checks of two methods -/

/-- C21 (counterexample). A start request made on a handler that has not been started,
with a context whose deadline has passed: the call does not get past
`h.startWG.Wait()`. It does not return a deadline-exceeded error, or any error; it makes
no call and records no metric. -/
theorem expired_deadline_does_not_end_the_wait :
    ((NewHandler sampleHandler).handler.rpc sampleEngineOp { deadlineExceeded := true }
        sampleStart { tokens := 1 }).1 = .blocked ∧
      (∀ message,
        ((NewHandler sampleHandler).handler.rpc sampleEngineOp { deadlineExceeded := true }
          sampleStart { tokens := 1 }).1 ≠
          .error (.yarpcerrors_Status yarpcerrors.CodeDeadlineExceeded message)) ∧
      ((NewHandler sampleHandler).handler.rpc sampleEngineOp { deadlineExceeded := true }
        sampleStart { tokens := 1 }).2.trace = [] :=
  ⟨rfl, fun _ hm => Outcome.noConfusion hm, rfl⟩

/-- C21 (amended). The methods do not read the context before the operation of the
engine: a call made while the start wait group is not at zero stays at
`h.startWG.Wait()` whatever its context is, with its deadline passed or not. It returns
nothing, a deadline-exceeded error included, and touches nothing. -/
theorem barrier_ignores_the_deadline (h : Handler L)
    (engineOp : context.Context → Engine → Call → Except Err Nat) (ctx : context.Context)
    (call : Call) (lim : L) (hst : h.startWG ≠ 0) :
    h.rpc engineOp ctx call lim = (.blocked, { rateLimiter := lim, trace := [] }) :=
  blocked_before_release { h with engineOp := engineOp ctx } call lim hst

/-- C21 (amended) at a start request on a new handler, the deadline passed. -/
theorem barrier_ignores_the_deadline_witness :
    (NewHandler sampleHandler).handler.rpc sampleEngineOp { deadlineExceeded := true }
        sampleStart { tokens := 1 } =
      (.blocked, { rateLimiter := { tokens := 1 }, trace := [] }) :=
  barrier_ignores_the_deadline (NewHandler sampleHandler).handler sampleEngineOp
    { deadlineExceeded := true } sampleStart { tokens := 1 } (by decide)

/-- The summary of a RecordDecisionTaskStarted call, stage by stage. -/
theorem summary_RecordDecisionTaskStarted (h : Handler L)
    (r : hist.RecordDecisionTaskStartedRequest) (lim : L) :
    summary (h.serve (.RecordDecisionTaskStarted r) lim) =
      if h.startWG ≠ 0 then
        { outcome := .blocked, rateLimiter := lim, calls := [], metrics := [] }
      else if r.WorkflowExecution = none then
        { outcome := .panic, rateLimiter := lim, calls := [], metrics := [] }
      else if r.DomainUUID.getD "" = "" then
        h.failureSummary .HistoryRecordDecisionTaskStartedScope errDomainNotSet lim []
      else if (h.rateLimiter_TryConsume 1 lim).1 = false then
        h.failureSummary .HistoryRecordDecisionTaskStartedScope errHistoryHostThrottle
          (h.rateLimiter_TryConsume 1 lim).2 [.TryConsume 1 false]
      else if r.PollRequest = none ∨
          gen.TaskList.GetName (r.PollRequest.bind (·.TaskList)) = "" then
        h.failureSummary .HistoryRecordDecisionTaskStartedScope errTaskListNotSet
          (h.rateLimiter_TryConsume 1 lim).2 [.TryConsume 1 true]
      else
        (Call.RecordDecisionTaskStarted r).afterChecks h .HistoryRecordDecisionTaskStartedScope
          (h.rateLimiter_TryConsume 1 lim).2 [.TryConsume 1 true] := by
  rw [summary_serve h (.RecordDecisionTaskStarted r) .HistoryRecordDecisionTaskStartedScope lim rfl]
  unfold Call.pipeline
  by_cases hst : h.startWG = 0
  swap
  · simp only [hst, ne_eq, not_false_eq_true, ↓reduceIte]
  cases hwe : r.WorkflowExecution with
  | none => simp [hst, Call.derefAtEntry, Call.pointersPresent, hwe]
  | some we =>
    by_cases hd : r.DomainUUID.getD "" = ""
    · simp [hst, Call.derefAtEntry, Call.pointersPresent, hwe, Call.passesDomainCheck,
        Call.domainID, hd]
    · cases hadm : (h.rateLimiter_TryConsume 1 lim).1 with
      | false =>
        simp [hst, Call.derefAtEntry, Call.pointersPresent, hwe, Call.passesDomainCheck,
          Call.domainID, hd, Call.rateLimited, hadm]
      | true =>
        by_cases hp : r.PollRequest = none ∨
            gen.TaskList.GetName (r.PollRequest.bind (·.TaskList)) = ""
        · simp only [hst, Call.derefAtEntry, Call.pointersPresent, hwe, Call.passesDomainCheck,
            Call.domainID, hd, Call.rateLimited, hadm, Call.afterAdmission, Call.missingField,
            Call.tokenCalls, Call.taskToken, hp, ne_eq, not_true_eq_false, ↓reduceIte,
            Option.isSome_some, Bool.true_eq_false, and_false, decide_False, Bool.not_false,
            List.append_nil, reduceCtorEq, not_false_eq_true]
        · simp only [hst, Call.derefAtEntry, Call.pointersPresent, hwe, Call.passesDomainCheck,
            Call.domainID, hd, Call.rateLimited, hadm, Call.afterAdmission, Call.missingField,
            Call.tokenCalls, Call.taskToken, hp, ne_eq, not_true_eq_false, ↓reduceIte,
            Option.isSome_some, Bool.true_eq_false, and_false, decide_False, Bool.not_false,
            List.append_nil, reduceCtorEq, not_false_eq_true]

/-- C22. A RecordDecisionTaskStarted call that the limiter admits, that is, one in whose
trace `TryConsume(1)` is granted: the handler is started, the domain identifier of the
request is not empty, and its WorkflowExecution is present (a request without one never
gets as far as the limiter). If the poll request is absent or its task-list name is
empty, the call returns the BadRequestError "Tasklist not set." and its only
collaborator call is the admission, so neither the controller nor an engine is invoked.
Otherwise the call goes on to engine resolution: `GetEngine` on the workflow ID of the
request, and then the operation of the engine that comes back. -/
theorem RecordDecisionTaskStarted_checks_the_task_list (h : Handler L)
    (r : hist.RecordDecisionTaskStartedRequest) (lim : L)
    (hadm : Event.TryConsume 1 true ∈ (h.serve (.RecordDecisionTaskStarted r) lim).2.trace) :
    (h.startWG = 0 ∧ r.DomainUUID.getD "" ≠ "" ∧ r.WorkflowExecution ≠ none) ∧
    if r.PollRequest = none ∨ gen.TaskList.GetName (r.PollRequest.bind (·.TaskList)) = "" then
      (h.serve (.RecordDecisionTaskStarted r) lim).1 =
          .error (.gen_BadRequestError "Tasklist not set.") ∧
        calls (h.serve (.RecordDecisionTaskStarted r) lim).2.trace = [.TryConsume 1 true]
    else
      calls (h.serve (.RecordDecisionTaskStarted r) lim).2.trace =
        .TryConsume 1 true ::
          .GetEngine (gen.WorkflowExecution.GetWorkflowId r.WorkflowExecution) ::
          (match h.controller.GetEngine
              (gen.WorkflowExecution.GetWorkflowId r.WorkflowExecution) with
           | .ok engine => [Event.EngineCall engine (.RecordDecisionTaskStarted r)]
           | .error _ => []) := by
  have hsum := summary_RecordDecisionTaskStarted h r lim
  have hmem : Event.TryConsume 1 true ∈ (summary (h.serve (.RecordDecisionTaskStarted r) lim)).calls :=
    mem_calls hadm rfl
  have hc : calls (h.serve (.RecordDecisionTaskStarted r) lim).2.trace =
      (summary (h.serve (.RecordDecisionTaskStarted r) lim)).calls := rfl
  have ho : (h.serve (.RecordDecisionTaskStarted r) lim).1 =
      (summary (h.serve (.RecordDecisionTaskStarted r) lim)).outcome := rfl
  rw [hc, ho]
  rw [hsum] at hmem ⊢
  by_cases h1 : h.startWG ≠ 0
  · rw [if_pos h1] at hmem; simp at hmem
  rw [if_neg h1] at hmem ⊢
  by_cases h2 : r.WorkflowExecution = none
  · rw [if_pos h2] at hmem; simp at hmem
  rw [if_neg h2] at hmem ⊢
  by_cases h3 : r.DomainUUID.getD "" = ""
  · rw [if_pos h3] at hmem; simp [Handler.failureSummary] at hmem
  rw [if_neg h3] at hmem ⊢
  by_cases h4 : (h.rateLimiter_TryConsume 1 lim).1 = false
  · rw [if_pos h4] at hmem; simp [Handler.failureSummary] at hmem
  rw [if_neg h4] at hmem ⊢
  refine ⟨⟨not_not.1 h1, h3, h2⟩, ?_⟩
  by_cases h5 : r.PollRequest = none ∨
      gen.TaskList.GetName (r.PollRequest.bind (·.TaskList)) = ""
  · rw [if_pos h5, if_pos h5]; exact ⟨rfl, rfl⟩
  · rw [if_neg h5, if_neg h5, (afterChecks_spec h _ _ _ _).1,
      shardLookup_of_workflowID h (.RecordDecisionTaskStarted r) _ rfl]
    rfl

/-- C22 at a request without a poll request, served by the sample handler from a bucket
with one token. -/
theorem RecordDecisionTaskStarted_checks_the_task_list_witness :
    (sampleHandler.startWG = 0 ∧
      (some "d" : Option String).getD "" ≠ "" ∧
      (some { WorkflowId := some "wf", RunId := none } : Option gen.WorkflowExecution) ≠ none) ∧
    (sampleHandler.serve
        (.RecordDecisionTaskStarted
          { DomainUUID := some "d",
            WorkflowExecution := some { WorkflowId := some "wf", RunId := none },
            ScheduleId := some 5, PollRequest := none })
        { tokens := 1 }).1 = .error (.gen_BadRequestError "Tasklist not set.") ∧
    calls (sampleHandler.serve
        (.RecordDecisionTaskStarted
          { DomainUUID := some "d",
            WorkflowExecution := some { WorkflowId := some "wf", RunId := none },
            ScheduleId := some 5, PollRequest := none })
        { tokens := 1 }).2.trace = [.TryConsume 1 true] :=
  RecordDecisionTaskStarted_checks_the_task_list sampleHandler
    { DomainUUID := some "d",
      WorkflowExecution := some { WorkflowId := some "wf", RunId := none },
      ScheduleId := some 5, PollRequest := none }
    { tokens := 1 } (by decide)

/-- C23. An error whose type has no case of its own in `updateErrorMetric` is handled by
the default case: the only counter incremented is the generic failure counter
`CadenceFailures`, under the scope given, and the error is logged as an uncategorized
error through the logger of `getLoggerWithTags`. That logger carries the domain field,
with the domain identifier as its value, if and only if `domainID` is not empty, and the
workflow field, with the workflow identifier as its value, if and only if `workflowID`
is not empty; it carries no other field. -/
theorem unrecognised_errors_are_uncategorized (h : Handler L) (scope : metrics.Scope)
    (domainID workflowID : String) (err : Err) (hc : err.hasCase = false) :
    h.updateErrorMetric scope domainID workflowID err =
        [.IncCounter scope .CadenceFailures,
         .LogUncategorizedError (h.getLoggerWithTags domainID workflowID) err] ∧
      countersOf (h.updateErrorMetric scope domainID workflowID err) = [.CadenceFailures] ∧
      (h.getLoggerWithTags domainID workflowID).fields =
        (if domainID ≠ "" then [(logging.Tag.TagDomainID, domainID)] else []) ++
          (if workflowID ≠ "" then [(logging.Tag.TagWorkflowExecutionID, workflowID)]
           else []) ∧
      ((∃ value, (logging.Tag.TagDomainID, value) ∈
          (h.getLoggerWithTags domainID workflowID).fields) ↔ domainID ≠ "") ∧
      ((∃ value, (logging.Tag.TagWorkflowExecutionID, value) ∈
          (h.getLoggerWithTags domainID workflowID).fields) ↔ workflowID ≠ "") := by
  have hf : (h.getLoggerWithTags domainID workflowID).fields =
      (if domainID ≠ "" then [(logging.Tag.TagDomainID, domainID)] else []) ++
        (if workflowID ≠ "" then [(logging.Tag.TagWorkflowExecutionID, workflowID)]
         else []) := by
    simp only [Handler.getLoggerWithTags, bark.Logger.WithField]
    split_ifs <;> rfl
  have hu : h.updateErrorMetric scope domainID workflowID err =
      [.IncCounter scope .CadenceFailures,
       .LogUncategorizedError (h.getLoggerWithTags domainID workflowID) err] := by
    cases err <;> first | rfl | cases hc
  refine ⟨hu, by rw [hu]; rfl, hf, ?_, ?_⟩
  · rw [hf]
    constructor
    · rintro ⟨value, hv⟩ hd
      subst hd
      simp only [ne_eq, not_true_eq_false, ↓reduceIte, List.nil_append] at hv
      split_ifs at hv <;> simp at hv
    · intro hne
      exact ⟨domainID, by simp [hne]⟩
  · rw [hf]
    constructor
    · rintro ⟨value, hv⟩ hw
      subst hw
      simp only [ne_eq, not_true_eq_false, ↓reduceIte, List.append_nil] at hv
      split_ifs at hv <;> simp at hv
    · intro hne
      exact ⟨workflowID, by simp [hne]⟩

/-- C23 at an error of an unknown type, with a domain and no workflow identifier. -/
theorem unrecognised_errors_are_uncategorized_witness :
    sampleHandler.updateErrorMetric .HistoryGetMutableStateScope "d" "" (.other "boom") =
        [.IncCounter .HistoryGetMutableStateScope .CadenceFailures,
         .LogUncategorizedError (sampleHandler.getLoggerWithTags "d" "") (.other "boom")] ∧
      countersOf
          (sampleHandler.updateErrorMetric .HistoryGetMutableStateScope "d" ""
            (.other "boom")) = [.CadenceFailures] ∧
      (sampleHandler.getLoggerWithTags "d" "").fields =
        (if ("d" : String) ≠ "" then [(logging.Tag.TagDomainID, "d")] else []) ++
          (if ("" : String) ≠ "" then [(logging.Tag.TagWorkflowExecutionID, "")] else []) ∧
      ((∃ value, (logging.Tag.TagDomainID, value) ∈
          (sampleHandler.getLoggerWithTags "d" "").fields) ↔ ("d" : String) ≠ "") ∧
      ((∃ value, (logging.Tag.TagWorkflowExecutionID, value) ∈
          (sampleHandler.getLoggerWithTags "d" "").fields) ↔ ("" : String) ≠ "") :=
  unrecognised_errors_are_uncategorized sampleHandler .HistoryGetMutableStateScope "d" ""
    (.other "boom") rfl

/-- The summary of a SyncActivity call, stage by stage. -/
theorem summary_SyncActivity (h : Handler L) (r : hist.SyncActivityRequest) (lim : L)
    (hst : h.startWG = 0) :
    summary (h.serve (.SyncActivity r) lim) =
      if r.DomainId = none ∨ h.uuid_Parse (r.DomainId.getD "") = false then
        h.failureSummary .HistorySyncActivityScope errDomainNotSet lim []
      else if (h.rateLimiter_TryConsume 1 lim).1 = false then
        h.failureSummary .HistorySyncActivityScope errHistoryHostThrottle
          (h.rateLimiter_TryConsume 1 lim).2 [.TryConsume 1 false]
      else if r.WorkflowId = none then
        h.failureSummary .HistorySyncActivityScope errWorkflowIDNotSet
          (h.rateLimiter_TryConsume 1 lim).2 [.TryConsume 1 true]
      else if r.RunId = none ∨ h.uuid_Parse (r.RunId.getD "") = false then
        h.failureSummary .HistorySyncActivityScope errRunIDNotValid
          (h.rateLimiter_TryConsume 1 lim).2 [.TryConsume 1 true]
      else
        (Call.SyncActivity r).afterChecks h .HistorySyncActivityScope
          (h.rateLimiter_TryConsume 1 lim).2 [.TryConsume 1 true] := by
  rw [summary_serve h (.SyncActivity r) .HistorySyncActivityScope lim rfl]
  unfold Call.pipeline
  by_cases hd : r.DomainId = none ∨ h.uuid_Parse (r.DomainId.getD "") = false
  · simp [hst, Call.derefAtEntry, Call.passesDomainCheck, hd]
  · cases hadm : (h.rateLimiter_TryConsume 1 lim).1 with
    | false => simp [hst, Call.derefAtEntry, Call.passesDomainCheck, hd, Call.rateLimited, hadm]
    | true =>
      cases hw : r.WorkflowId with
      | none =>
        simp [hst, Call.derefAtEntry, Call.passesDomainCheck, hd, Call.rateLimited, hadm,
          Call.afterAdmission, Call.pointersPresent, Call.missingField, hw, Call.tokenCalls,
          Call.taskToken]
      | some w =>
        by_cases hr : r.RunId = none ∨ h.uuid_Parse (r.RunId.getD "") = false
        · simp [hst, Call.derefAtEntry, Call.passesDomainCheck, hd, Call.rateLimited, hadm,
            Call.afterAdmission, Call.pointersPresent, Call.missingField, hw, Call.tokenCalls,
            Call.taskToken, hr]
        · simp [hst, Call.derefAtEntry, Call.passesDomainCheck, hd, Call.rateLimited, hadm,
            Call.afterAdmission, Call.pointersPresent, Call.missingField, hw, Call.tokenCalls,
            Call.taskToken, hr]

/-- C24. SyncActivity on a started handler checks in a fixed order, the first failure
deciding the answer. A domain ID that is absent or that `uuid.Parse` rejects gives
"Domain not set on request." with no call on the limiter. Next comes the admission by
the limiter. Then an absent workflow ID gives "WorkflowId is not set on request."; then
a run ID that is absent or that `uuid.Parse` rejects gives "RunID is not valid UUID.".
In each of these cases the call makes no shard lookup and invokes no engine. A request
that passes all of them reaches `GetEngine` with its workflow ID, and the operation is
invoked on the engine that comes back. -/
theorem SyncActivity_validates_in_order (h : Handler L) (r : hist.SyncActivityRequest)
    (lim : L) (hst : h.startWG = 0) :
    if r.DomainId = none ∨ h.uuid_Parse (r.DomainId.getD "") = false then
      (h.serve (.SyncActivity r) lim).1 =
          .error (.gen_BadRequestError "Domain not set on request.") ∧
        calls (h.serve (.SyncActivity r) lim).2.trace = []
    else if (h.rateLimiter_TryConsume 1 lim).1 = false then
      (h.serve (.SyncActivity r) lim).1 = .error errHistoryHostThrottle ∧
        calls (h.serve (.SyncActivity r) lim).2.trace = [.TryConsume 1 false]
    else if r.WorkflowId = none then
      (h.serve (.SyncActivity r) lim).1 =
          .error (.gen_BadRequestError "WorkflowId is not set on request.") ∧
        calls (h.serve (.SyncActivity r) lim).2.trace = [.TryConsume 1 true]
    else if r.RunId = none ∨ h.uuid_Parse (r.RunId.getD "") = false then
      (h.serve (.SyncActivity r) lim).1 =
          .error (.gen_BadRequestError "RunID is not valid UUID.") ∧
        calls (h.serve (.SyncActivity r) lim).2.trace = [.TryConsume 1 true]
    else
      calls (h.serve (.SyncActivity r) lim).2.trace =
        .TryConsume 1 true :: .GetEngine (r.WorkflowId.getD "") ::
          (match h.controller.GetEngine (r.WorkflowId.getD "") with
           | .ok engine => [Event.EngineCall engine (.SyncActivity r)]
           | .error _ => []) := by
  have hsum := summary_SyncActivity h r lim hst
  have hc : calls (h.serve (.SyncActivity r) lim).2.trace =
      (summary (h.serve (.SyncActivity r) lim)).calls := rfl
  have ho : (h.serve (.SyncActivity r) lim).1 =
      (summary (h.serve (.SyncActivity r) lim)).outcome := rfl
  rw [hc, ho, hsum]
  split_ifs
  · exact ⟨rfl, rfl⟩
  · exact ⟨rfl, rfl⟩
  · exact ⟨rfl, rfl⟩
  · exact ⟨rfl, rfl⟩
  · rw [(afterChecks_spec h _ _ _ _).1, shardLookup_of_workflowID h (.SyncActivity r) _ rfl]
    rfl

/-- C24 at a request whose run ID is not a UUID, served by the sample handler from a
bucket with one token. -/
theorem SyncActivity_validates_in_order_witness :
    (sampleHandler.serve
        (.SyncActivity
          { DomainId := some "6ba7b810-9dad-11d1-80b4-00c04fd430c8", WorkflowId := some "wf",
            RunId := some "not-a-uuid" })
        { tokens := 1 }).1 = .error (.gen_BadRequestError "RunID is not valid UUID.") ∧
    calls (sampleHandler.serve
        (.SyncActivity
          { DomainId := some "6ba7b810-9dad-11d1-80b4-00c04fd430c8", WorkflowId := some "wf",
            RunId := some "not-a-uuid" })
        { tokens := 1 }).2.trace = [.TryConsume 1 true] := by
  have h := SyncActivity_validates_in_order sampleHandler
    { DomainId := some "6ba7b810-9dad-11d1-80b4-00c04fd430c8", WorkflowId := some "wf",
      RunId := some "not-a-uuid" } { tokens := 1 } rfl
  rw [if_neg (by decide), if_neg (by decide), if_neg (by decide), if_pos (by decide)] at h
  exact h

/-! ## The ring key of a lost shard, and translating twice -/

theorem toNat_ofNat_of_isValidChar (n : Nat) (h : n.isValidChar) : (Char.ofNat n).toNat = n := by
  simp only [Char.ofNat, h, ↓reduceDIte, Char.ofNatAux, Char.toNat]
  rfl

theorem singleton_injective (c d : Char) (h : String.singleton c = String.singleton d) :
    c = d := by
  have := congrArg String.data h
  simpa [String.singleton] using this

/-- The key of `convertError` for a lost shard: `string(shardID)`, asked of the resolver
once. -/
theorem convertError_key (h : Handler L) (shardID : Int) (msg : String) :
    (h.convertError (.persistence_ShardOwnershipLostError shardID msg)).2 =
      [.Lookup (goString shardID)] := by
  simp only [Handler.convertError]
  split <;> rfl

/-- C25 (counterexample). The shards 55296 and 55297 are looked up under the same ring
key: neither number is a code point (both are surrogates), so Go's `string(shardID)` is
the replacement character U+FFFD for both. -/
theorem surrogate_shards_share_a_key :
    (55296 : Int) ≠ 55297 ∧ (0 : Int) ≤ 55296 ∧ (0 : Int) ≤ 55297 ∧
      goString 55296 = goString 55297 ∧
      (sampleHandler.convertError (.persistence_ShardOwnershipLostError 55296 "lost")).2 =
        (sampleHandler.convertError (.persistence_ShardOwnershipLostError 55297 "lost")).2 := by
  decide

/-- C25 (amended). `convertError` asks the resolver under the key `string(shardID)`. Two
different shard IDs that are code points (0 to 55295, or 57344 to 1114111) get different
keys; every other non-negative shard ID gets the key of shard 65533, the replacement
character. -/
theorem code_point_shards_have_their_own_key (h : Handler L) (a b : Int) (ma mb : String)
    (ha : 0 ≤ a) (hb : 0 ≤ b) (hva : a.toNat.isValidChar) (hvb : b.toNat.isValidChar)
    (hab : a ≠ b) :
    (h.convertError (.persistence_ShardOwnershipLostError a ma)).2 = [.Lookup (goString a)] ∧
      (h.convertError (.persistence_ShardOwnershipLostError b mb)).2 =
        [.Lookup (goString b)] ∧
      goString a ≠ goString b ∧
      ∀ c : Int, 0 ≤ c → ¬ c.toNat.isValidChar → goString c = goString 65533 := by
  refine ⟨convertError_key h a ma, convertError_key h b mb, fun heq => hab ?_, fun c hc hv => ?_⟩
  · simp only [goString, ha, hb, hva, hvb, and_self, ↓reduceIte] at heq
    have hn := congrArg Char.toNat (singleton_injective _ _ heq)
    rw [toNat_ofNat_of_isValidChar _ hva, toNat_ofNat_of_isValidChar _ hvb] at hn
    omega
  · simp only [goString, hc, hv, and_false, ↓reduceIte]
    rfl

/-- C25 (amended) at the shards 7 and 8. -/
theorem code_point_shards_have_their_own_key_witness :
    (sampleHandler.convertError (.persistence_ShardOwnershipLostError 7 "lost")).2 =
        [.Lookup (goString 7)] ∧
      (sampleHandler.convertError (.persistence_ShardOwnershipLostError 8 "lost")).2 =
        [.Lookup (goString 8)] ∧
      goString 7 ≠ goString 8 ∧
      ∀ c : Int, 0 ≤ c → ¬ c.toNat.isValidChar → goString c = goString 65533 :=
  code_point_shards_have_their_own_key sampleHandler 7 8 "lost" "lost" (by decide) (by decide)
    (by decide) (by decide) (by decide)

/-- C26. Translating an error twice is translating it once: what `convertError` hands
back is never one of the three persistence errors it translates, so a second
`convertError` hands it back as it is, and asks the resolver nothing. -/
theorem convertError_is_idempotent (h : Handler L) (err : Err) :
    h.convertError (h.convertError err).1 = ((h.convertError err).1, []) := by
  cases err with
  | persistence_ShardOwnershipLostError shardID msg =>
    have hout : ∃ owner, (h.convertError (.persistence_ShardOwnershipLostError shardID msg)).1 =
        createShardOwnershipLostError h.hostAddress owner := by
      simp only [Handler.convertError]
      split <;> exact ⟨_, rfl⟩
    obtain ⟨owner, ho⟩ := hout
    rw [ho]
    rfl
  | _ => rfl

/-! ## The plugin registry -/

open plugin

theorem plugin_get_set_self {V : Type} (m : Map V) (key : String) (value : V) :
    Map.get (some (m.set key value)) key = some value := by
  simp [Map.get, Map.set, List.lookup]

/-- The loop of `Register` does not touch the plugin table. -/
theorem loop_plugins (pluginID : String) (providers : List Provider) (r : Registry) :
    (Registry.Register.loop pluginID providers r).2.plugins = r.plugins := by
  induction providers generalizing r with
  | nil => rfl
  | cons provider rest ih =>
    rcases r with ⟨pl, u, pr, sl⟩
    cases pr <;> cases sl <;> simp only [Registry.Register.loop, Map.get] <;>
      (repeat' split) <;> first | rfl | simp only [ih]

/-- Registering a plugin that declares a provider on a new registry panics: the map
`providersSlice`, which `NewRegistry` does not make, is written to. -/
theorem Register_new_panics (p : Plugin) (hid : p.ID ≠ "") (hp : p.Providers ≠ []) :
    (NewRegistry.Register p).1 = .panic "assignment to entry in nil map" := by
  cases hps : p.Providers with
  | nil => exact absurd hps hp
  | cons provider rest =>
    simp [Registry.Register, NewRegistry, hid, Map.get, hps, Registry.Register.loop]

/-- Registering a plugin that declares no provider on a new registry succeeds. -/
theorem Register_new_bare (p : Plugin) (hid : p.ID ≠ "") (hp : p.Providers = []) (scope : String) :
    (NewRegistry.Register p).1 = .nil ∧ ((NewRegistry.Register p).2.GetAll scope).1 = [] := by
  simp [Registry.Register, NewRegistry, hid, Map.get, hp, Registry.Register.loop,
    Registry.GetAll]

/-- C27 (failing input). On the registry that `NewRegistry` returns, unused, `Register`
of the plugin `metrics`, whose ID is not empty and which declares one provider, does not
return nil: it panics, writing to the nil map `providersSlice`. By then the plugin and its
provider are in the tables `plugins` and `providers`, and `GetAll` for the scope of the
provider returns nothing. -/
theorem Register_on_a_new_registry_panics :
    NewRegistry.used = false ∧ samplePlugin.ID ≠ "" ∧
      Map.get NewRegistry.plugins samplePlugin.ID = none ∧
      (NewRegistry.Register samplePlugin).1 = .panic "assignment to entry in nil map" ∧
      Map.get (NewRegistry.Register samplePlugin).2.plugins "metrics" = some samplePlugin ∧
      ((NewRegistry.Register samplePlugin).2.GetAll "reporter").1 = [] := by
  decide

/-- A duplicated-provider failure comes after the plugin has been recorded: whenever
`Register` returns that error, the plugin was not in the plugin table before the call and
is in it after the call. -/
theorem Register_records_before_it_fails (r : Registry) (p : Plugin) (id scope name : String)
    (hd : (r.Register p).1 = .error (.duplicatedProvider id scope name)) :
    Map.get r.plugins p.ID = none ∧ Map.get (r.Register p).2.plugins p.ID = some p := by
  rcases r with ⟨pl, u, pr, sl⟩
  cases u
  swap
  · simp [Registry.Register] at hd
  by_cases hid : p.ID = ""
  · simp [Registry.Register, hid] at hd
  cases pl with
  | none => simp [Registry.Register, hid, Map.get] at hd
  | some plugins =>
    cases hg : List.lookup p.ID plugins with
    | some q => simp [Registry.Register, hid, Map.get, hg] at hd
    | none =>
      refine ⟨by simp [Map.get, hg], ?_⟩
      simp only [Registry.Register, hid, Map.get, hg, Bool.false_eq_true, ↓reduceIte]
      rw [loop_plugins]
      exact plugin_get_set_self plugins p.ID p

/-- C28 (failing input). A registry in which the provider `statsd` of the scope
`reporter` is registered: the one left by `Register` of the plugin `metrics` on a new
registry. `Register` of the plugin `metrics2`, which declares that provider again, returns
the duplicated-provider error, and the registry is not as it was: `metrics2` is in the
plugin table now, so that registering a plugin under the ID `metrics2` again is refused as
a duplicated plugin ID. -/
theorem Register_is_not_atomic :
    ((NewRegistry.Register samplePlugin).2.Register sampleClash).1 =
        .error (.duplicatedProvider "metrics2" "reporter" "statsd") ∧
      ((NewRegistry.Register samplePlugin).2.Register sampleClash).2 ≠
        (NewRegistry.Register samplePlugin).2 ∧
      Map.get (NewRegistry.Register samplePlugin).2.plugins "metrics2" = none ∧
      Map.get ((NewRegistry.Register samplePlugin).2.Register sampleClash).2.plugins
        "metrics2" = some sampleClash ∧
      (((NewRegistry.Register samplePlugin).2.Register sampleClash).2.Register
        { ID := "metrics2", Description := "fixed", Providers := [] }).1 =
        .error (.duplicatedPluginID "metrics2") := by
  decide

/-- The plugin table of a registry that has one keeps being one. -/
theorem plugins_stay_made (r : Registry) (p : Plugin) (scope : String)
    (hm : r.plugins ≠ none) :
    (r.Register p).2.plugins ≠ none ∧ (r.NewScopedRegistry scope).2.plugins ≠ none ∧
      (r.GetAll scope).2.plugins ≠ none := by
  refine ⟨?_, ?_, hm⟩
  · cases hp : r.plugins with
    | none => exact absurd hp hm
    | some plugins =>
      simp only [Registry.Register, hp]
      split_ifs
      · simp [hp]
      · simp [hp]
      · split
        · simp [hp]
        · rw [loop_plugins]; simp
  · simp only [Registry.NewScopedRegistry]
    split <;> exact hm

/-- C29. `Register` on a registry whose plugin table has been made, as by `NewRegistry`.
It refuses a plugin once the registry has been used; else a plugin with an empty ID; else
a plugin whose ID is in the plugin table already; each time with the error of that check
and leaving the registry as it is. In every other case the plugin is in the plugin table
under its ID after the call. A registry is used once `NewScopedRegistry` or `GetAll` has
been called on it, whatever the call returned, and `Register` refuses every plugin from
then on. -/
theorem Register_rejects_in_order (r : Registry) (p : Plugin) (hm : r.plugins ≠ none) :
    (if r.used = true then r.Register p = (.error .calledAfterUsage, r)
     else if p.ID = "" then r.Register p = (.error (.missingPluginID p.Description), r)
     else if Map.get r.plugins p.ID ≠ none then
       r.Register p = (.error (.duplicatedPluginID p.ID), r)
     else Map.get (r.Register p).2.plugins p.ID = some p) ∧
    ∀ scope,
      (r.NewScopedRegistry scope).2.used = true ∧ (r.GetAll scope).2.used = true ∧
      (r.NewScopedRegistry scope).2.Register p =
        (.error .calledAfterUsage, (r.NewScopedRegistry scope).2) ∧
      (r.GetAll scope).2.Register p = (.error .calledAfterUsage, (r.GetAll scope).2) := by
  constructor
  · split_ifs with h1 h2 h3
    · simp only [Registry.Register, h1, ↓reduceIte]
    · simp only [Registry.Register, h1, h2, Bool.false_eq_true, ↓reduceIte]
    · cases hg : Map.get r.plugins p.ID with
      | none => exact absurd hg h3
      | some q => simp only [Registry.Register, h1, h2, hg, Bool.false_eq_true, ↓reduceIte]
    · have hg : Map.get r.plugins p.ID = none := not_not.1 h3
      cases hp : r.plugins with
      | none => exact absurd hp hm
      | some plugins =>
        rw [hp] at hg
        simp only [Registry.Register, h1, h2, hg, hp, Bool.false_eq_true, ↓reduceIte]
        rw [loop_plugins]
        exact plugin_get_set_self plugins p.ID p
  · intro scope
    have h1 : (r.NewScopedRegistry scope).2.used = true := by
      simp only [Registry.NewScopedRegistry]
      split <;> rfl
    have h2 : (r.GetAll scope).2.used = true := rfl
    refine ⟨h1, h2, ?_, ?_⟩
    · simp only [Registry.Register, h1, ↓reduceIte]
    · simp only [Registry.Register, h2, ↓reduceIte]

/-- C29 at the plugin `tracing` on a new registry. -/
theorem Register_rejects_in_order_witness :
    Map.get (NewRegistry.Register sampleBare).2.plugins "tracing" = some sampleBare ∧
    ∀ scope,
      (NewRegistry.NewScopedRegistry scope).2.used = true ∧
      (NewRegistry.GetAll scope).2.used = true ∧
      (NewRegistry.NewScopedRegistry scope).2.Register sampleBare =
        (.error .calledAfterUsage, (NewRegistry.NewScopedRegistry scope).2) ∧
      (NewRegistry.GetAll scope).2.Register sampleBare =
        (.error .calledAfterUsage, (NewRegistry.GetAll scope).2) := by
  have h := Register_rejects_in_order NewRegistry sampleBare (by decide)
  rw [if_neg (by decide), if_neg (by decide), if_neg (by decide)] at h
  exact h

